import Mathlib

/-!
# r2frida bridge (`src/io_frida.c`): request/reply engine and event handlers

A shallow embedding of the part of `io_frida.c` that turns the asynchronous
Frida message channel into blocking request/reply calls:
`perform_request`, `exec_pending_cmd_if_needed`, `perform_request_unlocked`,
`on_stanza`, `on_cmd`, `on_detached`, `on_message`; of the callers of that
engine, `__system_continuation` and `__read`; and of the resolution of a
`frida://` pathname, `resolve_target`, `resolve_device_id_as_uriroot` and
`atopid`.

Modelling conventions.

* The C struct `RIOFrida` becomes a Lean structure.  Pointers that may be
  `NULL` are `Option`s.  Two handles are replaced by the history of what was
  done through them: `script` (every message handed to
  `frida_script_post_sync`, accepted or not) and `r2core` (every command handed
  to `corebind.cmdstr`).  Two logs have no C counterpart: `stderr` (`eprintf`)
  and `dumped` (`r_file_dump`).
* Collaborators outside the repository (the r2 core, the Frida transport, the
  json-glib serialiser) are the fields of `Host`; every theorem quantifies over
  all hosts.  The command executor is a function: it does not call back into
  the bridge.
* `g_assert` aborts the process: handlers return `Except String RIOFrida`,
  the error carrying the failed assertion.  Reference counting and allocation
  failure are not modelled.
* The event thread and the caller thread meet at the session mutex.  A caller
  blocked in `g_cond_wait` has released the mutex; the handlers that run before
  it is woken are one *batch* of events, each handler running as a whole
  (`on_detached` writes `detached` and `detach_reason` before it takes the
  mutex; the embedding does not split it).  `perform_request` takes the list
  of batches, one per `g_cond_wait`; when the list is exhausted while the loop
  condition still holds the caller is still blocked (`Outcome.waiting`).
* Which accesses are made with the mutex held is followed apart from the
  values: a `Thread` keeps the mutex as a flag and logs each access to a
  guarded field, and every function that touches those fields has a companion
  `*_accesses` that follows its statements in order (for `perform_request`,
  along the same run as `perform_request` itself).
-/

namespace R2Frida

/-! ## json-glib values -/

/-- A parsed JSON document (`JsonNode`).  Numbers are integers (`gint64`);
floating point numbers are not modelled. -/
inductive JsonNode where
  | null
  | bool (b : Bool)
  | int (n : Int)
  | str (s : String)
  | array (xs : List JsonNode)
  | object (members : List (String × JsonNode))

/-- A JSON object: its members, looked up by name. -/
abbrev JsonObject := List (String × JsonNode)

/-- A byte blob (`GBytes`). -/
abbrev GBytes := List Nat

/-- The json-glib node kinds returned by `json_node_get_node_type`. -/
inductive JsonNodeType where
  | JSON_NODE_OBJECT
  | JSON_NODE_ARRAY
  | JSON_NODE_VALUE
  | JSON_NODE_NULL
  deriving DecidableEq, Repr

open JsonNodeType

/-- Mirrors `json_node_get_node_type`; an invalid (`NULL`) node reports
`JSON_NODE_NULL`. -/
def json_node_get_node_type : Option JsonNode → JsonNodeType
  | some (.object _) => JSON_NODE_OBJECT
  | some (.array _) => JSON_NODE_ARRAY
  | some (.bool _) => JSON_NODE_VALUE
  | some (.int _) => JSON_NODE_VALUE
  | some (.str _) => JSON_NODE_VALUE
  | some .null => JSON_NODE_NULL
  | none => JSON_NODE_NULL

/-- Mirrors `json_node_get_object`: the object held by the node, `NULL`
otherwise. -/
def json_node_get_object : JsonNode → Option JsonObject
  | .object ms => some ms
  | _ => none

/-- Mirrors `json_node_get_string`: the string held by the node, `NULL`
otherwise. -/
def json_node_get_string : Option JsonNode → Option String
  | some (.str s) => some s
  | _ => none

/-- Mirrors `json_object_get_member`; a `NULL` object has no members. -/
def json_object_get_member (object : Option JsonObject) (member_name : String) : Option JsonNode :=
  match object with
  | none => none
  | some ms => ms.lookup member_name

/-- Mirrors `json_object_has_member`. -/
def json_object_has_member (object : Option JsonObject) (member_name : String) : Bool :=
  (json_object_get_member object member_name).isSome

/-- Mirrors `json_object_get_string_member`: `NULL` unless the member exists and
holds a string. -/
def json_object_get_string_member (object : Option JsonObject) (member_name : String) : Option String :=
  json_node_get_string (json_object_get_member object member_name)

/-- Mirrors `json_object_get_object_member`: `NULL` unless the member exists and
holds an object. -/
def json_object_get_object_member (object : Option JsonObject) (member_name : String) : Option JsonObject :=
  match json_object_get_member object member_name with
  | some (.object ms) => some ms
  | _ => none

/-- Reinterpretation of an integer as an unsigned 64-bit value (`ut64`). -/
def to_ut64 (n : Int) : Nat := (n % (2 ^ 64 : Int)).toNat

/-- Reinterpretation of a `ut64` as a signed 64-bit value (`gint64`). -/
def to_gint64 (n : Nat) : Int :=
  if n % 2 ^ 64 < 2 ^ 63 then ((n % 2 ^ 64 : Nat) : Int) else ((n % 2 ^ 64 : Nat) : Int) - (2 ^ 64 : Int)

/-- Mirrors `json_object_get_int_member`: `0` unless the member exists and holds
a value; a boolean counts as `0` or `1`. -/
def json_object_get_int_member (object : Option JsonObject) (member_name : String) : Int :=
  match json_object_get_member object member_name with
  | some (.int n) => n
  | some (.bool b) => if b then 1 else 0
  | _ => 0

/-- What `printf ("%s", p)` prints: the string, or `(null)` for a `NULL`
pointer. -/
def cstr : Option String → String
  | some s => s
  | none => "(null)"

/-! ## Data model -/

/-- The C struct `RFPendingCmd`. -/
structure RFPendingCmd where
  cmd_string : Option String
  serial : Nat
  _cmd_json : Option JsonObject

/-- The enum `FridaSessionDetachReason` of frida-core. -/
inductive FridaSessionDetachReason where
  | APPLICATION_REQUESTED
  | PROCESS_REPLACED
  | PROCESS_TERMINATED
  | SERVER_TERMINATED
  | DEVICE_LOST
  deriving DecidableEq, Repr

/-- A crash record of frida-core (`FridaCrash`); only its report is read. -/
structure FridaCrash where
  report : String
  deriving DecidableEq, Repr

/-- A `GError` as far as the code looks at it. -/
structure GError where
  cancelled : Bool
  message : String
  deriving DecidableEq, Repr

/-- One call of `frida_script_post_sync`: the JSON document that is serialised
into the message, and the binary payload. -/
structure Post where
  message : JsonNode
  data : Option GBytes

/-- The C struct `RIOFrida`, with `script` and `r2core` replaced by histories
and the two logs added (see the module comment).  `detach_reason = none` is the
C value `0`.  The mutex, the condition variable and the handles the bridge
never looks into are left out. -/
structure RIOFrida where
  script : List Post
  pid : Nat
  suspended : Bool
  detached : Bool
  detach_reason : Option FridaSessionDetachReason
  crash : Option FridaCrash
  received_reply : Bool
  reply_stanza : Option JsonObject
  reply_bytes : Option GBytes
  r2core : List (Option String)
  pending_cmd : Option RFPendingCmd
  crash_report : Option String
  stderr : List String
  dumped : List (String × String)

/-- The collaborators of the bridge.  Each is a function of the history so far,
so that successive calls may answer differently. -/
structure Host where
  /-- Result of `rf->io->corebind.cmdstr (rf->r2core, cmd)`, given the commands
  run before. -/
  cmdstr : List (Option String) → Option String → Option String
  /-- The error `frida_script_post_sync` reports for a post, given the earlier
  posts; `none` when the transport accepts it. -/
  frida_script_post_sync : List Post → Post → Option GError
  /-- The serialiser `json_to_string (node, FALSE)`. -/
  json_to_string : JsonNode → String

/-- A `JsonBuilder` between `build_request` and `perform_request`: the request
type and the members added to the payload object so far. -/
structure JsonBuilder where
  type : String
  payload : List (String × JsonNode)

/-- Mirrors `r_io_frida_new`: the fields of a session right after creation
(`R_NEW0` zeroes what is not assigned). -/
def r_io_frida_new : RIOFrida where
  script := []
  pid := 0
  suspended := false
  detached := false
  detach_reason := none
  crash := none
  received_reply := false
  reply_stanza := none
  reply_bytes := none
  r2core := []
  pending_cmd := none
  crash_report := none
  stderr := []
  dumped := []

/-! ## Request building and posting -/

/-- Mirrors `build_request`: an open object with the `type` member written and
the `payload` object begun. -/
def build_request (type : String) : JsonBuilder :=
  ⟨type, []⟩

/-- Mirrors `json_builder_set_member_name` followed by one
`json_builder_add_*_value`: appends a member to the payload object. -/
def json_builder_add (builder : JsonBuilder) (member_name : String) (value : JsonNode) : JsonBuilder :=
  { builder with payload := builder.payload ++ [(member_name, value)] }

/-- The document obtained by closing both objects
(`json_builder_end_object` twice, then `json_builder_get_root`). -/
def json_builder_get_root (builder : JsonBuilder) : JsonNode :=
  .object [("type", .str builder.type), ("payload", .object builder.payload)]

/-- Mirrors `eprintf`: one more chunk of text on standard error. -/
def eprintf (rf : RIOFrida) (text : String) : RIOFrida :=
  { rf with stderr := rf.stderr ++ [text] }

/-- The part shared by `perform_request` and `perform_request_unlocked`:
serialise, call `frida_script_post_sync`, and report an error that is not a
cancellation.  Returns the error alongside the session. -/
def post_message (host : Host) (rf : RIOFrida) (builder : JsonBuilder) (data : Option GBytes) :
    RIOFrida × Option GError :=
  let post : Post := ⟨json_builder_get_root builder, data⟩
  let error := host.frida_script_post_sync rf.script post
  let rf := { rf with script := rf.script ++ [post] }
  match error with
  | some e => (if e.cancelled then rf else eprintf rf ("error: " ++ e.message ++ "\n"), some e)
  | none => (rf, none)

/-- Mirrors `perform_request_unlocked`: post, report an error, never wait. -/
def perform_request_unlocked (host : Host) (rf : RIOFrida) (builder : JsonBuilder)
    (data : Option GBytes) : RIOFrida :=
  (post_message host rf builder data).1

/-- Mirrors `exec_pending_cmd_if_needed` (the drain step): with a pending
command, run it through `cmdstr`, clear the slot, and when the command produced
an output post a `cmd` message with that output and the serial. -/
def exec_pending_cmd_if_needed (host : Host) (rf : RIOFrida) : RIOFrida :=
  match rf.pending_cmd with
  | none => rf
  | some pending_cmd =>
    let output := host.cmdstr rf.r2core pending_cmd.cmd_string
    let rf := { rf with r2core := rf.r2core ++ [pending_cmd.cmd_string] }
    let serial := pending_cmd.serial
    let rf := { rf with pending_cmd := none }
    match output with
    | some output =>
      let builder := build_request "cmd"
      let builder := json_builder_add builder "output" (.str output)
      let builder := json_builder_add builder "serial" (.int (to_gint64 serial))
      perform_request_unlocked host rf builder none
    | none => rf

/-! ## Event handlers -/

/-- Mirrors `pending_cmd_create`. -/
def pending_cmd_create (cmd_json : JsonObject) : RFPendingCmd where
  _cmd_json := some cmd_json
  cmd_string := json_object_get_string_member (some cmd_json) "cmd"
  serial := to_ut64 (json_object_get_int_member (some cmd_json) "serial")

/-- The zeroed `RFPendingCmd` made by `R_NEW0` (a wake with no command). -/
def RFPendingCmd.zero : RFPendingCmd :=
  ⟨none, 0, none⟩

/-- Mirrors `on_stanza`: asserts that no reply is stored, then stores the reply
and signals. -/
def on_stanza (rf : RIOFrida) (stanza : JsonObject) (bytes : Option GBytes) : Except String RIOFrida :=
  if rf.reply_stanza.isNone && rf.reply_bytes.isNone then
    .ok { rf with received_reply := true, reply_stanza := some stanza, reply_bytes := bytes }
  else
    .error "assertion failed: (!rf->reply_stanza && !rf->reply_bytes)"

/-- Mirrors `detachReasonAsString`. -/
def detachReasonAsString (rf : RIOFrida) : String :=
  match rf.detach_reason with
  | none => "NONE"
  | some .APPLICATION_REQUESTED => "FRIDA_SESSION_DETACH_REASON_APPLICATION_REQUESTED"
  | some .PROCESS_REPLACED => "FRIDA_SESSION_DETACH_REASON_PROCESS_REPLACED"
  | some .PROCESS_TERMINATED => "FRIDA_SESSION_DETACH_REASON_PROCESS_TERMINATED"
  | some .SERVER_TERMINATED => "FRIDA_SESSION_DETACH_REASON_SERVER_TERMINATED"
  | some .DEVICE_LOST => "FRIDA_SESSION_DETACH_REASON_DEVICE_LOST"

/-- Mirrors `on_detached`. -/
def on_detached (rf : RIOFrida) (reason : FridaSessionDetachReason) (crash : Option FridaCrash) :
    RIOFrida :=
  let rf := { rf with detached := true }
  let rf := { rf with detach_reason := some reason }
  let rf := eprintf rf ("DetachReason: " ++ detachReasonAsString rf ++ "\n")
  let rf :=
    match crash with
    | some c =>
      let rf := { rf with crash_report := some c.report }
      eprintf rf ("CrashReport: " ++ c.report ++ "\n")
    | none => rf
  { rf with crash := crash }

/-- Mirrors `on_cmd`: asserts that no command is pending, then stores the
command (or a zeroed one when there is no stanza) and signals. -/
def on_cmd (rf : RIOFrida) (cmd_stanza : Option JsonObject) : Except String RIOFrida :=
  if rf.pending_cmd.isNone then
    match cmd_stanza with
    | some cmd_stanza => .ok { rf with pending_cmd := some (pending_cmd_create cmd_stanza) }
    | none => .ok { rf with pending_cmd := some RFPendingCmd.zero }
  else
    .error "assertion failed: (!rf->pending_cmd)"

/-- Mirrors `r_str_startswith`: false for a `NULL` string. -/
def r_str_startswith (str : Option String) (needle : String) : Bool :=
  match str with
  | some str => str.startsWith needle
  | none => false

/-- The text a `log` or `log-file` stanza carries: an object is serialised,
anything else goes through `strdup (json_object_get_string_member (..))`,
which dereferences `NULL` (a crash, here an error) when the member is missing or
is not a string. -/
def stanza_message (host : Host) (stanza : JsonObject) : Except String String :=
  match json_object_get_member (some stanza) "message" with
  | some (.object members) => .ok (host.json_to_string (.object members))
  | _ =>
    match json_object_get_string_member (some stanza) "message" with
    | some message => .ok message
    | none => .error "strdup (NULL)"

/-- Mirrors `on_message`.  `message` is the value of
`json_from_string (raw_message, NULL)`. -/
def on_message (host : Host) (rf : RIOFrida) (raw_message : String) (message : Option JsonNode)
    (data : Option GBytes) : Except String RIOFrida :=
  match message with
  | none => .error "assertion failed: (message != NULL)"
  | some message =>
    let root := json_node_get_object message
    match json_object_get_string_member root "type" with
    | none => .ok rf
    | some type =>
      if type = "send" then
        let payload_node := json_object_get_member root "payload"
        if json_node_get_node_type payload_node = JSON_NODE_OBJECT then
          let payload := json_object_get_object_member root "payload"
          if payload.isSome && json_object_has_member payload "stanza" then
            let stanza := json_object_get_object_member payload "stanza"
            let name := json_object_get_string_member payload "name"
            if name = some "reply" then
              match stanza with
              | some stanza =>
                let stanza_node := json_object_get_member payload "stanza"
                if json_node_get_node_type stanza_node = JSON_NODE_OBJECT then
                  on_stanza rf stanza data
                else
                  .ok (eprintf rf ("Bug in the agent, cannot find stanza in the message: "
                    ++ raw_message ++ "\n"))
              | none =>
                .ok (eprintf rf ("Bug in the agent, expected an object: " ++ raw_message ++ "\n"))
            else if name = some "cmd" then
              on_cmd rf (json_object_get_object_member payload "stanza")
            else if name = some "log" then
              match stanza with
              | some stanza =>
                match stanza_message host stanza with
                | .ok message => .ok (eprintf rf (message ++ "\n"))
                | .error crash => .error crash
              | none => .ok rf
            else if name = some "log-file" then
              match stanza with
              | some stanza =>
                let filename := json_object_get_string_member (some stanza) "filename"
                match stanza_message host stanza with
                | .ok message =>
                  let message := message ++ "\n"
                  match filename with
                  | some filename => .ok { rf with dumped := rf.dumped ++ [(filename, message)] }
                  | none => .ok rf
                | .error crash => .error crash
              | none => .ok rf
            else
              if !r_str_startswith name "action-" then
                .ok (eprintf rf ("Unknown packet named '" ++ cstr name ++ "'\n"))
              else
                .ok rf
          else
            .ok (eprintf rf "Unexpected payload\n")
        else
          .ok (eprintf rf ("Bug in the agent, expected an object: " ++ raw_message ++ "\n"))
      else if type = "log" then
        let payload_node := json_object_get_member root "payload"
        match json_node_get_string payload_node with
        | some message => .ok (eprintf rf (message ++ "\n"))
        | none => .ok rf
      else
        .ok (eprintf rf ("Unhandled message: " ++ raw_message ++ "\n"))

/-! ## The request/reply engine -/

/-- What the event thread can deliver: the `message` signal of the script and
the `detached` signal of the session. -/
inductive Event where
  | message (raw_message : String) (message : Option JsonNode) (data : Option GBytes)
  | detached (reason : FridaSessionDetachReason) (crash : Option FridaCrash)

/-- Runs the handler connected to the signal. -/
def handle (host : Host) (rf : RIOFrida) : Event → Except String RIOFrida
  | .message raw_message message data => on_message host rf raw_message message data
  | .detached reason crash => .ok (on_detached rf reason crash)

/-- Runs the handlers of one batch of events, in arrival order; a failed
assertion aborts. -/
def deliver (host : Host) : RIOFrida → List Event → Except String RIOFrida
  | rf, [] => .ok rf
  | rf, e :: es =>
    match handle host rf e with
    | .ok rf => deliver host rf es
    | .error assertion => .error assertion

/-- How a blocking call ends. -/
inductive Outcome where
  /-- The call returned `result` (`none` is `NULL`), having written `bytes` to
  the out-parameter (`none`: the out-parameter was not written). -/
  | returned (rf : RIOFrida) (result : Option JsonObject) (bytes : Option (Option GBytes))
  /-- An assertion of a handler failed while the call was blocked. -/
  | aborted (assertion : String)
  /-- The call is still blocked in `g_cond_wait`. -/
  | waiting (rf : RIOFrida)

/-- How the wait loop ends. -/
inductive Wait where
  | woke (rf : RIOFrida)
  | aborted (assertion : String)
  | waiting (rf : RIOFrida)

/-- The loop `while (!rf->detached && !rf->received_reply)` of
`perform_request`: each `g_cond_wait` lets one batch of events through, and is
followed by a drain. -/
def wait_loop (host : Host) : RIOFrida → List (List Event) → Wait
  | rf, [] => if !rf.detached && !rf.received_reply then .waiting rf else .woke rf
  | rf, batch :: wakes =>
    if !rf.detached && !rf.received_reply then
      match deliver host rf batch with
      | .ok rf => wait_loop host (exec_pending_cmd_if_needed host rf) wakes
      | .error assertion => .aborted assertion
    else
      .woke rf

/-- The message `perform_request` prints for a detach reason when it has no
reply. -/
def detach_warning : Option FridaSessionDetachReason → Option String
  | some .PROCESS_TERMINATED => some "Target process terminated\n"
  | some .SERVER_TERMINATED => some "Server terminated\n"
  | some .DEVICE_LOST => some "Device lost\n"
  | some .PROCESS_REPLACED => some "Process replaced\n"
  | some .APPLICATION_REQUESTED => none
  | none => none

/-- The part of `perform_request` after `g_mutex_unlock`: no reply is a failure
(with a warning for the detach reason), a reply with an `error` member is a
failure that prints the error, any other reply is returned together with its
bytes when the caller asked for them. -/
def finish_request (rf : RIOFrida) (reply_stanza : Option JsonObject) (reply_bytes : Option GBytes)
    (bytes : Bool) : Outcome :=
  match reply_stanza with
  | none =>
    match detach_warning rf.detach_reason with
    | some warning => .returned (eprintf rf warning) none none
    | none => .returned rf none none
  | some stanza =>
    if json_object_has_member (some stanza) "error" then
      .returned (eprintf rf ("error: " ++ cstr (json_object_get_string_member (some stanza) "error")
        ++ "\n")) none none
    else
      .returned rf (some stanza) (if bytes then some reply_bytes else none)

/-- The part of `perform_request` between the wait loop and
`g_mutex_unlock`: when a reply was received it is moved out of the session
(the slot is cleared), then the request is finished. -/
def take_reply (rf : RIOFrida) (bytes : Bool) : Outcome :=
  if rf.received_reply then
    finish_request
      { rf with reply_stanza := none, reply_bytes := none, received_reply := false }
      rf.reply_stanza rf.reply_bytes bytes
  else
    finish_request rf none none bytes

/-- The part of `perform_request` from `g_mutex_lock` on: one drain, the wait
loop, then the reply is taken. -/
def await_reply (host : Host) (rf : RIOFrida) (bytes : Bool) (wakes : List (List Event)) : Outcome :=
  match wait_loop host (exec_pending_cmd_if_needed host rf) wakes with
  | .aborted assertion => .aborted assertion
  | .waiting rf => .waiting rf
  | .woke rf => take_reply rf bytes

/-- Mirrors `perform_request`.  `bytes` tells whether the caller passed an
out-parameter for the reply bytes; `wakes` are the batches of events delivered
during the successive `g_cond_wait`s.  A post that fails returns `NULL` before
the mutex is taken. -/
def perform_request (host : Host) (rf : RIOFrida) (builder : JsonBuilder) (data : Option GBytes)
    (bytes : Bool) (wakes : List (List Event)) : Outcome :=
  match post_message host rf builder data with
  | (rf, some _) => .returned rf none none
  | (rf, none) => await_reply host rf bytes wakes

/-! ## The messages of the protocol -/

/-- The inbound envelope of a reply:
`{type:"send", payload:{name:"reply", stanza:s}}`. -/
def reply_message (s : JsonObject) : JsonNode :=
  .object [("type", .str "send"), ("payload", .object [("name", .str "reply"), ("stanza", .object s)])]

/-- The inbound envelope of a callback invocation:
`{type:"send", payload:{name:"cmd", stanza:c}}`. -/
def cmd_message (c : JsonObject) : JsonNode :=
  .object [("type", .str "send"), ("payload", .object [("name", .str "cmd"), ("stanza", .object c)])]

/-- The outbound callback result:
`{type:"cmd", payload:{output:<text>, serial:n}}`, without binary payload. -/
def cmd_result (output : String) (serial : Int) : Post :=
  ⟨.object [("type", .str "cmd"), ("payload", .object [("output", .str output), ("serial", .int serial)])],
    none⟩

/-- The post `perform_request` makes for a builder and a binary payload. -/
def request_post (builder : JsonBuilder) (data : Option GBytes) : Post :=
  ⟨json_builder_get_root builder, data⟩

/-! ## Concrete hosts and requests used to instantiate the theorems -/

/-- A host whose executor answers every command with a text and whose transport
accepts every post. -/
def echo_host : Host where
  cmdstr := fun _ cmd => some ("r2> " ++ cstr cmd)
  frida_script_post_sync := fun _ _ => none
  json_to_string := fun _ => "json"

/-- A host whose executor produces no output (`cmdstr` returns `NULL`) and whose
transport accepts every post. -/
def mute_host : Host where
  cmdstr := fun _ _ => none
  frida_script_post_sync := fun _ _ => none
  json_to_string := fun _ => "json"

/-- The request `__read` builds for 4 bytes at offset `0x1000`. -/
def read_request : JsonBuilder :=
  json_builder_add (json_builder_add (build_request "read") "offset" (.int 4096)) "count" (.int 4)

/-- The request `__system_continuation` builds to run a command in the agent. -/
def perform_command (command : String) : JsonBuilder :=
  json_builder_add (build_request "perform") "command" (.str command)

/-- A session with the callback `pd 1`, serial `7`, pending. -/
def session_with_callback : RIOFrida :=
  { r_io_frida_new with
    pending_cmd := some (pending_cmd_create [("cmd", .str "pd 1"), ("serial", .int 7)]) }

/-- A session detached because the target process terminated. -/
def session_after_detach : RIOFrida :=
  on_detached r_io_frida_new .PROCESS_TERMINATED none

/-- A detached session into which `on_stanza` has stored a reply afterwards. -/
def session_with_late_reply : RIOFrida :=
  { session_after_detach with
    received_reply := true, reply_stanza := some [("value", .str "late")], reply_bytes := none }

/-- The reply stanza of scenario D. -/
def no_such_symbol : JsonObject :=
  [("error", .str "no such symbol")]

/-! ## Reachable sessions -/

/-- One step in the life of a session: a handler run by the event thread, a
whole request (with the events delivered during its waits), or one of the two
things a request does before it waits, so that the sessions the handlers see
while a request is blocked are reachable too. -/
inductive Step (host : Host) : RIOFrida → RIOFrida → Prop where
  | on_message {rf rf' : RIOFrida} (raw : String) (m : Option JsonNode) (d : Option GBytes) :
      on_message host rf raw m d = .ok rf' → Step host rf rf'
  | on_stanza {rf rf' : RIOFrida} (s : JsonObject) (b : Option GBytes) :
      on_stanza rf s b = .ok rf' → Step host rf rf'
  | on_cmd {rf rf' : RIOFrida} (c : Option JsonObject) :
      on_cmd rf c = .ok rf' → Step host rf rf'
  | on_detached (rf : RIOFrida) (reason : FridaSessionDetachReason) (crash : Option FridaCrash) :
      Step host rf (on_detached rf reason crash)
  | perform_request {rf rf' : RIOFrida} (builder : JsonBuilder) (data : Option GBytes)
      (bytes : Bool) (wakes : List (List Event)) (result : Option JsonObject)
      (out : Option (Option GBytes)) :
      perform_request host rf builder data bytes wakes = .returned rf' result out →
      Step host rf rf'
  | post (rf : RIOFrida) (builder : JsonBuilder) (data : Option GBytes) :
      Step host rf (post_message host rf builder data).1
  | drain (rf : RIOFrida) : Step host rf (exec_pending_cmd_if_needed host rf)

/-- The sessions reachable from `rf0` by any sequence of steps. -/
def Reachable (host : Host) (rf0 rf : RIOFrida) : Prop :=
  Relation.ReflTransGen (Step host) rf0 rf

/-- A property of sessions kept by the three state-changing handlers, by any
change of the histories, by clearing the callback slot and by clearing the
reply slot. -/
structure Stable (P : RIOFrida → Prop) : Prop where
  stanza : ∀ (rf rf' : RIOFrida) (s : JsonObject) (b : Option GBytes),
    P rf → on_stanza rf s b = .ok rf' → P rf'
  cmd : ∀ (rf rf' : RIOFrida) (c : Option JsonObject), P rf → on_cmd rf c = .ok rf' → P rf'
  detach : ∀ (rf : RIOFrida) (reason : FridaSessionDetachReason) (crash : Option FridaCrash),
    P rf → P (on_detached rf reason crash)
  histories : ∀ (rf : RIOFrida) (script : List Post) (r2core : List (Option String))
    (stderr : List String) (dumped : List (String × String)),
    P rf → P { rf with script := script, r2core := r2core, stderr := stderr, dumped := dumped }
  drained : ∀ rf : RIOFrida, P rf → P { rf with pending_cmd := none }
  taken : ∀ rf : RIOFrida, P rf →
    P { rf with reply_stanza := none, reply_bytes := none, received_reply := false }

/-- The agreement between the flag and the slot: `received_reply` is set exactly
when a stanza is stored, and bytes are only stored with a stanza. -/
def reply_slot_consistent (rf : RIOFrida) : Prop :=
  rf.received_reply = rf.reply_stanza.isSome ∧ (rf.reply_bytes.isSome = true → rf.reply_stanza.isSome = true)

/-! ## C strings and number parsing -/

/-- A C string: its characters up to the terminating `NUL`. -/
abbrev CString := List Char

/-- Mirrors `strncmp (s, needle, strlen (needle)) == 0`: `s` begins with
`needle`. -/
def starts_with : CString → CString → Bool
  | _, [] => true
  | [], _ :: _ => false
  | c :: s, d :: needle => c == d && starts_with s needle

/-- Mirrors `strchr (s, c)` followed by cutting the string there: the part
before the first `c` and the part after it, or `none` when `c` does not
occur. -/
def strchr_split (c : Char) : CString → Option (CString × CString)
  | [] => none
  | x :: xs =>
    if x = c then some ([], xs)
    else
      match strchr_split c xs with
      | some (before, after) => some (x :: before, after)
      | none => none

/-- The C `isspace` in the C locale. -/
def isspace (c : Char) : Bool :=
  c.toNat = 32 || (9 ≤ c.toNat && c.toNat ≤ 13)

/-- The C `isdigit`. -/
def isdigit (c : Char) : Bool :=
  48 ≤ c.toNat && c.toNat ≤ 57

/-- The number written by a run of decimal digits. -/
def digits_value (ds : CString) : Nat :=
  ds.foldl (fun acc c => acc * 10 + (c.toNat - 48)) 0

/-- Mirrors `strtol (s, &endptr, 10)` with a 64-bit `long`: white space, an
optional sign, then digits.  Returns the value (clamped to the range of `long`)
and `endptr - s`, the number of characters consumed; without a digit nothing is
consumed and the value is `0`. -/
def strtol (s : CString) : Int × Nat :=
  let blanks := s.takeWhile isspace
  let s1 := s.dropWhile isspace
  let negative := s1.head? = some '-'
  let signed := s1.head? = some '-' || s1.head? = some '+'
  let s2 := if signed then s1.tail else s1
  let ds := s2.takeWhile isdigit
  if ds.isEmpty then (0, 0)
  else
    let magnitude : Int := digits_value ds
    let value : Int := if negative then -magnitude else magnitude
    let clamped : Int := max (-(2 ^ 63 : Int)) (min value ((2 ^ 63 : Int) - 1))
    (clamped, blanks.length + (if signed then 1 else 0) + ds.length)

/-- Conversion of a `long` to `int` (32 bits, two's complement). -/
def to_int (n : Int) : Int :=
  (n + (2 ^ 31 : Int)) % (2 ^ 32 : Int) - (2 ^ 31 : Int)

/-- Conversion of an `int` to `guint`. -/
def to_guint (n : Int) : Nat :=
  (n % (2 ^ 32 : Int)).toNat

/-- Mirrors `atopid`: the number `strtol` reads, as an `int`, and whether the
whole string was consumed. -/
def atopid (maybe_pid : CString) : Int × Bool :=
  let parsed := strtol maybe_pid
  (to_int parsed.1, parsed.2 == maybe_pid.length)

/-- Mirrors `atoi`. -/
def atoi (s : CString) : Int :=
  to_int (strtol s).1

/-! ## Target resolution -/

/-- The C struct `R2FridaLaunchOptions`. -/
structure R2FridaLaunchOptions where
  device_id : Option CString
  process_specifier : Option CString
  pid : Nat
  pid_valid : Bool
  spawn : Bool
  run : Bool
  deriving DecidableEq, Repr

/-- Mirrors `r2frida_launchopt_new`: all fields zero. -/
def r2frida_launchopt_new : R2FridaLaunchOptions :=
  ⟨none, none, 0, false, false, false⟩

/-- What target resolution shows on the way: text on standard error and the
listings of devices and processes. -/
inductive Shown where
  | eprintf (text : String)
  | dumpProcesses (device : CString)
  | dumpDevices
  deriving DecidableEq, Repr

/-- The collaborators of target resolution. -/
structure Finder where
  /-- The function `r_file_path`: the absolute path of a program found in `PATH`,
  if any. -/
  r_file_path : CString → Option CString
  /-- Whether `get_device_manager (device_manager, "usb", ..)` finds a device. -/
  get_usb_device : Bool
  /-- The error of `frida_device_manager_get_device_by_id_sync`, `none` when the
  device is found. -/
  get_device_by_id : CString → Option GError

/-- Mirrors `is_process_action`. -/
def is_process_action (rest : CString) : Bool :=
  rest = ['a', 't', 't', 'a', 'c', 'h'] || rest = ['s', 'p', 'a', 'w', 'n']
    || rest = ['l', 'a', 'u', 'n', 'c', 'h']

/-- The branches `usb` and `connect` of `resolve_device_id_as_uriroot`, and its
final `return false`.  These are the only branches its recursive calls can
reach, the first word passed there being `usb` or `connect`. -/
def resolve_device_root (finder : Finder) (path arg : CString) (lo : R2FridaLaunchOptions)
    (shown : List Shown) : Bool × R2FridaLaunchOptions × List Shown :=
  if path = ['u', 's', 'b'] then
    match strchr_split '/' arg with
    | some (rest, slash) =>
      let third := (strchr_split '/' slash).map (·.2)
      let slash := ((strchr_split '/' slash).map (·.1)).getD slash
      if is_process_action rest then
        let lo := { lo with device_id := some slash }
        let lo := { lo with process_specifier := some (third.getD []) }
        let lo := { lo with pid := to_guint (atopid (third.getD [])).1,
                            pid_valid := (atopid (third.getD [])).2 }
        (true, lo, shown)
      else if slash ≠ [] then
        let lo := { lo with pid := to_guint (atopid slash).1, pid_valid := (atopid slash).2 }
        let lo := { lo with device_id := some rest }
        let lo := { lo with process_specifier := some slash }
        (!rest.isEmpty, lo, shown)
      else if finder.get_usb_device then
        (true, lo, shown ++ [.dumpProcesses ['u', 's', 'b']])
      else
        (false, lo, shown ++ [.eprintf "Cannot find an USB device\n"])
    | none =>
      if arg ≠ [] then
        match finder.get_device_by_id arg with
        | none => (true, lo, shown ++ [.dumpProcesses arg])
        | some error =>
          (false, lo,
            if error.cancelled then shown
            else shown ++ [.eprintf (String.mk arg ++ ": " ++ error.message ++ "\n")])
      else
        (true, lo, shown ++ [.dumpDevices])
  else if path = ['c', 'o', 'n', 'n', 'e', 'c', 't'] then
    match strchr_split '/' arg with
    | some (peer, slash) =>
      let lo := { lo with device_id := some peer }
      let lo := { lo with pid := to_guint (atopid slash).1, pid_valid := (atopid slash).2 }
      let lo := { lo with process_specifier := some slash }
      (true, lo, shown)
    | none =>
      (true, { lo with device_id := some arg },
        shown ++ [.eprintf "Usage: r2 frida://connect/ip:port/pid\n",
          .eprintf "Note: no hostname resolution supported yet.\n"])
  else
    (false, lo, shown)

/-- The test `first_word_len == 3 && !strncmp (arg, "usb", 3)` or the same for
`connect`, made on the part of `arg` before its first slash. -/
def is_device_root (first_word : CString) : Bool :=
  first_word = ['u', 's', 'b'] || first_word = ['c', 'o', 'n', 'n', 'e', 'c', 't']

/-- Mirrors `resolve_device_id_as_uriroot` (compiled for Unix, where the
program of `launch` and `spawn` goes through `r_file_path`). -/
def resolve_device_id_as_uriroot (finder : Finder) (path arg : CString)
    (lo : R2FridaLaunchOptions) (shown : List Shown) :
    Bool × R2FridaLaunchOptions × List Shown :=
  if path = ['l', 'a', 'u', 'n', 'c', 'h'] then
    let lo := { lo with device_id := none, spawn := true, run := true }
    match strchr_split '/' arg with
    | some (first_word, rest) =>
      if is_device_root first_word then resolve_device_root finder first_word rest lo shown
      else (true, { lo with process_specifier := some ((finder.r_file_path arg).getD arg) }, shown)
    | none => (true, { lo with process_specifier := some ((finder.r_file_path arg).getD arg) }, shown)
  else if path = ['s', 'p', 'a', 'w', 'n'] then
    let lo := { lo with device_id := none, spawn := true }
    match strchr_split '/' arg with
    | some (first_word, rest) =>
      if is_device_root first_word then resolve_device_root finder first_word rest lo shown
      else (true, { lo with process_specifier := some ((finder.r_file_path arg).getD arg) }, shown)
    | none => (true, { lo with process_specifier := some ((finder.r_file_path arg).getD arg) }, shown)
  else if path = ['a', 't', 't', 'a', 'c', 'h'] then
    let lo := { lo with device_id := none }
    match strchr_split '/' arg with
    | some (first_word, rest) =>
      if is_device_root first_word then resolve_device_root finder first_word rest lo shown
      else
        (true, { lo with process_specifier := some arg, pid := to_guint (atopid arg).1,
                         pid_valid := (atopid arg).2 }, shown)
    | none =>
      (true, { lo with process_specifier := some arg, pid := to_guint (atopid arg).1,
                       pid_valid := (atopid arg).2 }, shown)
  else
    resolve_device_root finder path arg lo shown

/-- The end of `resolve_target`, reached when the first word is no known root:
the old short URIs `frida://device/process` and `frida://device//program`. -/
def old_short_uri (first_word second_field : CString) (lo : R2FridaLaunchOptions) :
    R2FridaLaunchOptions :=
  let lo := { lo with device_id := some first_word }
  if second_field.head? = some '/' then
    let lo := { lo with spawn := true }
    { lo with process_specifier := some second_field.tail }
  else
    { lo with process_specifier := some second_field }

/-- The usage text `resolve_target` prints for `frida://?`, one `eprintf` per
line. -/
def resolve_target_help : List String :=
  ["r2 frida://[action]/[target]\n",
   "* target = process-id | process-name | app-name\n",
   "* program = find-in-path | abspath # path or name (in PATH) to program\n",
   "* device = device-id | ''          # as listed in frida-ls-devices\n",
   "* peer = ip-address:port           # no hostname resolution\n",
   "* action = attach | launch | spawn # actions to be done on connect\n",
   "Localhost:\n",
   "* frida://                         # list local processes\n",
   "* frida://0                        # attach to frida-helper (no spawn needed)\n",
   "* frida:///usr/local/bin/rax2      # abspath to spawn\n",
   "* frida://spawn/$(program)         # spawn a new process in the current system\n",
   "* frida://attach/(target)          # attach to target PID in current host\n",
   "Network:\n",
   "* frida://connect/$(peer)/$(target)           # connect to remote frida-server\n",
   "* frida://$(action)/connect/$(peer)/$(target) # connect to remote frida-server\n",
   "USB:\n",
   "* frida://usb/                     # list USB devices\n",
   "* frida://usb//                    # list processes\n",
   "* frida://usb//0                   # attach to frida-server via USB\n",
   "* frida://usb//1234                # attach to given PID in the first USB device\n",
   "* frida://usb/$(peer)              # list process-names\n",
   "* frida://usb/$(device)/$(program) # same as attach/usb/$device/$program\n",
   "* frida://$(action)/usb/$(device)/$(target)   # USB attach to target process\n",
   "* frida://usb/$(action)/$(device)/$(program)  # same as above\n",
   "Short URIs: (old)\n",
   "* frida://$(target)                # local process attach\n",
   "* frida://$(device)/$(target)      # attach device\n",
   "* frida:///$(program)              # spawn local\n",
   "* frida://$(device)//$(program)    # spawn device\n",
   "Environment:\n",
   "  R2FRIDA_SAFE_IO                  # Workaround a Frida bug on Android/thumb\n",
   "  R2FRIDA_DEBUG                    # Used to debug argument parsing behaviour\n",
   "  R2FRIDA_AGENT_SCRIPT             # path to file of the r2frida agent\n"]

/-- Mirrors `resolve_target`.  `pathname` begins with `frida://` (checked by
`__check`); the first field starts after these 8 characters. -/
def resolve_target (finder : Finder) (pathname : CString) (lo : R2FridaLaunchOptions)
    (shown : List Shown) : Bool × R2FridaLaunchOptions × List Shown :=
  let first_field := pathname.drop 8
  if first_field = ['?'] then
    (false, lo, shown ++ resolve_target_help.map Shown.eprintf)
  else
    let lo := { lo with run := false }
    let lo := { lo with spawn := false }
    let path_like := first_field.head? = some '/' || starts_with first_field ['.', '/']
    let lo := if path_like then { lo with spawn := true } else lo
    let second_field := if path_like then none else strchr_split '/' first_field
    match second_field with
    | none =>
      let lo := { lo with device_id := none }
      let lo := { lo with pid := to_guint (atoi first_field) }
      let lo := { lo with spawn := (lo.pid == 0 && first_field.head? != some '0') }
      let lo := { lo with
        process_specifier := some ((finder.r_file_path first_field).getD first_field) }
      (true, lo, shown)
    | some (first_word, second_field) =>
      match resolve_device_id_as_uriroot finder first_word second_field lo shown with
      | (true, lo, shown) => (true, lo, shown)
      | (false, lo, shown) => (true, old_short_uri first_word second_field lo, shown)

/-- The three actions of the usage text (`action = attach | launch | spawn`). -/
inductive Action where
  | attach
  | launch
  | spawn
  deriving DecidableEq, Repr

/-- The word that names an action in a URI. -/
def Action.word : Action → CString
  | .attach => ['a', 't', 't', 'a', 'c', 'h']
  | .launch => ['l', 'a', 'u', 'n', 'c', 'h']
  | .spawn => ['s', 'p', 'a', 'w', 'n']

/-- The pathname `frida://` followed by `rest`. -/
def frida_uri (rest : CString) : CString :=
  ['f', 'r', 'i', 'd', 'a', ':', '/', '/'] ++ rest

/-- The pathname `frida://usb/<device>/<program>`. -/
def uri_usb (device program : CString) : CString :=
  frida_uri (['u', 's', 'b', '/'] ++ device ++ '/' :: program)

/-- The pathname `frida://<action>/usb/<device>/<program>`. -/
def uri_action_usb (action : Action) (device program : CString) : CString :=
  frida_uri (action.word ++ ['/', 'u', 's', 'b', '/'] ++ device ++ '/' :: program)

/-- The pathname `frida://usb/<action>/<device>/<program>`. -/
def uri_usb_action (action : Action) (device program : CString) : CString :=
  frida_uri (['u', 's', 'b', '/'] ++ action.word ++ '/' :: device ++ '/' :: program)

/-- A finder that finds no program in `PATH` and no device. -/
def bare_finder : Finder where
  r_file_path := fun _ => none
  get_usb_device := false
  get_device_by_id := fun _ => some ⟨false, "device not found"⟩

/-! ## Commands: `__system_continuation` -/

/-- The r2 and Frida calls `__system_continuation` makes besides its requests to
the agent. -/
inductive SystemCall where
  | r_core_cmd (command : String)
  | enable_debugger (port : Int)
  | inject_library (pid : Nat) (path entry : CString)
  | resume (pid : Nat)
  | eternalize (agent_code : String)
  deriving DecidableEq, Repr

/-- The `RIO` as far as commands use it: the seek `off`, what was printed through
`io->cb_printf`, and the calls made on the way. -/
structure RIO where
  off : Nat
  printed : List String
  calls : List SystemCall
  deriving DecidableEq, Repr

/-- The collaborators of `__system_continuation`. -/
structure Shell where
  r_num_math : CString → Int
  frida_session_enable_debugger_sync : Int → Option GError
  frida_device_inject_library_file_sync : Nat → CString → CString → Option GError
  frida_device_resume_sync : Nat → Option GError
  r_core_editor : Option CString → Option String
  r_file_slurp : CString → Option String
  frida_session_create_script_sync : String → Option GError

/-- Mirrors `io->cb_printf`. -/
def cb_printf (io : RIO) (text : String) : RIO :=
  { io with printed := io.printed ++ [text] }

/-- Records a call. -/
def RIO.call (io : RIO) (c : SystemCall) : RIO :=
  { io with calls := io.calls ++ [c] }

/-- Mirrors `r_str_trim_head_ro`: skips blanks, tabs and line ends. -/
def r_str_trim_head_ro (s : CString) : CString :=
  s.dropWhile (fun c => c.toNat = 32 || c.toNat = 9 || c.toNat = 10 || c.toNat = 13)

/-- Mirrors `r_str_endswith`. -/
def r_str_endswith (s needle : CString) : Bool :=
  starts_with s.reverse needle.reverse

/-- Mirrors `resume`. -/
def resume (shell : Shell) (io : RIO) (rf : RIOFrida) : RIO × RIOFrida :=
  let io := io.call (.resume rf.pid)
  match shell.frida_device_resume_sync rf.pid with
  | some error =>
    (if error.cancelled then io
      else cb_printf io ("frida_device_resume_sync: " ++ error.message ++ "\n"), rf)
  | none => (io, eprintf { rf with suspended := false } "resumed spawned process.\n")

/-- Mirrors `__eternalizeScript`. -/
def __eternalizeScript (shell : Shell) (io : RIO) (rf : RIOFrida) (fileName : CString) :
    RIO × RIOFrida × Bool :=
  match shell.r_file_slurp fileName with
  | none => (io, eprintf rf ("Cannot load '" ++ String.mk fileName ++ "'\n"), false)
  | some agent_code =>
    match shell.frida_session_create_script_sync agent_code with
    | some error => (io, eprintf rf (error.message ++ "\n"), false)
    | none => (io.call (.eternalize agent_code), rf, true)

/-- The request by which `__system_continuation` first updates the agent:
`state` with the seek in hexadecimal and the `suspended` flag. -/
def state_request (io : RIO) (rf : RIOFrida) : JsonBuilder :=
  json_builder_add
    (json_builder_add (build_request "state") "offset"
      (.str ("0x" ++ String.mk (Nat.toDigits 16 io.off))))
    "suspended" (.bool rf.suspended)

/-- Where the command dispatch of `__system_continuation` ends: the command was
dealt with locally, or a request is to be sent to the agent. -/
inductive Dispatch where
  | done (io : RIO) (rf : RIOFrida) (result : Option String)
  | forward (io : RIO) (rf : RIOFrida) (builder : JsonBuilder)

/-- A request `evaluate` with one string member. -/
def evaluate_request (member_name : String) (code : String) : JsonBuilder :=
  json_builder_add (build_request "evaluate") member_name (.str code)

/-- The request for a command that is not a script command: `j` wraps Java
code, a leading blank evaluates the rest, anything else is performed by the
agent as it stands. -/
def plain_request (command : CString) : JsonBuilder :=
  if command.head? = some 'j' then
    evaluate_request "code" ("Java.perform(function()\x7b" ++ String.mk (command.drop 1) ++ ";\x7d)")
  else if command.head? = some ' ' then
    evaluate_request "code" (String.mk (command.drop 1))
  else
    json_builder_add (build_request "perform") "command" (.str (String.mk command))

/-- The usage printed on standard error for `.?`. -/
def script_usage : List String :=
  ["Usage: .[-] [filename]  # load and run the given script into the agent\n",
   ".              list loaded plugins via r2frida.pluginRegister()\n",
   ".:[file.js]    run cfg.editor and run the script in the agent\n",
   "..foo.js       load and eternalize given script in the agent size\n",
   ".-foo          unload r2frida plugin via r2frida.pluginUnregister()\n",
   ". file.js      run this script in the agent side\n"]

/-- The part of `__system_continuation` that builds the request (from
`char *slurpedData = NULL` to `free (slurpedData)`). -/
def system_request (shell : Shell) (io : RIO) (rf : RIOFrida) (command : CString) : Dispatch :=
  if command.head? = some '.' then
    match command.tail.head? with
    | some '?' =>
      .forward io { rf with stderr := rf.stderr ++ script_usage } (plain_request command)
    | some ':' =>
      let arg := r_str_trim_head_ro (command.drop 2)
      match shell.r_core_editor (if arg.isEmpty then none else some arg) with
      | some slurpedData => .forward io rf (evaluate_request "code" slurpedData)
      | none => .done io rf none
    | some '.' =>
      let r := __eternalizeScript shell io rf (command.drop 2)
      .done r.1 r.2.1 (some "")
    | some ' ' =>
      match shell.r_file_slurp (command.drop 2) with
      | none => .done (cb_printf io ("Cannot slurp " ++ String.mk (command.drop 2) ++ "\n")) rf none
      | some slurpedData =>
        if r_str_endswith (command.drop 2) ['.', 'c'] then
          .forward io rf (evaluate_request "ccode" slurpedData)
        else
          .forward io rf (evaluate_request "code" slurpedData)
    | some '-' =>
      .forward io rf (evaluate_request "code"
        ("r2frida.pluginUnregister('" ++ String.mk (command.drop 2) ++ "')"))
    | none => .forward io rf (evaluate_request "code" "console.log(r2frida.pluginList())")
    | some _ => .forward io rf (plain_request command)
  else
    .forward io rf (plain_request command)

/-- The lines printed for `dtf?`. -/
def dtf_usage : List String :=
  ["Usage: dtf [format] || dtf [addr] [fmt]\n",
   "  ^  = trace onEnter instead of onExit\n",
   "  +  = show backtrace on trace\n",
   " p/x = show pointer in hexadecimal\n",
   "  c  = show value as a string (char)\n",
   "  i  = show decimal argument\n",
   "  z  = show pointer to string\n",
   "  s  = show string in place\n",
   "  O  = show pointer to ObjC object\n",
   "Undocumented: Z, S\n"]

/-- The lines printed for `e?`. -/
def e_usage : List String :=
  ["Usage: e [var[=value]]Evaluable vars\n",
   "  patch.code      = true\n",
   "  search.in       = perm:r--\n",
   "  search.quiet    = false\n",
   "  stalker.event   = compile\n",
   "  stalker.timeout = 300\n",
   "  stalker.in      = raw\n"]

/-- The branch `dl2` of `__system_continuation`. -/
def system_dl2 (shell : Shell) (io : RIO) (rf : RIOFrida) (command : CString) : RIO :=
  if (command.drop 3).head? = some ' ' then
    let path := r_str_trim_head_ro (command.drop 3)
    let entry := ((strchr_split ' ' path).map (·.2)).getD ['m', 'a', 'i', 'n']
    let path := ((strchr_split ' ' path).map (·.1)).getD path
    let io := io.call (.inject_library rf.pid path entry)
    match shell.frida_device_inject_library_file_sync rf.pid path entry with
    | some error =>
      cb_printf io ("frida_device_inject_library_file_sync: " ++ error.message ++ "\n")
    | none => cb_printf io "done\n"
  else
    cb_printf io "Usage: dl2 [shlib] [entrypoint-name]\n"

/-- The chain of `if`s of `__system_continuation` that follows the `state`
request, up to the request for the agent. -/
def system_dispatch (shell : Shell) (io : RIO) (rf : RIOFrida) (command : CString) : Dispatch :=
  if command = [] then
    .done (io.call (.r_core_cmd ".=!i*")) rf none
  else if starts_with command ['o', '/'] then
    .done (io.call (.r_core_cmd "?E Yay!")) rf none
  else if starts_with command ['d', '.'] then
    let port := if (command.drop 2).head? = some ' ' then shell.r_num_math (command.drop 3) else 0
    let io := io.call (.enable_debugger port)
    match shell.frida_session_enable_debugger_sync port with
    | some error =>
      .done io
        (if error.cancelled then rf
          else eprintf rf ("frida_session_enable_debugger_sync error: " ++ error.message ++ "\n"))
        none
    | none => .done io rf none
  else if starts_with command ['d', 't', 'f', '?'] then
    system_request shell { io with printed := io.printed ++ dtf_usage } rf command
  else if starts_with command ['e', '?'] then
    system_request shell { io with printed := io.printed ++ e_usage } rf command
  else if starts_with command ['s', ' ', ' '] then
    .done (io.call (.r_core_cmd ("s " ++ String.mk (command.drop 2)))) rf none
  else if starts_with command ['d', 'k', 'r'] then
    let io := cb_printf io ("DetachReason: " ++ detachReasonAsString rf ++ "\n")
    match rf.crash_report with
    | some crash_report => .done (cb_printf io (crash_report ++ "\n")) rf none
    | none => .done io rf none
  else if starts_with command ['d', 'l', '2'] then
    .done (system_dl2 shell io rf command) rf none
  else if command = ['d', 'c'] && rf.suspended then
    let r := resume shell io rf
    .done r.1 r.2 none
  else
    system_request shell io rf command

/-- The end of `__system_continuation`: what becomes of the reply of the agent.
Without a reply, or without a `value` member, there is no result; a string
`value` other than `undefined` is returned for the commands beginning with `m`
and printed, followed by a line end, for the others. -/
def system_reply (io : RIO) (command : CString) (result : Option JsonObject) :
    RIO × Option String :=
  match result with
  | none => (io, none)
  | some result =>
    if !json_object_has_member (some result) "value" then (io, none)
    else
      match json_object_get_string_member (some result) "value" with
      | some value =>
        if value ≠ "undefined" then
          if command.head? = some 'm' then (io, some value)
          else (cb_printf io (value ++ "\n"), none)
        else (io, none)
      | none => (io, none)

/-- The help text of `__system_continuation`, handed to `io->cb_printf` in one
call. -/
def system_help : String :=
  "r2frida commands available via =! or \\ prefix\n"
    ++ ". script                   Run script\n"
    ++ "  frida-expression         Run given expression inside the agent\n"
    ++ "/[x][j] <string|hexpairs>  Search hex/string pattern in memory ranges (see search.in=?)\n"
    ++ "/v[1248][j] value          Search for a value honoring `e cfg.bigendian` of given width\n"
    ++ "/w[j] string               Search wide string\n"
    ++ "<space> code..             Evaluate Cycript code\n"
    ++ "?                          Show this help\n"
    ++ "?V                         Show target Frida version\n"
    ++ "chcon file                 Change SELinux context (dl might require this)\n"
    ++ "d.                         Start the chrome tools debugger\n"
    ++ "db (<addr>|<sym>)          List or place breakpoint\n"
    ++ "db- (<addr>|<sym>)|*       Remove breakpoint(s)\n"
    ++ "dc                         Continue breakpoints or resume a spawned process\n"
    ++ "dd[j-][fd] ([newfd])       List, dup2 or close filedescriptors (ddj for JSON)\n"
    ++ "di[0,1,-1] [addr]          Intercept and replace return value of address\n"
    ++ "dk ([pid]) [sig]           Send specific signal to specific pid in the remote system\n"
    ++ "dkr                        Print the crash report (if the app has crashed)\n"
    ++ "dl libname                 Dlopen a library (Android see chcon)\n"
    ++ "dl2 libname [main]         Inject library using Frida's >= 8.2 new API\n"
    ++ "dm[.|j|*]                  Show memory regions\n"
    ++ "dma <size>                 Allocate <size> bytes on the heap, address is returned\n"
    ++ "dma- (<addr>...)           Kill the allocations at <addr> (or all of them without param)\n"
    ++ "dmad <addr> <size>         Allocate <size> bytes on the heap, copy contents from <addr>\n"
    ++ "dmal                       List live heap allocations created with dma[s]\n"
    ++ "dmas <string>              Allocate a string initiated with <string> on the heap\n"
    ++ "dmh                        List all heap allocated chunks\n"
    ++ "dmh*                       Export heap chunks and regions as r2 flags\n"
    ++ "dmhj                       List all heap allocated chunks in JSON\n"
    ++ "dmhm                       Show which maps are used to allocate heap chunks\n"
    ++ "dmm                        List all named squashed maps\n"
    ++ "dmp <addr> <size> <perms>  Change page at <address> with <size>, protection <perms> (rwx)\n"
    ++ "dp                         Show current pid\n"
    ++ "dpt                        Show threads\n"
    ++ "dr                         Show thread registers (see dpt)\n"
    ++ "dt (<addr>|<sym>) ..       Trace list of addresses or symbols\n"
    ++ "dt- (<addr>|<sym>)         Clear trace\n"
    ++ "dt-*                       Clear all tracing\n"
    ++ "dt.                        Trace at current offset\n"
    ++ "dtf <addr> [fmt]           Trace address with format (^ixzO) (see dtf?)\n"
    ++ "dth (addr|sym)(x:0 y:1 ..) Define function header (z=str,i=int,v=hex barray,s=barray)\n"
    ++ "dtl[-*] [msg]              debug trace log console, useful to .\\T*\n"
    ++ "dtr <addr> (<regs>...)     Trace register values\n"
    ++ "dts[*j] seconds            Trace all threads for given seconds using the stalker\n"
    ++ "dtsf[*j] [sym|addr]        Trace address or symbol using the stalker (Frida >= 10.3.13)\n"
    ++ "dxc [sym|addr] [args..]    Call the target symbol with given args\n"
    ++ "e[?] [a[=b]]               List/get/set config evaluable vars\n"
    ++ "env [k[=v]]                Get/set environment variable\n"
    ++ "eval code..                Evaluate Javascript code in agent side\n"
    ++ "fd[*j] <address>           Inverse symbol resolution\n"
    ++ "i                          Show target information\n"
    ++ "iE[*] <lib>                Same as is, but only for the export global ones\n"
    ++ "ic <class>                 List Objective-C/Android Java classes, or methods of <class>\n"
    ++ "ii[*]                      List imports\n"
    ++ "il                         List libraries\n"
    ++ "ip <protocol>              List Objective-C protocols or methods of <protocol>\n"
    ++ "is[*] <lib>                List symbols of lib (local and global ones)\n"
    ++ "isa[*] (<lib>) <sym>       Show address of symbol\n"
    ++ "j java-expression          Run given expression inside a Java.perform(function()\x7b\x7d) block\n"
    ++ "r [r2cmd]                  Run r2 command using r_core_cmd_str API call (use 'dl libr2.so)\n"

/-- How `__system_continuation` ends. -/
inductive SystemOutcome where
  | returned (io : RIO) (rf : RIOFrida) (result : Option String)
  | aborted (assertion : String)
  | waiting (io : RIO) (rf : RIOFrida)

/-- Mirrors `__system_continuation`.  `wakes_state` are the batches of events
delivered while the `state` request waits, `wakes` those delivered while the
request of the command waits. -/
def __system_continuation (host : Host) (shell : Shell) (io : RIO) (rf : RIOFrida)
    (command : CString) (wakes_state wakes : List (List Event)) : SystemOutcome :=
  if command = ['h', 'e', 'l', 'p'] || command = ['h'] || command = ['?'] then
    .returned (cb_printf io system_help) rf none
  else
    match perform_request host rf (state_request io rf) none false wakes_state with
    | .aborted assertion => .aborted assertion
    | .waiting rf => .waiting io rf
    | .returned rf result _ =>
      if result.isNone && !starts_with command ['d', 'k', 'r'] then
        .returned io rf none
      else
        match system_dispatch shell io rf command with
        | .done io rf result => .returned io rf result
        | .forward io rf builder =>
          match perform_request host rf builder none false wakes with
          | .aborted assertion => .aborted assertion
          | .waiting rf => .waiting io rf
          | .returned rf result _ =>
            .returned (system_reply io command result).1 rf (system_reply io command result).2

/-- A shell in which every call succeeds and no file is found. -/
def plain_shell : Shell where
  r_num_math := fun _ => 0
  frida_session_enable_debugger_sync := fun _ => none
  frida_device_inject_library_file_sync := fun _ _ _ => none
  frida_device_resume_sync := fun _ => none
  r_core_editor := fun _ => none
  r_file_slurp := fun _ => none
  frida_session_create_script_sync := fun _ => none

/-- A fresh `RIO` at seek `0x1000`. -/
def io_at_0x1000 : RIO :=
  ⟨4096, [], []⟩

/-- A session detached by `PROCESS_TERMINATED` with a crash report. -/
def session_after_crash : RIOFrida :=
  on_detached r_io_frida_new .PROCESS_TERMINATED (some ⟨"crash log"⟩)

/-- The members of a `send` message whose payload is named `reply` and carries
`null` for a stanza. -/
def reply_with_null_stanza : JsonObject :=
  [("type", .str "send"), ("payload", .object [("name", .str "reply"), ("stanza", .null)])]

/-- The members of a `send` message named `cmd` with no `stanza` member. -/
def cmd_without_stanza : JsonObject :=
  [("type", .str "send"), ("payload", .object [("name", .str "cmd")])]

/-- The members of a `send` message named `cmd` whose stanza is `null`. -/
def cmd_with_null_stanza : JsonObject :=
  [("type", .str "send"), ("payload", .object [("name", .str "cmd"), ("stanza", .null)])]

/-- A `send` message named `log` whose stanza carries a number for a message:
`{"type":"send","payload":{"name":"log","stanza":{"message":42}}}`. -/
def log_without_text : JsonNode :=
  .object [("type", .str "send"),
    ("payload", .object [("name", .str "log"), ("stanza", .object [("message", .int 42)])])]

/-- A `send` message named `log` with a text. -/
def log_hello : JsonNode :=
  .object [("type", .str "send"),
    ("payload", .object [("name", .str "log"), ("stanza", .object [("message", .str "hello")])])]

/-- A session in which a wake with no command is pending. -/
def session_with_heartbeat : RIOFrida :=
  { r_io_frida_new with pending_cmd := some RFPendingCmd.zero }

/-! ## Reading: `__read` -/

/-- The request `__read` builds: `read` with the seek and the count. -/
def read_builder (off : Nat) (count : Int) : JsonBuilder :=
  json_builder_add
    (json_builder_add (build_request "read") "offset" (.int (to_gint64 off)))
    "count" (.int count)

/-- Mirrors `memcpy (buf, data, n)` on a buffer that has room for `n` bytes: the
first `n` bytes of the buffer are replaced by those of `data`. -/
def memcpy (buf data : List Nat) (n : Nat) : List Nat :=
  data.take n ++ buf.drop n

/-- How `__read` ends. -/
inductive ReadOutcome where
  /-- The call returned `result`, leaving `buf` in the buffer. -/
  | returned (rf : RIOFrida) (buf : List Nat) (result : Int)
  /-- An assertion failed. -/
  | aborted (assertion : String)
  /-- The request is still blocked in `g_cond_wait`. -/
  | waiting (rf : RIOFrida)

/-- Mirrors `__read` (with `io`, `fd`, `fd->data` and `buf` not `NULL`).  `n` is
the size `g_bytes_get_data` reports, a `gsize`, returned as an `int`.  A reply
without bytes makes `g_bytes_get_data` fail its check and leaves `n` unset; the
embedding stops there. -/
def __read (host : Host) (io : RIO) (rf : RIOFrida) (buf : List Nat) (count : Int)
    (wakes : List (List Event)) : ReadOutcome :=
  if count > 0 then
    match perform_request host rf (read_builder io.off count) none true wakes with
    | .aborted assertion => .aborted assertion
    | .waiting rf => .waiting rf
    | .returned rf none _ => .returned rf buf (-1)
    | .returned rf (some _) (some (some bytes)) =>
      let n := bytes.length
      .returned rf (memcpy buf bytes (min n count.toNat)) (to_int n)
    | .returned _ (some _) _ => .aborted "g_bytes_get_data: assertion 'bytes != NULL' failed"
  else
    .returned rf buf (-1)

/-! ## The session mutex -/

/-- The fields of `RIOFrida` the mutex is there for: the reply slot, the
callback slot and the detach fields. -/
inductive Field where
  | detached
  | detach_reason
  | crash
  | crash_report
  | received_reply
  | reply_stanza
  | reply_bytes
  | pending_cmd
  deriving DecidableEq, Repr

/-- One access to a field of the session: which field, whether it is a write,
and whether the thread held `rf->lock` when it made it. -/
structure Access where
  field : Field
  write : Bool
  locked : Bool
  deriving DecidableEq, Repr

/-- A thread running a function of the bridge: whether it holds `rf->lock`, and
the accesses it has made to the guarded fields, in program order. -/
structure Thread where
  holds_lock : Bool
  accesses : List Access
  deriving DecidableEq, Repr

/-- A thread that enters a function without the mutex. -/
def Thread.enter : Thread :=
  ⟨false, []⟩

/-- Mirrors `g_mutex_lock (&rf->lock)`. -/
def g_mutex_lock (t : Thread) : Thread :=
  { t with holds_lock := true }

/-- Mirrors `g_mutex_unlock (&rf->lock)`. -/
def g_mutex_unlock (t : Thread) : Thread :=
  { t with holds_lock := false }

/-- Mirrors `g_cond_wait (&rf->cond, &rf->lock)` as the waiting thread sees it:
the mutex is released for the wait and held again on return. -/
def g_cond_wait (t : Thread) : Thread :=
  { t with holds_lock := true }

/-- A read of `rf-><field>`. -/
def Thread.read (t : Thread) (field : Field) : Thread :=
  { t with accesses := t.accesses ++ [⟨field, false, t.holds_lock⟩] }

/-- A write of `rf-><field>`. -/
def Thread.write (t : Thread) (field : Field) : Thread :=
  { t with accesses := t.accesses ++ [⟨field, true, t.holds_lock⟩] }

/-- The accesses of `detachReasonAsString`: the test `!rf->detach_reason`, and
for a recorded reason the lookup of its name. -/
def detachReasonAsString_accesses (rf : RIOFrida) (t : Thread) : Thread :=
  let t := t.read .detach_reason
  match rf.detach_reason with
  | none => t
  | some _ => t.read .detach_reason

/-- The accesses of `on_detached`, statement by statement. -/
def on_detached_accesses (rf : RIOFrida) (reason : FridaSessionDetachReason)
    (crash : Option FridaCrash) (t : Thread) : Thread :=
  let t := t.write .detached
  let t := t.write .detach_reason
  let t := detachReasonAsString_accesses { rf with detached := true, detach_reason := some reason } t
  let t :=
    match crash with
    | some _ => (t.read .crash_report).write .crash_report
    | none => t
  let t := g_mutex_lock t
  let t := t.write .crash
  g_mutex_unlock t

/-- The accesses of `on_stanza`; a failed assertion stops the thread with the
mutex held. -/
def on_stanza_accesses (rf : RIOFrida) (t : Thread) : Thread :=
  let t := g_mutex_lock t
  let t := t.read .reply_stanza
  let t := if rf.reply_stanza.isNone then t.read .reply_bytes else t
  if rf.reply_stanza.isNone && rf.reply_bytes.isNone then
    let t := t.write .received_reply
    let t := t.write .reply_stanza
    let t := t.write .reply_bytes
    g_mutex_unlock t
  else
    t

/-- The accesses of `on_cmd`; a failed assertion stops the thread with the mutex
held. -/
def on_cmd_accesses (rf : RIOFrida) (t : Thread) : Thread :=
  let t := g_mutex_lock t
  let t := t.read .pending_cmd
  if rf.pending_cmd.isNone then
    let t := t.write .pending_cmd
    g_mutex_unlock t
  else
    t

/-- The accesses of `exec_pending_cmd_if_needed`: the test, and with a pending
command the reads of its command, its serial and the pointer to free, then the
write of `NULL`. -/
def exec_pending_cmd_accesses (rf : RIOFrida) (t : Thread) : Thread :=
  let t := t.read .pending_cmd
  match rf.pending_cmd with
  | none => t
  | some _ =>
    let t := t.read .pending_cmd
    let t := t.read .pending_cmd
    let t := t.read .pending_cmd
    t.write .pending_cmd

/-- The accesses of one test `!rf->detached && !rf->received_reply`. -/
def loop_test_accesses (rf : RIOFrida) (t : Thread) : Thread :=
  let t := t.read .detached
  if !rf.detached then t.read .received_reply else t

/-- The accesses of the wait loop of `perform_request`, along `wait_loop`: each
turn tests the condition, waits, and drains the session the handlers left. -/
def wait_loop_accesses (host : Host) : RIOFrida → List (List Event) → Thread → Thread
  | rf, [], t => loop_test_accesses rf t
  | rf, batch :: wakes, t =>
    let t := loop_test_accesses rf t
    if !rf.detached && !rf.received_reply then
      let t := g_cond_wait t
      match deliver host rf batch with
      | .ok rf =>
        wait_loop_accesses host (exec_pending_cmd_if_needed host rf) wakes
          (exec_pending_cmd_accesses rf t)
      | .error _ => t
    else
      t

/-- The accesses of `perform_request` between the loop and `g_mutex_unlock`. -/
def take_reply_accesses (rf : RIOFrida) (t : Thread) : Thread :=
  let t := t.read .received_reply
  if rf.received_reply then
    let t := t.read .reply_stanza
    let t := t.read .reply_bytes
    let t := t.write .reply_stanza
    let t := t.write .reply_bytes
    t.write .received_reply
  else
    t

/-- The accesses of `perform_request`, along `perform_request`: nothing when
the post fails; otherwise the mutex is taken, the session drained, the loop
run; when the loop is left the reply is taken, the mutex released, and without
a reply stanza `rf->detach_reason` is read for the warning. -/
def perform_request_accesses (host : Host) (rf : RIOFrida) (builder : JsonBuilder)
    (data : Option GBytes) (wakes : List (List Event)) (t : Thread) : Thread :=
  match post_message host rf builder data with
  | (_, some _) => t
  | (rf, none) =>
    let t := g_mutex_lock t
    let t := exec_pending_cmd_accesses rf t
    let t := wait_loop_accesses host (exec_pending_cmd_if_needed host rf) wakes t
    match wait_loop host (exec_pending_cmd_if_needed host rf) wakes with
    | .aborted _ => t
    | .waiting _ => t
    | .woke rf =>
      let t := take_reply_accesses rf t
      let t := g_mutex_unlock t
      if rf.received_reply && rf.reply_stanza.isSome then t else t.read .detach_reason

/-- The accesses of `r_io_frida_free`: `free (rf->crash_report)`,
`g_clear_object (&rf->crash)`, and the test of `rf->detached` made by the last
user of the device manager. -/
def r_io_frida_free_accesses (last_user : Bool) (t : Thread) : Thread :=
  let t := t.read .crash_report
  let t := t.read .crash
  let t := t.write .crash
  if last_user then t.read .detached else t

/-- The accesses of `__close` on an open descriptor: the write of `detached`,
then those of `r_io_frida_free` (`resume` touches none of the guarded
fields). -/
def __close_accesses (last_user : Bool) (t : Thread) : Thread :=
  let t := t.write .detached
  r_io_frida_free_accesses last_user t

/-- The thread holds the mutex and has made every access so far with the mutex
held. -/
def Thread.guarded (t : Thread) : Prop :=
  t.holds_lock = true ∧ ∀ a ∈ t.accesses, a.locked = true

/-! ## Basic facts -/

theorem on_message_reply (host : Host) (rf : RIOFrida) (raw : String) (s : JsonObject)
    (b : Option GBytes) :
    on_message host rf raw (some (reply_message s)) b = on_stanza rf s b := by
  simp [on_message, reply_message, json_node_get_object, json_object_get_string_member,
    json_object_get_member, json_node_get_string, List.lookup, json_node_get_node_type,
    json_object_get_object_member, json_object_has_member]

theorem on_message_cmd (host : Host) (rf : RIOFrida) (raw : String) (c : JsonObject)
    (b : Option GBytes) :
    on_message host rf raw (some (cmd_message c)) b = on_cmd rf (some c) := by
  simp [on_message, cmd_message, json_node_get_object, json_object_get_string_member,
    json_object_get_member, json_node_get_string, List.lookup, json_node_get_node_type,
    json_object_get_object_member, json_object_has_member]

theorem on_stanza_ok (rf : RIOFrida) (s : JsonObject) (b : Option GBytes)
    (hstanza : rf.reply_stanza = none) (hbytes : rf.reply_bytes = none) :
    on_stanza rf s b
      = .ok { rf with received_reply := true, reply_stanza := some s, reply_bytes := b } := by
  simp [on_stanza, hstanza, hbytes]

theorem on_cmd_ok (rf : RIOFrida) (c : JsonObject) (hpending : rf.pending_cmd = none) :
    on_cmd rf (some c) = .ok { rf with pending_cmd := some (pending_cmd_create c) } := by
  simp [on_cmd, hpending]

/-- Clearing a reply that was stored into an empty slot gives the session back. -/
theorem clear_reply_eq (rf : RIOFrida) (s : JsonObject) (b : Option GBytes)
    (hreceived : rf.received_reply = false) (hstanza : rf.reply_stanza = none)
    (hbytes : rf.reply_bytes = none) :
    ({ ({ rf with received_reply := true, reply_stanza := some s, reply_bytes := b } : RIOFrida)
        with reply_stanza := none, reply_bytes := none, received_reply := false } : RIOFrida)
      = rf := by
  cases rf
  simp_all

theorem post_message_ok (host : Host) (rf : RIOFrida) (builder : JsonBuilder) (data : Option GBytes)
    (h : host.frida_script_post_sync rf.script (request_post builder data) = none) :
    post_message host rf builder data
      = ({ rf with script := rf.script ++ [request_post builder data] }, none) := by
  simp only [request_post] at h
  simp [post_message, h, request_post]

theorem post_message_frame (host : Host) (rf : RIOFrida) (builder : JsonBuilder)
    (data : Option GBytes) :
    ∃ err, (post_message host rf builder data).1
      = { rf with script := rf.script ++ [request_post builder data], stderr := rf.stderr ++ err } := by
  simp only [post_message, request_post]
  cases h : host.frida_script_post_sync rf.script ⟨json_builder_get_root builder, data⟩ with
  | none => exact ⟨[], by simp⟩
  | some e =>
    cases hc : e.cancelled
    · exact ⟨["error: " ++ e.message ++ "\n"], by simp [eprintf, hc]⟩
    · exact ⟨[], by simp [hc]⟩

theorem post_message_error (host : Host) (rf : RIOFrida) (builder : JsonBuilder)
    (data : Option GBytes) :
    (post_message host rf builder data).2
      = host.frida_script_post_sync rf.script (request_post builder data) := by
  simp only [post_message, request_post]
  cases h : host.frida_script_post_sync rf.script ⟨json_builder_get_root builder, data⟩ <;> simp

theorem exec_pending_cmd_none (host : Host) (rf : RIOFrida) (h : rf.pending_cmd = none) :
    exec_pending_cmd_if_needed host rf = rf := by
  simp [exec_pending_cmd_if_needed, h]

/-- The drain only clears the callback slot and extends the three histories. -/
theorem exec_pending_cmd_frame (host : Host) (rf : RIOFrida) :
    ∃ posts cmds err, exec_pending_cmd_if_needed host rf
      = { rf with pending_cmd := none, script := rf.script ++ posts, r2core := rf.r2core ++ cmds,
                  stderr := rf.stderr ++ err } := by
  simp only [exec_pending_cmd_if_needed]
  cases hp : rf.pending_cmd with
  | none =>
    refine ⟨[], [], [], ?_⟩
    cases rf
    simp_all
  | some pc =>
    cases hout : host.cmdstr rf.r2core pc.cmd_string with
    | none => exact ⟨[], [pc.cmd_string], [], by simp [hout]⟩
    | some out =>
      obtain ⟨err, herr⟩ := post_message_frame host
        { rf with r2core := rf.r2core ++ [pc.cmd_string], pending_cmd := none }
        (json_builder_add (json_builder_add (build_request "cmd") "output" (.str out)) "serial"
          (.int (to_gint64 pc.serial))) none
      refine ⟨[request_post (json_builder_add (json_builder_add (build_request "cmd") "output"
        (.str out)) "serial" (.int (to_gint64 pc.serial))) none], [pc.cmd_string], err, ?_⟩
      simp only [hout, perform_request_unlocked, herr]

@[simp] theorem exec_pending_cmd_pending (host : Host) (rf : RIOFrida) :
    (exec_pending_cmd_if_needed host rf).pending_cmd = none := by
  obtain ⟨posts, cmds, err, h⟩ := exec_pending_cmd_frame host rf
  rw [h]

@[simp] theorem exec_pending_cmd_detached (host : Host) (rf : RIOFrida) :
    (exec_pending_cmd_if_needed host rf).detached = rf.detached := by
  obtain ⟨posts, cmds, err, h⟩ := exec_pending_cmd_frame host rf
  rw [h]

@[simp] theorem exec_pending_cmd_detach_reason (host : Host) (rf : RIOFrida) :
    (exec_pending_cmd_if_needed host rf).detach_reason = rf.detach_reason := by
  obtain ⟨posts, cmds, err, h⟩ := exec_pending_cmd_frame host rf
  rw [h]

@[simp] theorem exec_pending_cmd_received_reply (host : Host) (rf : RIOFrida) :
    (exec_pending_cmd_if_needed host rf).received_reply = rf.received_reply := by
  obtain ⟨posts, cmds, err, h⟩ := exec_pending_cmd_frame host rf
  rw [h]

@[simp] theorem exec_pending_cmd_reply_stanza (host : Host) (rf : RIOFrida) :
    (exec_pending_cmd_if_needed host rf).reply_stanza = rf.reply_stanza := by
  obtain ⟨posts, cmds, err, h⟩ := exec_pending_cmd_frame host rf
  rw [h]

@[simp] theorem exec_pending_cmd_reply_bytes (host : Host) (rf : RIOFrida) :
    (exec_pending_cmd_if_needed host rf).reply_bytes = rf.reply_bytes := by
  obtain ⟨posts, cmds, err, h⟩ := exec_pending_cmd_frame host rf
  rw [h]

theorem exec_pending_cmd_idem (host : Host) (rf : RIOFrida) :
    exec_pending_cmd_if_needed host (exec_pending_cmd_if_needed host rf)
      = exec_pending_cmd_if_needed host rf :=
  exec_pending_cmd_none host _ (exec_pending_cmd_pending host rf)

theorem exec_pending_cmd_script (host : Host) (rf : RIOFrida) (pc : RFPendingCmd) (output : String)
    (hpending : rf.pending_cmd = some pc)
    (hout : host.cmdstr rf.r2core pc.cmd_string = some output) :
    (exec_pending_cmd_if_needed host rf).script
      = rf.script ++ [cmd_result output (to_gint64 pc.serial)] := by
  simp only [exec_pending_cmd_if_needed, hpending, hout]
  obtain ⟨err, h⟩ := post_message_frame host
    { rf with r2core := rf.r2core ++ [pc.cmd_string], pending_cmd := none }
    (json_builder_add (json_builder_add (build_request "cmd") "output" (.str output)) "serial"
      (.int (to_gint64 pc.serial))) none
  simp only [perform_request_unlocked, h]
  rfl

theorem exec_pending_cmd_script_none (host : Host) (rf : RIOFrida) (pc : RFPendingCmd)
    (hpending : rf.pending_cmd = some pc)
    (hout : host.cmdstr rf.r2core pc.cmd_string = none) :
    (exec_pending_cmd_if_needed host rf).script = rf.script := by
  simp only [exec_pending_cmd_if_needed, hpending, hout]

theorem exec_pending_cmd_r2core (host : Host) (rf : RIOFrida) (pc : RFPendingCmd)
    (hpending : rf.pending_cmd = some pc) :
    (exec_pending_cmd_if_needed host rf).r2core = rf.r2core ++ [pc.cmd_string] := by
  simp only [exec_pending_cmd_if_needed, hpending]
  cases hout : host.cmdstr rf.r2core pc.cmd_string with
  | none => rfl
  | some output =>
    obtain ⟨err, h⟩ := post_message_frame host
      { rf with r2core := rf.r2core ++ [pc.cmd_string], pending_cmd := none }
      (json_builder_add (json_builder_add (build_request "cmd") "output" (.str output)) "serial"
        (.int (to_gint64 pc.serial))) none
    simp only [perform_request_unlocked, h]

theorem wait_loop_done (host : Host) (rf : RIOFrida) (wakes : List (List Event))
    (h : (rf.detached || rf.received_reply) = true) : wait_loop host rf wakes = .woke rf := by
  cases wakes <;> cases hd : rf.detached <;> cases hr : rf.received_reply <;>
    simp_all [wait_loop]

/-- A request that finds the session detached or a reply stored does not wait. -/
theorem await_reply_done (host : Host) (rf : RIOFrida) (bytes : Bool) (wakes : List (List Event))
    (h : (rf.detached || rf.received_reply) = true) :
    await_reply host rf bytes wakes = take_reply (exec_pending_cmd_if_needed host rf) bytes := by
  simp only [await_reply]
  rw [wait_loop_done host _ wakes (by simpa using h)]

/-- A request that has to wait lets the next batch of events through and then
starts over on the session the handlers left. -/
theorem await_reply_wake (host : Host) (rf : RIOFrida) (bytes : Bool) (batch : List Event)
    (wakes : List (List Event))
    (hdetached : rf.detached = false) (hreceived : rf.received_reply = false) :
    await_reply host rf bytes (batch :: wakes)
      = match deliver host (exec_pending_cmd_if_needed host rf) batch with
        | .ok rf' => await_reply host rf' bytes wakes
        | .error assertion => .aborted assertion := by
  simp only [await_reply, wait_loop, exec_pending_cmd_detached, exec_pending_cmd_received_reply,
    hdetached, hreceived, Bool.not_false, Bool.and_self, if_true]
  cases deliver host (exec_pending_cmd_if_needed host rf) batch <;> rfl

/-- A request that has to wait and gets no further event stays blocked. -/
theorem await_reply_blocked (host : Host) (rf : RIOFrida) (bytes : Bool)
    (hdetached : rf.detached = false) (hreceived : rf.received_reply = false) :
    await_reply host rf bytes [] = .waiting (exec_pending_cmd_if_needed host rf) := by
  simp [await_reply, wait_loop, hdetached, hreceived]

theorem perform_request_ok (host : Host) (rf : RIOFrida) (builder : JsonBuilder)
    (data : Option GBytes) (bytes : Bool) (wakes : List (List Event))
    (hpost : host.frida_script_post_sync rf.script (request_post builder data) = none) :
    perform_request host rf builder data bytes wakes
      = await_reply host { rf with script := rf.script ++ [request_post builder data] } bytes
          wakes := by
  simp only [perform_request, post_message_ok host rf builder data hpost]

/-- A waiting request that is delivered a reply finishes with that reply, after
the drain of whatever callback was pending at the start. -/
theorem await_reply_on_reply (host : Host) (rf : RIOFrida) (bytes : Bool) (raw : String)
    (s : JsonObject) (b : Option GBytes) (wakes : List (List Event))
    (hdetached : rf.detached = false) (hreceived : rf.received_reply = false)
    (hstanza : rf.reply_stanza = none) (hbytes : rf.reply_bytes = none) :
    await_reply host rf bytes ([Event.message raw (some (reply_message s)) b] :: wakes)
      = finish_request (exec_pending_cmd_if_needed host rf) (some s) b bytes := by
  rw [await_reply_wake host rf bytes _ wakes hdetached hreceived]
  simp only [deliver, handle, on_message_reply]
  rw [on_stanza_ok _ s b (by simpa using hstanza) (by simpa using hbytes)]
  simp only []
  rw [await_reply_done host _ bytes wakes (by simp), exec_pending_cmd_none host _ (by simp)]
  simp only [take_reply, if_true]
  rw [clear_reply_eq _ s b (by simpa using hreceived) (by simpa using hstanza)
    (by simpa using hbytes)]

/-! ## C1: a reply is returned exactly, and the slot is empty again -/

/-- C1. On a session that is not detached, with an empty reply slot and no
pending callback, a `perform_request` whose post was accepted and which is then
delivered `{type:"send", payload:{name:"reply", stanza:s}}` with blob `b`
(`s` without an `error` member) returns exactly `s` and `b`; the session it
leaves is the initial one with the request recorded as posted, and its reply
slot is empty (`received_reply` false, `reply_stanza` and `reply_bytes` null). -/
theorem perform_request_returns_reply (host : Host) (rf : RIOFrida) (builder : JsonBuilder)
    (data : Option GBytes) (raw : String) (s : JsonObject) (b : Option GBytes)
    (wakes : List (List Event))
    (hdetached : rf.detached = false) (hreceived : rf.received_reply = false)
    (hstanza : rf.reply_stanza = none) (hbytes : rf.reply_bytes = none)
    (hpending : rf.pending_cmd = none)
    (hpost : host.frida_script_post_sync rf.script (request_post builder data) = none)
    (herror : json_object_has_member (some s) "error" = false) :
    perform_request host rf builder data true
        ([Event.message raw (some (reply_message s)) b] :: wakes)
      = .returned { rf with script := rf.script ++ [request_post builder data] } (some s) (some b)
    ∧ ({ rf with script := rf.script ++ [request_post builder data] } : RIOFrida).received_reply
        = false
    ∧ ({ rf with script := rf.script ++ [request_post builder data] } : RIOFrida).reply_stanza
        = none
    ∧ ({ rf with script := rf.script ++ [request_post builder data] } : RIOFrida).reply_bytes
        = none := by
  refine ⟨?_, hreceived, hstanza, hbytes⟩
  rw [perform_request_ok host rf builder data true _ hpost,
    await_reply_on_reply host _ true raw s b wakes (by simpa using hdetached)
      (by simpa using hreceived) (by simpa using hstanza) (by simpa using hbytes),
    exec_pending_cmd_none _ _ (by simpa using hpending)]
  simp [finish_request, herror]

/-- C1 at scenario A: a read of 4 bytes at `0x1000` on a fresh session, answered
by the stanza `{value:"..."}` with a 4-byte payload. -/
theorem perform_request_returns_reply_witness :
    perform_request echo_host r_io_frida_new read_request none true
        [[Event.message "raw" (some (reply_message [("value", .str "...")])) (some [1, 2, 3, 4])]]
      = .returned { r_io_frida_new with script := [request_post read_request none] }
          (some [("value", .str "...")]) (some (some [1, 2, 3, 4])) :=
  (perform_request_returns_reply echo_host r_io_frida_new read_request none "raw"
    [("value", .str "...")] (some [1, 2, 3, 4]) [] rfl rfl rfl rfl rfl rfl rfl).1

/-! ## C2: the drain step -/

theorem to_gint64_to_ut64 (n : Int) (hlo : -(2 ^ 63 : Int) ≤ n) (hhi : n < (2 ^ 63 : Int)) :
    to_gint64 (to_ut64 n) = n := by
  unfold to_gint64 to_ut64
  norm_num at hlo hhi ⊢
  have h0 : (0 : Int) ≤ n % 18446744073709551616 := Int.emod_nonneg _ (by norm_num)
  have h1 : n % 18446744073709551616 < 18446744073709551616 := Int.emod_lt_of_pos _ (by norm_num)
  have h2 : ((n % 18446744073709551616).toNat : Int) = n % 18446744073709551616 :=
    Int.toNat_of_nonneg h0
  have h3 : (n % 18446744073709551616).toNat % 18446744073709551616
      = (n % 18446744073709551616).toNat := Nat.mod_eq_of_lt (by omega)
  rw [h3]
  split <;> omega

/-- C2, the claim refuted: with the callback `pd 1`, serial `7`, pending and an
executor that returns no output for it, the drain runs the command and clears
the slot but posts nothing, so no message with serial `7` reaches the
transport. -/
theorem exec_pending_cmd_posts_nothing_without_output :
    mute_host.cmdstr [] (some "pd 1") = none
    ∧ (exec_pending_cmd_if_needed mute_host session_with_callback).r2core = [some "pd 1"]
    ∧ (exec_pending_cmd_if_needed mute_host session_with_callback).pending_cmd.isNone = true
    ∧ (exec_pending_cmd_if_needed mute_host session_with_callback).script.length = 0 :=
  ⟨rfl, rfl, rfl, rfl⟩

/-- C2, amended. For every pending callback with command `c` and serial `n` the
drain step runs the executor on `c` once (one more entry in the command
history) and clears the callback slot; when the executor returns a text it
posts exactly one message `{type:"cmd", payload:{output:<text>, serial:n}}`
with the callback's own serial (the `ut64` read back as `gint64`, which is the
number the callback stanza carried), and when the executor returns none it
posts nothing. -/
theorem exec_pending_cmd_posts_result (host : Host) (rf : RIOFrida) (pc : RFPendingCmd)
    (hpending : rf.pending_cmd = some pc) :
    (exec_pending_cmd_if_needed host rf).r2core = rf.r2core ++ [pc.cmd_string]
    ∧ (exec_pending_cmd_if_needed host rf).pending_cmd = none
    ∧ (∀ output, host.cmdstr rf.r2core pc.cmd_string = some output →
        (exec_pending_cmd_if_needed host rf).script
          = rf.script ++ [cmd_result output (to_gint64 pc.serial)])
    ∧ (host.cmdstr rf.r2core pc.cmd_string = none →
        (exec_pending_cmd_if_needed host rf).script = rf.script)
    ∧ (∀ (c : JsonObject) (n : Int), pc = pending_cmd_create c →
        json_object_get_member (some c) "serial" = some (.int n) →
        -(2 ^ 63 : Int) ≤ n → n < (2 ^ 63 : Int) → to_gint64 pc.serial = n) := by
  refine ⟨exec_pending_cmd_r2core host rf pc hpending, exec_pending_cmd_pending host rf,
    fun output hout => exec_pending_cmd_script host rf pc output hpending hout,
    fun hout => exec_pending_cmd_script_none host rf pc hpending hout, ?_⟩
  · intro c n hpc hserial hlo hhi
    subst hpc
    simp only [pending_cmd_create, json_object_get_int_member, hserial]
    exact to_gint64_to_ut64 n hlo hhi

/-- C2 (amended) at scenario B: the callback `pd 1` with serial `7` is run once
and answered by one `cmd` message with serial `7`. -/
theorem exec_pending_cmd_posts_result_witness :
    (exec_pending_cmd_if_needed echo_host session_with_callback).r2core = [some "pd 1"]
    ∧ (exec_pending_cmd_if_needed echo_host session_with_callback).pending_cmd = none
    ∧ (exec_pending_cmd_if_needed echo_host session_with_callback).script
        = [cmd_result "r2> pd 1" 7] :=
  have h := exec_pending_cmd_posts_result echo_host session_with_callback
    (pending_cmd_create [("cmd", .str "pd 1"), ("serial", .int 7)]) rfl
  ⟨h.1, h.2.1, h.2.2.1 "r2> pd 1" rfl⟩

/-! ## C3: callback and reply in either order -/

theorem deliver_callback_then_reply (host : Host) (rf : RIOFrida) (raw_c raw_s : String)
    (c s : JsonObject) (d b : Option GBytes)
    (hpending : rf.pending_cmd = none) (hstanza : rf.reply_stanza = none)
    (hbytes : rf.reply_bytes = none) :
    deliver host rf [Event.message raw_c (some (cmd_message c)) d,
        Event.message raw_s (some (reply_message s)) b]
      = .ok { rf with pending_cmd := some (pending_cmd_create c), received_reply := true,
                      reply_stanza := some s, reply_bytes := b } := by
  simp [deliver, handle, on_message_cmd, on_message_reply, on_cmd, on_stanza, hpending, hstanza,
    hbytes]

theorem deliver_reply_then_callback (host : Host) (rf : RIOFrida) (raw_c raw_s : String)
    (c s : JsonObject) (d b : Option GBytes)
    (hpending : rf.pending_cmd = none) (hstanza : rf.reply_stanza = none)
    (hbytes : rf.reply_bytes = none) :
    deliver host rf [Event.message raw_s (some (reply_message s)) b,
        Event.message raw_c (some (cmd_message c)) d]
      = .ok { rf with pending_cmd := some (pending_cmd_create c), received_reply := true,
                      reply_stanza := some s, reply_bytes := b } := by
  simp [deliver, handle, on_message_cmd, on_message_reply, on_cmd, on_stanza, hpending, hstanza,
    hbytes]

/-- With an empty reply slot, the locked part of a request ends identically
whichever of the callback and the reply arrived first while it was blocked. -/
theorem await_reply_order_irrelevant (host : Host) (rf : RIOFrida) (bytes : Bool)
    (raw_c raw_s : String) (c s : JsonObject) (d b : Option GBytes) (wakes : List (List Event))
    (hstanza : rf.reply_stanza = none) (hbytes : rf.reply_bytes = none) :
    await_reply host rf bytes
        ([Event.message raw_c (some (cmd_message c)) d,
          Event.message raw_s (some (reply_message s)) b] :: wakes)
      = await_reply host rf bytes
        ([Event.message raw_s (some (reply_message s)) b,
          Event.message raw_c (some (cmd_message c)) d] :: wakes) := by
  by_cases h : (rf.detached || rf.received_reply) = true
  · rw [await_reply_done host rf bytes _ h, await_reply_done host rf bytes _ h]
  · have hd : rf.detached = false := by
      cases hx : rf.detached <;> simp_all
    have hr : rf.received_reply = false := by
      cases hx : rf.received_reply <;> simp_all
    rw [await_reply_wake host rf bytes _ wakes hd hr, await_reply_wake host rf bytes _ wakes hd hr,
      deliver_callback_then_reply host _ raw_c raw_s c s d b (by simp) (by simpa using hstanza)
        (by simpa using hbytes),
      deliver_reply_then_callback host _ raw_c raw_s c s d b (by simp) (by simpa using hstanza)
        (by simpa using hbytes)]

/-- A waiting request that is delivered a callback and a reply in one wake
drains the callback and then takes the reply. -/
theorem await_reply_on_callback_and_reply (host : Host) (rf : RIOFrida) (bytes : Bool)
    (raw_c raw_s : String) (c s : JsonObject) (d b : Option GBytes) (wakes : List (List Event))
    (hdetached : rf.detached = false) (hreceived : rf.received_reply = false)
    (hpending : rf.pending_cmd = none) (hstanza : rf.reply_stanza = none)
    (hbytes : rf.reply_bytes = none) :
    await_reply host rf bytes
        ([Event.message raw_c (some (cmd_message c)) d,
          Event.message raw_s (some (reply_message s)) b] :: wakes)
      = finish_request
          { exec_pending_cmd_if_needed host
              { rf with pending_cmd := some (pending_cmd_create c), received_reply := true,
                        reply_stanza := some s, reply_bytes := b } with
            reply_stanza := none, reply_bytes := none, received_reply := false }
          (some s) b bytes := by
  rw [await_reply_wake host rf bytes _ wakes hdetached hreceived,
    exec_pending_cmd_none host rf hpending,
    deliver_callback_then_reply host rf raw_c raw_s c s d b hpending hstanza hbytes]
  simp only []
  rw [await_reply_done host _ bytes wakes (by simp)]
  simp only [take_reply, exec_pending_cmd_received_reply, exec_pending_cmd_reply_stanza,
    exec_pending_cmd_reply_bytes, if_true]

/-- C3, the claim refuted: a read is waiting on a fresh session, the executor
returns no output, and the callback `pd 1` (serial `7`) and the reply arrive in
one wake.  In both orders the call returns the reply, the callback was run, and
the only message posted is the request: no callback result was posted before
the reply was returned. -/
theorem callback_result_not_posted_without_output :
    perform_request mute_host r_io_frida_new read_request none true
        [[Event.message "c" (some (cmd_message [("cmd", .str "pd 1"), ("serial", .int 7)])) none,
          Event.message "s" (some (reply_message [("value", .str "...")])) (some [1, 2, 3, 4])]]
      = .returned
          { r_io_frida_new with
            script := [request_post read_request none], r2core := [some "pd 1"] }
          (some [("value", .str "...")]) (some (some [1, 2, 3, 4]))
    ∧ perform_request mute_host r_io_frida_new read_request none true
        [[Event.message "s" (some (reply_message [("value", .str "...")])) (some [1, 2, 3, 4]),
          Event.message "c" (some (cmd_message [("cmd", .str "pd 1"), ("serial", .int 7)])) none]]
      = .returned
          { r_io_frida_new with
            script := [request_post read_request none], r2core := [some "pd 1"] }
          (some [("value", .str "...")]) (some (some [1, 2, 3, 4])) :=
  ⟨rfl, rfl⟩

/-- C3, amended. With both slots empty, `on_cmd` then `on_stanza` and
`on_stanza` then `on_cmd` both succeed and give the same session state, and a
`perform_request` blocked on that session ends identically whichever of the two
messages arrived first.  When it was really waiting (not detached, post
accepted), in both orders it returns after the callback was run through the
executor; the posted messages are then the request followed by the callback
result when the executor returned a text, and the request alone when it
returned none; the call returns `s` with `b`, or failure when `s` carries an
`error`; and both slots are empty again. -/
theorem callback_and_reply_commute (host : Host) (rf : RIOFrida) (builder : JsonBuilder)
    (data : Option GBytes) (raw_c raw_s : String) (c s : JsonObject) (d b : Option GBytes)
    (wakes : List (List Event))
    (hpending : rf.pending_cmd = none) (hreceived : rf.received_reply = false)
    (hstanza : rf.reply_stanza = none) (hbytes : rf.reply_bytes = none) :
    (on_cmd rf (some c) >>= fun rf1 => on_stanza rf1 s b)
      = .ok { rf with pending_cmd := some (pending_cmd_create c), received_reply := true,
                      reply_stanza := some s, reply_bytes := b }
    ∧ (on_stanza rf s b >>= fun rf1 => on_cmd rf1 (some c))
      = .ok { rf with pending_cmd := some (pending_cmd_create c), received_reply := true,
                      reply_stanza := some s, reply_bytes := b }
    ∧ perform_request host rf builder data true
        ([Event.message raw_c (some (cmd_message c)) d,
          Event.message raw_s (some (reply_message s)) b] :: wakes)
      = perform_request host rf builder data true
        ([Event.message raw_s (some (reply_message s)) b,
          Event.message raw_c (some (cmd_message c)) d] :: wakes)
    ∧ (rf.detached = false →
        host.frida_script_post_sync rf.script (request_post builder data) = none →
        ∃ rf' result out,
          perform_request host rf builder data true
              ([Event.message raw_c (some (cmd_message c)) d,
                Event.message raw_s (some (reply_message s)) b] :: wakes)
            = .returned rf' result out
          ∧ perform_request host rf builder data true
              ([Event.message raw_s (some (reply_message s)) b,
                Event.message raw_c (some (cmd_message c)) d] :: wakes)
            = .returned rf' result out
          ∧ rf'.r2core = rf.r2core ++ [json_object_get_string_member (some c) "cmd"]
          ∧ (∀ output,
              host.cmdstr rf.r2core (json_object_get_string_member (some c) "cmd") = some output →
              rf'.script = rf.script ++ [request_post builder data,
                cmd_result output (to_gint64 (pending_cmd_create c).serial)])
          ∧ (host.cmdstr rf.r2core (json_object_get_string_member (some c) "cmd") = none →
              rf'.script = rf.script ++ [request_post builder data])
          ∧ (json_object_has_member (some s) "error" = false → result = some s ∧ out = some b)
          ∧ (json_object_has_member (some s) "error" = true → result = none ∧ out = none)
          ∧ rf'.pending_cmd = none ∧ rf'.received_reply = false ∧ rf'.reply_stanza = none
          ∧ rf'.reply_bytes = none) := by
  have horder : perform_request host rf builder data true
        ([Event.message raw_c (some (cmd_message c)) d,
          Event.message raw_s (some (reply_message s)) b] :: wakes)
      = perform_request host rf builder data true
        ([Event.message raw_s (some (reply_message s)) b,
          Event.message raw_c (some (cmd_message c)) d] :: wakes) := by
    obtain ⟨err, hframe⟩ := post_message_frame host rf builder data
    simp only [perform_request]
    rcases hpm : post_message host rf builder data with ⟨rf1, _ | e⟩
    · rw [hpm] at hframe
      simp only at hframe ⊢
      exact await_reply_order_irrelevant host rf1 true raw_c raw_s c s d b wakes
        (by rw [hframe]; exact hstanza) (by rw [hframe]; exact hbytes)
    · rfl
  refine ⟨?_, ?_, horder, ?_⟩
  · show Except.bind _ _ = _
    simp [on_cmd, on_stanza, hpending, hstanza, hbytes, Except.bind]
  · show Except.bind _ _ = _
    simp [on_cmd, on_stanza, hpending, hstanza, hbytes, Except.bind]
  · intro hdetached hpost
    rw [← horder, perform_request_ok host rf builder data true _ hpost,
      await_reply_on_callback_and_reply host _ true raw_c raw_s c s d b wakes
        (by simpa using hdetached) (by simpa using hreceived) (by simpa using hpending)
        (by simpa using hstanza) (by simpa using hbytes)]
    obtain ⟨pre, hpre⟩ : ∃ x : RIOFrida, x =
        { ({ rf with script := rf.script ++ [request_post builder data] } : RIOFrida) with
          pending_cmd := some (pending_cmd_create c), received_reply := true,
          reply_stanza := some s, reply_bytes := b } := ⟨_, rfl⟩
    rw [← hpre]
    have hp : pre.pending_cmd = some (pending_cmd_create c) := by rw [hpre]
    have hr2 : pre.r2core = rf.r2core := by rw [hpre]
    have hsc : pre.script = rf.script ++ [request_post builder data] := by rw [hpre]
    obtain ⟨drained, hdrained⟩ : ∃ x, x = exec_pending_cmd_if_needed host pre := ⟨_, rfl⟩
    rw [← hdrained]
    have hcore : drained.r2core
        = rf.r2core ++ [json_object_get_string_member (some c) "cmd"] := by
      rw [hdrained, exec_pending_cmd_r2core host pre (pending_cmd_create c) hp, hr2]
      rfl
    have hsome : ∀ output,
        host.cmdstr rf.r2core (json_object_get_string_member (some c) "cmd") = some output →
        drained.script = rf.script ++ [request_post builder data,
          cmd_result output (to_gint64 (pending_cmd_create c).serial)] := by
      intro output hout
      rw [hdrained, exec_pending_cmd_script host pre (pending_cmd_create c) output hp
        (by rw [hr2]; exact hout), hsc]
      simp
    have hnone : host.cmdstr rf.r2core (json_object_get_string_member (some c) "cmd") = none →
        drained.script = rf.script ++ [request_post builder data] := by
      intro hout
      rw [hdrained, exec_pending_cmd_script_none host pre (pending_cmd_create c) hp
        (by rw [hr2]; exact hout), hsc]
    have hpend : drained.pending_cmd = none := by
      rw [hdrained]
      exact exec_pending_cmd_pending host _
    cases herror : json_object_has_member (some s) "error" with
    | false =>
      exact ⟨{ drained with reply_stanza := none, reply_bytes := none, received_reply := false },
        some s, some b, by simp [finish_request, herror], by simp [finish_request, herror], hcore,
        hsome, hnone, fun _ => ⟨rfl, rfl⟩, (fun h => by cases h), hpend, rfl, rfl, rfl⟩
    | true =>
      exact ⟨eprintf
          { drained with reply_stanza := none, reply_bytes := none, received_reply := false }
          ("error: " ++ cstr (json_object_get_string_member (some s) "error") ++ "\n"),
        none, none, by simp [finish_request, herror], by simp [finish_request, herror], hcore,
        hsome, hnone, (fun h => by cases h), fun _ => ⟨rfl, rfl⟩, hpend, rfl, rfl, rfl⟩

/-- C3 (amended) at scenario B: on a fresh session a read is waiting; the
callback `pd 1` with serial `7` and the reply arrive in one wake.  In both
orders the call returns the reply after the `cmd` result with serial `7` was
posted. -/
theorem callback_and_reply_commute_witness :
    ∃ rf', perform_request echo_host r_io_frida_new read_request none true
          [[Event.message "c" (some (cmd_message [("cmd", .str "pd 1"), ("serial", .int 7)])) none,
            Event.message "s" (some (reply_message [("value", .str "...")])) (some [1, 2, 3, 4])]]
        = .returned rf' (some [("value", .str "...")]) (some (some [1, 2, 3, 4]))
      ∧ perform_request echo_host r_io_frida_new read_request none true
          [[Event.message "s" (some (reply_message [("value", .str "...")])) (some [1, 2, 3, 4]),
            Event.message "c" (some (cmd_message [("cmd", .str "pd 1"), ("serial", .int 7)])) none]]
        = .returned rf' (some [("value", .str "...")]) (some (some [1, 2, 3, 4]))
      ∧ rf'.script = [request_post read_request none, cmd_result "r2> pd 1" 7]
      ∧ rf'.pending_cmd = none ∧ rf'.received_reply = false ∧ rf'.reply_stanza = none
      ∧ rf'.reply_bytes = none :=
  let ⟨rf', _, _, h1, h2, _, hs, _, hr, _, hp, hrr, hst, hby⟩ :=
    (callback_and_reply_commute echo_host r_io_frida_new read_request none "c" "s"
      [("cmd", .str "pd 1"), ("serial", .int 7)] [("value", .str "...")] none
      (some [1, 2, 3, 4]) [] rfl rfl rfl rfl).2.2.2 rfl rfl
  ⟨rf', (hr rfl).1 ▸ (hr rfl).2 ▸ h1, (hr rfl).1 ▸ (hr rfl).2 ▸ h2, hs "r2> pd 1" rfl, hp, hrr,
    hst, hby⟩

/-! ## What the handlers can do to a session -/

theorem eprintf_frame (rf : RIOFrida) (text : String) :
    eprintf rf text = { rf with stderr := rf.stderr ++ [text], dumped := rf.dumped ++ [] } := by
  simp [eprintf]

theorem self_frame (rf : RIOFrida) :
    rf = { rf with stderr := rf.stderr ++ [], dumped := rf.dumped ++ [] } := by
  cases rf
  simp

theorem dumped_frame (rf : RIOFrida) (filename text : String) :
    ({ rf with dumped := rf.dumped ++ [(filename, text)] } : RIOFrida)
      = { rf with stderr := rf.stderr ++ [], dumped := rf.dumped ++ [(filename, text)] } := by
  simp

/-- Whatever the message, `on_message` either hands a stanza to `on_stanza`,
hands a command to `on_cmd`, or only writes to standard error or to a file. -/
theorem on_message_cases (host : Host) (rf rf' : RIOFrida) (raw : String) (m : Option JsonNode)
    (d : Option GBytes) (h : on_message host rf raw m d = .ok rf') :
    (∃ s, on_stanza rf s d = .ok rf') ∨ (∃ c, on_cmd rf c = .ok rf')
      ∨ ∃ err dumps, rf' = { rf with stderr := rf.stderr ++ err, dumped := rf.dumped ++ dumps } := by
  simp only [on_message] at h
  repeat' split at h
  all_goals first
    | exact Or.inl ⟨_, h⟩
    | exact Or.inr (Or.inl ⟨_, h⟩)
    | (injection h with h; subst h; exact Or.inr (Or.inr ⟨_, _, eprintf_frame _ _⟩))
    | (injection h with h; subst h; exact Or.inr (Or.inr ⟨_, _, self_frame _⟩))
    | (injection h with h; subst h; exact Or.inr (Or.inr ⟨_, _, dumped_frame _ _ _⟩))
    | (injection h)

theorem finish_request_frame (rf : RIOFrida) (stanza : Option JsonObject) (b : Option GBytes)
    (bytes : Bool) :
    ∃ err result out, finish_request rf stanza b bytes
        = .returned { rf with stderr := rf.stderr ++ err } result out
      ∧ (stanza = none → result = none ∧ out = none) := by
  cases stanza with
  | none =>
    cases hw : detach_warning rf.detach_reason with
    | none => exact ⟨[], none, none, by simp [finish_request, hw], fun _ => ⟨rfl, rfl⟩⟩
    | some w => exact ⟨[w], none, none, by simp [finish_request, hw, eprintf], fun _ => ⟨rfl, rfl⟩⟩
  | some st =>
    cases he : json_object_has_member (some st) "error" with
    | true =>
      refine ⟨["error: " ++ cstr (json_object_get_string_member (some st) "error") ++ "\n"], none,
        none, ?_, fun h => by cases h⟩
      simp [finish_request, he, eprintf]
    | false =>
      refine ⟨[], some st, if bytes then some b else none, ?_, fun h => by cases h⟩
      simp [finish_request, he]

theorem take_reply_returns (rf : RIOFrida) (bytes : Bool) :
    ∃ rf' result out, take_reply rf bytes = .returned rf' result out
      ∧ (rf.received_reply = false → result = none ∧ out = none)
      ∧ rf'.script = rf.script ∧ rf'.detached = rf.detached
      ∧ rf'.detach_reason = rf.detach_reason ∧ rf'.pending_cmd = rf.pending_cmd
      ∧ rf'.received_reply = false := by
  cases hr : rf.received_reply with
  | false =>
    obtain ⟨err, result, out, h, hnone⟩ := finish_request_frame rf none none bytes
    refine ⟨{ rf with stderr := rf.stderr ++ err }, result, out, ?_, fun _ => hnone rfl, rfl, rfl,
      rfl, rfl, hr⟩
    rw [take_reply, if_neg (by simp [hr]), h]
  | true =>
    obtain ⟨err, result, out, h, -⟩ := finish_request_frame
      { rf with reply_stanza := none, reply_bytes := none, received_reply := false }
      rf.reply_stanza rf.reply_bytes bytes
    refine ⟨{ rf with reply_stanza := none, reply_bytes := none, received_reply := false,
                      stderr := rf.stderr ++ err },
      result, out, ?_, (fun h => by cases h), ?_, ?_, ?_, ?_, ?_⟩
    · rw [take_reply, if_pos hr, h]
    all_goals rfl

namespace Stable

variable {P : RIOFrida → Prop}

theorem through_post (hP : Stable P) (host : Host) (rf : RIOFrida) (builder : JsonBuilder)
    (data : Option GBytes) (h : P rf) : P (post_message host rf builder data).1 := by
  obtain ⟨err, hframe⟩ := post_message_frame host rf builder data
  rw [hframe]
  exact hP.histories rf _ rf.r2core _ rf.dumped h

theorem through_drain (hP : Stable P) (host : Host) (rf : RIOFrida) (h : P rf) :
    P (exec_pending_cmd_if_needed host rf) := by
  obtain ⟨posts, cmds, err, hframe⟩ := exec_pending_cmd_frame host rf
  rw [hframe]
  exact hP.histories _ _ _ _ rf.dumped (hP.drained rf h)

theorem through_message (hP : Stable P) (host : Host) (rf rf' : RIOFrida) (raw : String)
    (m : Option JsonNode) (d : Option GBytes) (h : P rf)
    (hm : on_message host rf raw m d = .ok rf') : P rf' := by
  rcases on_message_cases host rf rf' raw m d hm with ⟨s, hs⟩ | ⟨c, hc⟩ | ⟨err, dumps, hframe⟩
  · exact hP.stanza rf rf' s d h hs
  · exact hP.cmd rf rf' c h hc
  · rw [hframe]
    exact hP.histories rf rf.script rf.r2core _ _ h

theorem through_deliver (hP : Stable P) (host : Host) (batch : List Event) :
    ∀ rf rf' : RIOFrida, P rf → deliver host rf batch = .ok rf' → P rf' := by
  induction batch with
  | nil =>
    intro rf rf' h hd
    simp only [deliver] at hd
    injection hd with hd
    exact hd ▸ h
  | cons e es ih =>
    intro rf rf' h hd
    simp only [deliver] at hd
    cases e with
    | message raw m d =>
      simp only [handle] at hd
      cases hm : on_message host rf raw m d with
      | error a => rw [hm] at hd; cases hd
      | ok rf1 =>
        rw [hm] at hd
        exact ih rf1 rf' (hP.through_message host rf rf1 raw m d h hm) hd
    | detached reason crash =>
      simp only [handle] at hd
      exact ih _ rf' (hP.detach rf reason crash h) hd

theorem through_wait_loop (hP : Stable P) (host : Host) (wakes : List (List Event)) :
    ∀ rf rf' : RIOFrida, P rf → wait_loop host rf wakes = .woke rf' → P rf' := by
  induction wakes with
  | nil =>
    intro rf rf' h hw
    simp only [wait_loop] at hw
    split at hw
    · cases hw
    · injection hw with hw
      exact hw ▸ h
  | cons batch wakes ih =>
    intro rf rf' h hw
    simp only [wait_loop] at hw
    split at hw
    · cases hd : deliver host rf batch with
      | error a => rw [hd] at hw; cases hw
      | ok rf1 =>
        rw [hd] at hw
        exact ih _ rf' (hP.through_drain host rf1 (hP.through_deliver host batch rf rf1 h hd)) hw
    · injection hw with hw
      exact hw ▸ h

theorem through_take_reply (hP : Stable P) (rf rf' : RIOFrida) (bytes : Bool) (result : Option JsonObject)
    (out : Option (Option GBytes)) (h : P rf) (ht : take_reply rf bytes = .returned rf' result out) :
    P rf' := by
  simp only [take_reply] at ht
  split at ht
  · obtain ⟨err, r, o, hf, -⟩ := finish_request_frame
      { rf with reply_stanza := none, reply_bytes := none, received_reply := false }
      rf.reply_stanza rf.reply_bytes bytes
    rw [hf] at ht
    injection ht with ht
    rw [← ht]
    exact hP.histories _ rf.script rf.r2core _ rf.dumped (hP.taken rf h)
  · obtain ⟨err, r, o, hf, -⟩ := finish_request_frame rf none none bytes
    rw [hf] at ht
    injection ht with ht
    rw [← ht]
    exact hP.histories _ rf.script rf.r2core _ rf.dumped h

theorem through_request (hP : Stable P) (host : Host) (rf rf' : RIOFrida) (builder : JsonBuilder)
    (data : Option GBytes) (bytes : Bool) (wakes : List (List Event))
    (result : Option JsonObject) (out : Option (Option GBytes)) (h : P rf)
    (hr : perform_request host rf builder data bytes wakes = .returned rf' result out) :
    P rf' := by
  have hpost := hP.through_post host rf builder data h
  simp only [perform_request] at hr
  rcases hpm : post_message host rf builder data with ⟨rf1, _ | e⟩
  · rw [hpm] at hr hpost
    simp only [await_reply] at hr
    cases hw : wait_loop host (exec_pending_cmd_if_needed host rf1) wakes with
    | aborted a => rw [hw] at hr; cases hr
    | waiting rf2 => rw [hw] at hr; cases hr
    | woke rf2 =>
      rw [hw] at hr
      exact hP.through_take_reply rf2 rf' bytes result out
        (hP.through_wait_loop host wakes _ rf2 (hP.through_drain host rf1 hpost) hw) hr
  · rw [hpm] at hr hpost
    injection hr with hr
    exact hr ▸ hpost

theorem through_step (hP : Stable P) (host : Host) (rf rf' : RIOFrida) (h : P rf)
    (hs : Step host rf rf') : P rf' := by
  cases hs with
  | on_message raw m d hm => exact hP.through_message host rf rf' raw m d h hm
  | on_stanza s b hs => exact hP.stanza rf rf' s b h hs
  | on_cmd c hc => exact hP.cmd rf rf' c h hc
  | on_detached reason crash => exact hP.detach rf reason crash h
  | perform_request builder data bytes wakes result out hr =>
    exact hP.through_request host rf rf' builder data bytes wakes result out h hr
  | post builder data => exact hP.through_post host rf builder data h
  | drain => exact hP.through_drain host rf h

theorem through_reachable (hP : Stable P) (host : Host) (rf0 rf : RIOFrida) (h : P rf0)
    (hr : Reachable host rf0 rf) : P rf := by
  induction hr with
  | refl => exact h
  | tail _ hs ih => exact hP.through_step host _ _ ih hs

end Stable

/-! ## Detachment -/

@[simp] theorem on_detached_detached (rf : RIOFrida) (r : FridaSessionDetachReason)
    (c : Option FridaCrash) : (on_detached rf r c).detached = true := by
  cases c <;> rfl

@[simp] theorem on_detached_detach_reason (rf : RIOFrida) (r : FridaSessionDetachReason)
    (c : Option FridaCrash) : (on_detached rf r c).detach_reason = some r := by
  cases c <;> rfl

@[simp] theorem on_detached_received_reply (rf : RIOFrida) (r : FridaSessionDetachReason)
    (c : Option FridaCrash) : (on_detached rf r c).received_reply = rf.received_reply := by
  cases c <;> rfl

@[simp] theorem on_detached_reply_stanza (rf : RIOFrida) (r : FridaSessionDetachReason)
    (c : Option FridaCrash) : (on_detached rf r c).reply_stanza = rf.reply_stanza := by
  cases c <;> rfl

@[simp] theorem on_detached_reply_bytes (rf : RIOFrida) (r : FridaSessionDetachReason)
    (c : Option FridaCrash) : (on_detached rf r c).reply_bytes = rf.reply_bytes := by
  cases c <;> rfl

@[simp] theorem on_detached_pending_cmd (rf : RIOFrida) (r : FridaSessionDetachReason)
    (c : Option FridaCrash) : (on_detached rf r c).pending_cmd = rf.pending_cmd := by
  cases c <;> rfl

/-- On a detached session `perform_request` posts, drains and returns; it never
waits. -/
theorem perform_request_detached (host : Host) (rf : RIOFrida) (builder : JsonBuilder)
    (data : Option GBytes) (bytes : Bool) (wakes : List (List Event))
    (hdetached : rf.detached = true) :
    ∃ rf' result out, perform_request host rf builder data bytes wakes = .returned rf' result out
      ∧ rf'.detached = true
      ∧ (rf.received_reply = false → result = none ∧ out = none)
      ∧ (host.frida_script_post_sync rf.script (request_post builder data) ≠ none →
          result = none ∧ out = none ∧ rf'.script = rf.script ++ [request_post builder data])
      ∧ (∃ tail, rf'.script = rf.script ++ request_post builder data :: tail)
      ∧ (rf.pending_cmd = none → rf'.script = rf.script ++ [request_post builder data]) := by
  obtain ⟨err, hframe⟩ := post_message_frame host rf builder data
  have herror := post_message_error host rf builder data
  simp only [perform_request]
  rcases hpm : post_message host rf builder data with ⟨rf1, _ | e⟩
  · rw [hpm] at hframe herror
    simp only at hframe herror ⊢
    have hd1 : rf1.detached = true := by rw [hframe]; exact hdetached
    rw [await_reply_done host rf1 bytes wakes (by simp [hd1])]
    obtain ⟨rf', result, out, ht, hnone, hscript, hdet, -, -, -⟩ :=
      take_reply_returns (exec_pending_cmd_if_needed host rf1) bytes
    obtain ⟨posts, cmds, err2, hexec⟩ := exec_pending_cmd_frame host rf1
    refine ⟨rf', result, out, ht, ?_, ?_, ?_, ?_, ?_⟩
    · rw [hdet, exec_pending_cmd_detached, hd1]
    · intro hr
      exact hnone (by rw [exec_pending_cmd_received_reply, hframe]; exact hr)
    · intro hne
      exact absurd herror.symm hne
    · refine ⟨posts, ?_⟩
      rw [hscript, hexec, hframe]
      simp
    · intro hp
      rw [hscript, exec_pending_cmd_none host rf1 (by rw [hframe]; exact hp), hframe]
  · rw [hpm] at hframe
    simp only at hframe ⊢
    refine ⟨rf1, none, none, rfl, ?_, fun _ => ⟨rfl, rfl⟩, fun _ => ⟨rfl, rfl, ?_⟩, ⟨[], ?_⟩, fun _ => ?_⟩
    · rw [hframe]; exact hdetached
    all_goals rw [hframe]

/-- On a detached session the events that would be delivered to a waiting
request play no part. -/
theorem perform_request_detached_no_wait (host : Host) (rf : RIOFrida) (builder : JsonBuilder)
    (data : Option GBytes) (bytes : Bool) (wakes : List (List Event))
    (hdetached : rf.detached = true) :
    perform_request host rf builder data bytes wakes
      = perform_request host rf builder data bytes [] := by
  obtain ⟨err, hframe⟩ := post_message_frame host rf builder data
  simp only [perform_request]
  rcases hpm : post_message host rf builder data with ⟨rf1, _ | e⟩
  · rw [hpm] at hframe
    simp only at hframe ⊢
    have hd1 : rf1.detached = true := by rw [hframe]; exact hdetached
    rw [await_reply_done host rf1 bytes wakes (by simp [hd1]),
      await_reply_done host rf1 bytes [] (by simp [hd1])]
  · rfl

/-! ## C4: a request made after detach -/

/-- C4, the claim refuted: on a session detached by `PROCESS_TERMINATED`, with
nothing posted so far, `perform_request` returns failure but the list of posted
messages has grown by the request. -/
theorem perform_request_posts_when_detached :
    session_after_detach.detached = true
    ∧ session_after_detach.script.length = 0
    ∧ perform_request echo_host session_after_detach read_request none true []
      = .returned
          { session_after_detach with
            script := [request_post read_request none],
            stderr := session_after_detach.stderr ++ ["Target process terminated\n"] }
          none none :=
  ⟨rfl, rfl, rfl⟩

/-- C4, amended. For every session state with `detached = true`, a call of
`perform_request` returns without waiting (the events that would follow play no
part) and returns failure whenever the reply slot is empty or the transport
rejects the post; the request is handed to `frida_script_post_sync` before
`detached` is looked at, so the list of posted messages after the call is the
list before it followed by the request (and by nothing else when no callback was
pending or the post was rejected). -/
theorem perform_request_after_detach (host : Host) (rf : RIOFrida) (builder : JsonBuilder)
    (data : Option GBytes) (bytes : Bool) (wakes : List (List Event))
    (hdetached : rf.detached = true) :
    perform_request host rf builder data bytes wakes
      = perform_request host rf builder data bytes []
    ∧ ∃ rf' result out, perform_request host rf builder data bytes wakes = .returned rf' result out
      ∧ (rf.received_reply = false → result = none ∧ out = none)
      ∧ (host.frida_script_post_sync rf.script (request_post builder data) ≠ none →
          result = none ∧ out = none ∧ rf'.script = rf.script ++ [request_post builder data])
      ∧ (∃ tail, rf'.script = rf.script ++ request_post builder data :: tail)
      ∧ (rf.pending_cmd = none → rf'.script = rf.script ++ [request_post builder data]) := by
  refine ⟨perform_request_detached_no_wait host rf builder data bytes wakes hdetached, ?_⟩
  obtain ⟨rf', result, out, h, -, h1, h2, h3, h4⟩ :=
    perform_request_detached host rf builder data bytes wakes hdetached
  exact ⟨rf', result, out, h, h1, h2, h3, h4⟩

/-- C4 (amended) on the session detached by `PROCESS_TERMINATED`: a reply that
would arrive during the wait is never looked at. -/
theorem perform_request_after_detach_witness :
    perform_request echo_host session_after_detach read_request none true
        [[Event.message "raw" (some (reply_message [("value", .str "...")])) none]]
      = perform_request echo_host session_after_detach read_request none true [] :=
  (perform_request_after_detach echo_host session_after_detach read_request none true
    [[Event.message "raw" (some (reply_message [("value", .str "...")])) none]] rfl).1

/-! ## C5: detach during the wait -/

/-- C5. A `perform_request` that is waiting (session not detached, no reply
received, post accepted) and is delivered `on_detached (r, crash)` stops
waiting and returns failure (no stanza, no bytes written); the session then has
`detached = true`, detach reason `r` and the crash it was given, and for every
reason but `APPLICATION_REQUESTED` the last thing printed is the warning for
`r`. -/
theorem perform_request_fails_on_detach (host : Host) (rf : RIOFrida) (builder : JsonBuilder)
    (data : Option GBytes) (bytes : Bool) (r : FridaSessionDetachReason)
    (crash : Option FridaCrash) (wakes : List (List Event))
    (hdetached : rf.detached = false) (hreceived : rf.received_reply = false)
    (hpost : host.frida_script_post_sync rf.script (request_post builder data) = none) :
    ∃ rf', perform_request host rf builder data bytes ([Event.detached r crash] :: wakes)
        = .returned rf' none none
      ∧ rf'.detached = true ∧ rf'.detach_reason = some r ∧ rf'.crash = crash
      ∧ (∀ w, detach_warning (some r) = some w → ∃ pre, rf'.stderr = pre ++ [w]) := by
  rw [perform_request_ok host rf builder data bytes _ hpost,
    await_reply_wake host _ bytes _ wakes (by simpa using hdetached) (by simpa using hreceived)]
  simp only [deliver, handle]
  rw [await_reply_done host _ bytes wakes (by simp),
    exec_pending_cmd_none host _ (by simp)]
  simp only [take_reply, on_detached_received_reply, exec_pending_cmd_received_reply, hreceived,
    Bool.false_eq_true, if_false, finish_request, on_detached_detach_reason]
  cases hw : detach_warning (some r) with
  | none =>
    refine ⟨_, rfl, by simp, by simp, ?_, fun w h => by cases h⟩
    cases crash <;> rfl
  | some w =>
    refine ⟨_, rfl, by simp [eprintf], by simp [eprintf], ?_, fun w' h => ?_⟩
    · cases crash <;> rfl
    · injection h with h
      exact ⟨_, by rw [← h]; rfl⟩

/-- C5 at scenario C: a read is waiting on a fresh session when the transport
raises a detach with reason `PROCESS_TERMINATED`. -/
theorem perform_request_fails_on_detach_witness :
    ∃ rf', perform_request echo_host r_io_frida_new read_request none true
          [[Event.detached .PROCESS_TERMINATED none]]
        = .returned rf' none none
      ∧ rf'.detached = true ∧ rf'.detach_reason = some .PROCESS_TERMINATED
      ∧ ∃ pre, rf'.stderr = pre ++ ["Target process terminated\n"] :=
  let ⟨rf', h, hd, hr, _, hw⟩ := perform_request_fails_on_detach echo_host r_io_frida_new
    read_request none true .PROCESS_TERMINATED none [] rfl rfl rfl
  ⟨rf', h, hd, hr, hw _ rfl⟩

/-! ## C6: detachment is permanent -/

theorem detached_stable : Stable (fun rf => rf.detached = true) where
  stanza := by
    intro rf rf' s b h hs
    simp only [on_stanza] at hs
    split at hs
    · injection hs with hs
      rw [← hs]
      exact h
    · cases hs
  cmd := by
    intro rf rf' c h hc
    simp only [on_cmd] at hc
    split at hc
    · cases c <;> (injection hc with hc; rw [← hc]; exact h)
    · cases hc
  detach := fun rf r c _ => on_detached_detached rf r c
  histories := fun _ _ _ _ _ h => h
  drained := fun _ h => h
  taken := fun _ h => h

/-- C6, the claim refuted: after `on_detached`, `on_stanza` still stores a
reply, and the `perform_request` that follows returns that reply instead of
failing. -/
theorem perform_request_returns_late_reply :
    on_stanza (on_detached r_io_frida_new .PROCESS_TERMINATED none) [("value", .str "late")] none
      = .ok session_with_late_reply
    ∧ session_with_late_reply.detached = true
    ∧ perform_request echo_host session_with_late_reply read_request none false []
      = .returned
          { session_after_detach with script := [request_post read_request none] }
          (some [("value", .str "late")]) none :=
  ⟨rfl, rfl, rfl⟩

/-- On a detached session that holds a reply `s`: when the post is accepted the
call drains, takes the reply out of the slot and finishes with it; when the
post is rejected the call fails and the reply stays where it was. -/
theorem perform_request_detached_with_reply (host : Host) (rf : RIOFrida) (builder : JsonBuilder)
    (data : Option GBytes) (bytes : Bool) (wakes : List (List Event)) (s : JsonObject)
    (hdetached : rf.detached = true) (hreceived : rf.received_reply = true)
    (hstanza : rf.reply_stanza = some s) :
    (host.frida_script_post_sync rf.script (request_post builder data) = none →
      perform_request host rf builder data bytes wakes
        = finish_request
            { exec_pending_cmd_if_needed host
                { rf with script := rf.script ++ [request_post builder data] } with
              reply_stanza := none, reply_bytes := none, received_reply := false }
            (some s) rf.reply_bytes bytes)
    ∧ (host.frida_script_post_sync rf.script (request_post builder data) ≠ none →
      ∃ rf', perform_request host rf builder data bytes wakes = .returned rf' none none
        ∧ rf'.received_reply = true ∧ rf'.reply_stanza = some s
        ∧ rf'.reply_bytes = rf.reply_bytes ∧ rf'.detached = true) := by
  constructor
  · intro hpost
    rw [perform_request_ok host rf builder data bytes wakes hpost,
      await_reply_done host _ bytes wakes (by simp [hdetached])]
    simp only [take_reply, exec_pending_cmd_received_reply, hreceived, if_true,
      exec_pending_cmd_reply_stanza, hstanza, exec_pending_cmd_reply_bytes]
  · intro hpost
    obtain ⟨err, hframe⟩ := post_message_frame host rf builder data
    have herror := post_message_error host rf builder data
    simp only [perform_request]
    rcases hpm : post_message host rf builder data with ⟨rf1, _ | e⟩
    · rw [hpm] at herror
      exact absurd herror.symm hpost
    · rw [hpm] at hframe
      simp only at hframe ⊢
      refine ⟨rf1, rfl, ?_, ?_, ?_, ?_⟩
      all_goals rw [hframe]
      · exact hreceived
      · exact hstanza
      · exact hdetached

/-- C6, amended. Detachment is permanent and no later wait blocks: in every
state reachable after `on_detached` through any sequence of `on_message`,
`on_stanza`, `on_cmd`, `on_detached` and `perform_request`, `detached` is still
true and `perform_request` returns whatever events are or are not delivered to
it, leaving `detached` true.  It returns failure whenever the reply slot is
empty.  A reply `s` stored in the slot (by an `on_stanza` that came after the
detach) is still consumed: when the post of the request is accepted, the call
returns `s` with the stored bytes if `s` has no `error` member, and failure if
it has one, and the slot is empty afterwards; when the post is rejected the
call fails and `s` stays in the slot. -/
theorem detached_is_permanent (host : Host) (rf0 rf : RIOFrida) (r : FridaSessionDetachReason)
    (crash : Option FridaCrash) (hreach : Reachable host (on_detached rf0 r crash) rf) :
    rf.detached = true
    ∧ (∀ (builder : JsonBuilder) (data : Option GBytes) (bytes : Bool) (wakes : List (List Event)),
        ∃ rf' result out,
          perform_request host rf builder data bytes wakes = .returned rf' result out
          ∧ rf'.detached = true
          ∧ (rf.received_reply = false → result = none ∧ out = none))
    ∧ (∀ (builder : JsonBuilder) (data : Option GBytes) (bytes : Bool) (wakes : List (List Event))
        (s : JsonObject), rf.received_reply = true → rf.reply_stanza = some s →
        (host.frida_script_post_sync rf.script (request_post builder data) = none →
          json_object_has_member (some s) "error" = false →
          ∃ rf', perform_request host rf builder data bytes wakes
              = .returned rf' (some s) (if bytes then some rf.reply_bytes else none)
            ∧ rf'.detached = true ∧ rf'.received_reply = false
            ∧ rf'.reply_stanza = none ∧ rf'.reply_bytes = none)
        ∧ (host.frida_script_post_sync rf.script (request_post builder data) = none →
          json_object_has_member (some s) "error" = true →
          ∃ rf', perform_request host rf builder data bytes wakes = .returned rf' none none
            ∧ rf'.detached = true ∧ rf'.received_reply = false
            ∧ rf'.reply_stanza = none ∧ rf'.reply_bytes = none)
        ∧ (host.frida_script_post_sync rf.script (request_post builder data) ≠ none →
          ∃ rf', perform_request host rf builder data bytes wakes = .returned rf' none none
            ∧ rf'.detached = true ∧ rf'.received_reply = true
            ∧ rf'.reply_stanza = some s ∧ rf'.reply_bytes = rf.reply_bytes)) := by
  have hdetached : rf.detached = true :=
    detached_stable.through_reachable host _ rf (on_detached_detached rf0 r crash) hreach
  refine ⟨hdetached, fun builder data bytes wakes => ?_,
    fun builder data bytes wakes s hreceived hstanza => ?_⟩
  · obtain ⟨rf', result, out, h, hd, hnone, -⟩ :=
      perform_request_detached host rf builder data bytes wakes hdetached
    exact ⟨rf', result, out, h, hd, hnone⟩
  · obtain ⟨hok, hrejected⟩ := perform_request_detached_with_reply host rf builder data bytes
      wakes s hdetached hreceived hstanza
    refine ⟨fun hpost herror => ?_, fun hpost herror => ?_, fun hpost => ?_⟩
    · rw [hok hpost]
      simp only [finish_request, herror]
      exact ⟨_, rfl, by simp [hdetached], rfl, rfl, rfl⟩
    · rw [hok hpost]
      simp only [finish_request, herror]
      exact ⟨_, rfl, by simp [eprintf, hdetached], rfl, rfl, rfl⟩
    · obtain ⟨rf', h, hr, hs, hb, hd⟩ := hrejected hpost
      exact ⟨rf', h, hd, hr, hs, hb⟩

/-- C6 (amended) on the session of the counterexample: `on_detached`, then an
`on_stanza` that stores the reply `late`; the session is still detached, and
the `perform_request` that follows returns `late` and empties the slot. -/
theorem detached_is_permanent_witness :
    session_with_late_reply.detached = true
    ∧ ∃ rf', perform_request echo_host session_with_late_reply read_request none false
          [[Event.detached .DEVICE_LOST none]]
        = .returned rf' (some [("value", .str "late")]) none
      ∧ rf'.detached = true ∧ rf'.received_reply = false
      ∧ rf'.reply_stanza = none ∧ rf'.reply_bytes = none :=
  let h := detached_is_permanent echo_host r_io_frida_new session_with_late_reply
    .PROCESS_TERMINATED none
    (Relation.ReflTransGen.single
      (@Step.on_stanza echo_host (on_detached r_io_frida_new .PROCESS_TERMINATED none)
        session_with_late_reply [("value", .str "late")] none rfl))
  ⟨h.1, (h.2.2 read_request none false [[Event.detached .DEVICE_LOST none]]
    [("value", .str "late")] rfl rfl).1 rfl rfl⟩

/-! ## C7: a reply that carries an error -/

/-- C7. When the reply delivered to a waiting `perform_request` carries an
`error` member (whatever else the stanza and the blob hold), the call returns
failure and the last thing printed is `error: ` followed by the error member
(the message itself when the member is a string); `detached` and the detach
reason are unchanged and the reply slot is empty; and a following
`perform_request` on the session so left, whose post is accepted and whose
reply is an error-free `s2` with blob `b2`, returns `s2` and `b2`. -/
theorem perform_request_reports_error (host : Host) (rf : RIOFrida) (builder : JsonBuilder)
    (data : Option GBytes) (bytes : Bool) (raw : String) (s : JsonObject) (b : Option GBytes)
    (wakes : List (List Event))
    (hdetached : rf.detached = false) (hreceived : rf.received_reply = false)
    (hstanza : rf.reply_stanza = none) (hbytes : rf.reply_bytes = none)
    (hpost : host.frida_script_post_sync rf.script (request_post builder data) = none)
    (herror : json_object_has_member (some s) "error" = true) :
    ∃ rf', perform_request host rf builder data bytes
          ([Event.message raw (some (reply_message s)) b] :: wakes)
        = .returned rf' none none
      ∧ (∃ pre, rf'.stderr
          = pre ++ ["error: " ++ cstr (json_object_get_string_member (some s) "error") ++ "\n"])
      ∧ (∀ m, json_object_get_member (some s) "error" = some (.str m) →
          ∃ pre, rf'.stderr = pre ++ ["error: " ++ m ++ "\n"])
      ∧ rf'.detached = rf.detached ∧ rf'.detach_reason = rf.detach_reason
      ∧ rf'.received_reply = false ∧ rf'.reply_stanza = none ∧ rf'.reply_bytes = none
      ∧ (∀ (builder2 : JsonBuilder) (data2 : Option GBytes) (raw2 : String) (s2 : JsonObject)
          (b2 : Option GBytes) (wakes2 : List (List Event)),
          host.frida_script_post_sync rf'.script (request_post builder2 data2) = none →
          json_object_has_member (some s2) "error" = false →
          ∃ rf'', perform_request host rf' builder2 data2 true
              ([Event.message raw2 (some (reply_message s2)) b2] :: wakes2)
            = .returned rf'' (some s2) (some b2)) := by
  rw [perform_request_ok host rf builder data bytes _ hpost,
    await_reply_on_reply host _ bytes raw s b wakes (by simpa using hdetached)
      (by simpa using hreceived) (by simpa using hstanza) (by simpa using hbytes)]
  simp only [finish_request, herror, if_true]
  obtain ⟨base, hbase⟩ : ∃ x, x = exec_pending_cmd_if_needed host
      { rf with script := rf.script ++ [request_post builder data] } := ⟨_, rfl⟩
  rw [← hbase]
  have hd : base.detached = false := by rw [hbase]; simpa using hdetached
  have hdr : base.detach_reason = rf.detach_reason := by rw [hbase]; simp
  have hr : base.received_reply = false := by rw [hbase]; simpa using hreceived
  have hs : base.reply_stanza = none := by rw [hbase]; simpa using hstanza
  have hb : base.reply_bytes = none := by rw [hbase]; simpa using hbytes
  refine ⟨eprintf base ("error: " ++ cstr (json_object_get_string_member (some s) "error") ++ "\n"),
    rfl, ⟨base.stderr, rfl⟩, ?_, ?_, hdr, hr, hs, hb, ?_⟩
  · intro m hm
    refine ⟨base.stderr, ?_⟩
    simp only [eprintf, json_object_get_string_member, hm, json_node_get_string, cstr]
  · rw [hdetached]
    exact hd
  · intro builder2 data2 raw2 s2 b2 wakes2 hpost2 herror2
    rw [perform_request_ok host _ builder2 data2 true _ hpost2,
      await_reply_on_reply host _ true raw2 s2 b2 wakes2 (by simpa [eprintf] using hd)
        (by simpa [eprintf] using hr) (by simpa [eprintf] using hs)
        (by simpa [eprintf] using hb)]
    simp only [finish_request, herror2]
    exact ⟨_, rfl⟩

/-- C7 at scenario D: the reply to a command is `{error:"no such symbol"}`; the
call fails after printing that message, the session is not detached and its
reply slot is empty, and the next command is answered normally. -/
theorem perform_request_reports_error_witness :
    ∃ rf', perform_request echo_host r_io_frida_new (perform_command "isa nope") none false
          [[Event.message "raw" (some (reply_message no_such_symbol)) none]]
        = .returned rf' none none
      ∧ (∃ pre, rf'.stderr = pre ++ ["error: no such symbol\n"])
      ∧ rf'.detached = false ∧ rf'.received_reply = false ∧ rf'.reply_stanza = none
      ∧ rf'.reply_bytes = none
      ∧ ∃ rf'', perform_request echo_host rf' (perform_command "i") none true
            [[Event.message "raw" (some (reply_message [("value", .str "arm64")])) none]]
          = .returned rf'' (some [("value", .str "arm64")]) (some none) :=
  let ⟨rf', h, _, hm, hd, _, hr, hs, hb, hnext⟩ :=
    perform_request_reports_error echo_host r_io_frida_new (perform_command "isa nope") none false
      "raw" no_such_symbol none [] rfl rfl rfl rfl rfl rfl
  ⟨rf', h, hm "no such symbol" rfl, hd, hr, hs, hb,
    hnext (perform_command "i") none "raw" [("value", .str "arm64")] none [] rfl rfl⟩

/-! ## C8: one reply at a time -/

theorem reply_slot_consistent_stable : Stable reply_slot_consistent where
  stanza := by
    intro rf rf' s b _ hs
    simp only [on_stanza] at hs
    split at hs
    · injection hs with hs
      rw [← hs]
      exact ⟨rfl, fun _ => rfl⟩
    · cases hs
  cmd := by
    intro rf rf' c h hc
    simp only [on_cmd] at hc
    split at hc
    · cases c <;> (injection hc with hc; rw [← hc]; exact h)
    · cases hc
  detach := by
    intro rf r c h
    simpa [reply_slot_consistent] using h
  histories := fun _ _ _ _ _ h => h
  drained := fun _ h => h
  taken := fun _ _ => ⟨rfl, fun h => by cases h⟩

theorem reply_slot_consistent_new : reply_slot_consistent r_io_frida_new :=
  ⟨rfl, fun h => by cases h⟩

/-- In every reachable session the flag and the slot agree. -/
theorem reachable_reply_slot_consistent (host : Host) (rf : RIOFrida)
    (hreach : Reachable host r_io_frida_new rf) : reply_slot_consistent rf :=
  reply_slot_consistent_stable.through_reachable host _ rf reply_slot_consistent_new hreach

/-- C8. `on_stanza` fails its assertion in every state whose reply slot holds a
stanza or bytes, and succeeds, storing exactly the new reply, in every state
whose slot holds neither; in the sessions reachable from a fresh one this is
the same as failing exactly when `received_reply` is set.  So a successful
`on_stanza` always started from an empty slot: a stored reply never replaces
another. -/
theorem on_stanza_never_overwrites (host : Host) (rf : RIOFrida) (s : JsonObject)
    (b : Option GBytes) :
    ((rf.reply_stanza ≠ none ∨ rf.reply_bytes ≠ none) →
      on_stanza rf s b = .error "assertion failed: (!rf->reply_stanza && !rf->reply_bytes)")
    ∧ (rf.reply_stanza = none → rf.reply_bytes = none →
      on_stanza rf s b
        = .ok { rf with received_reply := true, reply_stanza := some s, reply_bytes := b })
    ∧ (Reachable host r_io_frida_new rf →
      (rf.received_reply = true →
        on_stanza rf s b = .error "assertion failed: (!rf->reply_stanza && !rf->reply_bytes)")
      ∧ (rf.received_reply = false →
        on_stanza rf s b
          = .ok { rf with received_reply := true, reply_stanza := some s, reply_bytes := b }))
    ∧ (∀ rf', on_stanza rf s b = .ok rf' →
      rf.reply_stanza = none ∧ rf.reply_bytes = none
        ∧ rf'.reply_stanza = some s ∧ rf'.reply_bytes = b) := by
  refine ⟨?_, fun hs hb => on_stanza_ok rf s b hs hb, ?_, ?_⟩
  · intro h
    simp only [on_stanza]
    rcases h with h | h
    · cases hs : rf.reply_stanza with
      | none => exact absurd hs h
      | some st => simp
    · cases hb : rf.reply_bytes with
      | none => exact absurd hb h
      | some by1 => simp
  · intro hreach
    obtain ⟨hflag, hbytes⟩ := reachable_reply_slot_consistent host rf hreach
    constructor
    · intro hr
      simp only [on_stanza]
      cases hs : rf.reply_stanza with
      | none => rw [hr, hs] at hflag; cases hflag
      | some st => simp
    · intro hr
      have hs : rf.reply_stanza = none := by
        cases hs : rf.reply_stanza with
        | none => rfl
        | some st => rw [hr, hs] at hflag; cases hflag
      have hb : rf.reply_bytes = none := by
        cases hb : rf.reply_bytes with
        | none => rfl
        | some by1 =>
          rw [hb, hs] at hbytes
          exact absurd (hbytes rfl) (by simp)
      exact on_stanza_ok rf s b hs hb
  · intro rf' h
    simp only [on_stanza] at h
    split at h
    · rename_i hempty
      injection h with h
      simp only [Bool.and_eq_true, Option.isNone_iff_eq_none] at hempty
      rw [← h]
      exact ⟨hempty.1, hempty.2, rfl, rfl⟩
    · cases h

/-- C8 on a reachable session: the reply of scenario A has been stored by
`on_stanza` on a fresh session and not yet consumed, so `received_reply` is
set; a second reply fails the assertion. -/
theorem on_stanza_never_overwrites_witness :
    on_stanza
        { r_io_frida_new with
          received_reply := true, reply_stanza := some [("value", .str "...")],
          reply_bytes := some [1, 2, 3, 4] }
        [("value", .str "again")] none
      = .error "assertion failed: (!rf->reply_stanza && !rf->reply_bytes)" :=
  ((on_stanza_never_overwrites echo_host
      { r_io_frida_new with
        received_reply := true, reply_stanza := some [("value", .str "...")],
        reply_bytes := some [1, 2, 3, 4] }
      [("value", .str "again")] none).2.2.1
    (Relation.ReflTransGen.refl.tail
      (@Step.on_stanza echo_host r_io_frida_new _ [("value", .str "...")] (some [1, 2, 3, 4])
        rfl))).1 rfl

/-! ## C9: one callback at a time -/

/-- C9. `on_cmd` fails its assertion in every state whose `pending_cmd` slot is
set, and succeeds in every state whose slot is empty, filling it from the
stanza of a real command or with a zeroed entry for a heartbeat; either way
the slot is then set, so a further `on_cmd` fails.  After a drain the slot is
empty and the next `on_cmd` succeeds. -/
theorem on_cmd_never_overwrites (host : Host) (rf : RIOFrida) (c : Option JsonObject) :
    (rf.pending_cmd ≠ none → on_cmd rf c = .error "assertion failed: (!rf->pending_cmd)")
    ∧ (rf.pending_cmd = none →
      (∀ stanza, c = some stanza →
        on_cmd rf c = .ok { rf with pending_cmd := some (pending_cmd_create stanza) })
      ∧ (c = none → on_cmd rf c = .ok { rf with pending_cmd := some RFPendingCmd.zero })
      ∧ ∃ rf', on_cmd rf c = .ok rf' ∧ rf'.pending_cmd ≠ none
          ∧ ∀ c', on_cmd rf' c' = .error "assertion failed: (!rf->pending_cmd)")
    ∧ (exec_pending_cmd_if_needed host rf).pending_cmd = none
    ∧ ∃ rf', on_cmd (exec_pending_cmd_if_needed host rf) c = .ok rf' := by
  refine ⟨?_, ?_, exec_pending_cmd_pending host rf, ?_⟩
  · intro h
    cases hp : rf.pending_cmd with
    | none => exact absurd hp h
    | some pc => simp [on_cmd, hp]
  · intro hp
    refine ⟨?_, ?_, ?_⟩
    · intro stanza hc
      subst hc
      simp [on_cmd, hp]
    · intro hc
      subst hc
      simp [on_cmd, hp]
    · cases c with
      | none =>
        refine ⟨{ rf with pending_cmd := some RFPendingCmd.zero }, ?_, ?_, fun c' => ?_⟩
        · simp [on_cmd, hp]
        · simp
        · simp [on_cmd]
      | some stanza =>
        refine ⟨{ rf with pending_cmd := some (pending_cmd_create stanza) }, ?_, ?_, fun c' => ?_⟩
        · simp [on_cmd, hp]
        · simp
        · simp [on_cmd]
  · cases c with
    | none =>
      refine ⟨{ exec_pending_cmd_if_needed host rf with pending_cmd := some RFPendingCmd.zero }, ?_⟩
      simp [on_cmd]
    | some stanza =>
      refine ⟨{ exec_pending_cmd_if_needed host rf with
        pending_cmd := some (pending_cmd_create stanza) }, ?_⟩
      simp [on_cmd]

/-- C9 with the callback `pd 1` pending: a heartbeat that arrives before the
drain fails the assertion. -/
theorem on_cmd_never_overwrites_witness :
    on_cmd session_with_callback none = .error "assertion failed: (!rf->pending_cmd)" :=
  (on_cmd_never_overwrites echo_host session_with_callback none).1 (by simp [session_with_callback])

/-! ## C10: the detach reason -/

/-- C10, the claim refuted: a second `on_detached` with `DEVICE_LOST` after a
first with `PROCESS_TERMINATED` leaves `DEVICE_LOST` recorded, not
`PROCESS_TERMINATED`. -/
theorem on_detached_overwrites_reason :
    (on_detached (on_detached r_io_frida_new .PROCESS_TERMINATED none) .DEVICE_LOST none).detach_reason
      = some .DEVICE_LOST
    ∧ (on_detached (on_detached r_io_frida_new .PROCESS_TERMINATED none) .DEVICE_LOST none).detach_reason
      ≠ some .PROCESS_TERMINATED :=
  ⟨rfl, by decide⟩

/-- C10, amended. `on_detached` records the reason it is given, every time: for
all reasons `r1` and `r2`, after `on_detached (r1, _)` a later
`on_detached (r2, _)` leaves the recorded detach reason equal to `r2`, which is
`r1` exactly when `r2 = r1`; `detached` stays true. -/
theorem on_detached_records_latest_reason (rf : RIOFrida) (r1 r2 : FridaSessionDetachReason)
    (c1 c2 : Option FridaCrash) :
    (on_detached (on_detached rf r1 c1) r2 c2).detach_reason = some r2
    ∧ ((on_detached (on_detached rf r1 c1) r2 c2).detach_reason = some r1 ↔ r2 = r1)
    ∧ (on_detached (on_detached rf r1 c1) r2 c2).detached = true := by
  refine ⟨on_detached_detach_reason _ r2 c2, ?_, on_detached_detached _ r2 c2⟩
  rw [on_detached_detach_reason]
  exact ⟨fun h => Option.some.inj h, fun h => by rw [h]⟩

/-! ## Target resolution: the `usb` forms -/

theorem strchr_split_cons_self (c : Char) (s : CString) :
    strchr_split c (c :: s) = some ([], s) := by
  simp [strchr_split]

theorem strchr_split_append (c : Char) (w s : CString) (hw : c ∉ w) :
    strchr_split c (w ++ c :: s) = some (w, s) := by
  induction w with
  | nil => simp [strchr_split]
  | cons x xs ih =>
    have hx : x ≠ c := fun h => hw (by simp [h])
    have hxs : c ∉ xs := fun h => hw (by simp [h])
    simp [strchr_split, hx, ih hxs]

/-- The part of a string before its first slash is not empty when the string is
not empty and does not begin with a slash. -/
theorem first_segment_ne_nil (s : CString) (hne : s ≠ []) (hhead : s.head? ≠ some '/') :
    ((strchr_split '/' s).map (·.1)).getD s ≠ [] := by
  cases s with
  | nil => exact absurd rfl hne
  | cons x xs =>
    have hx : x ≠ '/' := fun h => hhead (by simp [h])
    simp only [strchr_split, hx, if_false]
    cases strchr_split '/' xs <;> simp

/-- The branches `usb` and `connect` never touch `spawn` and `run`. -/
theorem resolve_device_root_keeps_spawn_run (finder : Finder) (path arg : CString)
    (lo : R2FridaLaunchOptions) (shown : List Shown) :
    (resolve_device_root finder path arg lo shown).2.1.spawn = lo.spawn
    ∧ (resolve_device_root finder path arg lo shown).2.1.run = lo.run := by
  simp only [resolve_device_root]
  repeat' split
  all_goals exact ⟨rfl, rfl⟩

theorem action_word_no_slash (action : Action) : '/' ∉ action.word := by
  cases action <;> decide

theorem is_process_action_word (action : Action) : is_process_action action.word = true := by
  cases action <;> decide

theorem resolve_device_root_spawn (finder : Finder) (path arg : CString)
    (lo : R2FridaLaunchOptions) (shown : List Shown) :
    (resolve_device_root finder path arg lo shown).2.1.spawn = lo.spawn :=
  (resolve_device_root_keeps_spawn_run finder path arg lo shown).1

theorem resolve_device_root_run (finder : Finder) (path arg : CString)
    (lo : R2FridaLaunchOptions) (shown : List Shown) :
    (resolve_device_root finder path arg lo shown).2.1.run = lo.run :=
  (resolve_device_root_keeps_spawn_run finder path arg lo shown).2

/-- How `resolve_target` goes on for a first field that is not `?`, does not
begin like a path and has a slash. -/
theorem resolve_target_of_split (finder : Finder) (rest first_word second_field : CString)
    (lo : R2FridaLaunchOptions) (shown : List Shown)
    (hhelp : rest ≠ ['?']) (hhead : rest.head? ≠ some '/')
    (hdot : starts_with rest ['.', '/'] = false)
    (hsplit : strchr_split '/' rest = some (first_word, second_field)) :
    resolve_target finder (frida_uri rest) lo shown
      = match resolve_device_id_as_uriroot finder first_word second_field
            { lo with run := false, spawn := false } shown with
        | (true, lo, shown) => (true, lo, shown)
        | (false, lo, shown) => (true, old_short_uri first_word second_field lo, shown) := by
  have hdrop : List.drop 8 (frida_uri rest) = rest := by simp [frida_uri]
  simp only [resolve_target, hdrop, hhelp, hhead, hdot, hsplit, if_false, decide_False,
    Bool.or_self, Bool.false_eq_true]

/-- The end of `resolve_target` always succeeds; when the second field does not
begin with a slash it leaves `spawn` and `run` as the root resolution left
them. -/
theorem resolve_target_end (r : Bool × R2FridaLaunchOptions × List Shown)
    (first_word second_field : CString) :
    (match r with
      | (true, lo, shown) => (true, lo, shown)
      | (false, lo, shown) => (true, old_short_uri first_word second_field lo, shown)).1 = true
    ∧ (second_field.head? ≠ some '/' →
      (match r with
        | (true, lo, shown) => (true, lo, shown)
        | (false, lo, shown) => (true, old_short_uri first_word second_field lo, shown)).2.1.spawn
        = r.2.1.spawn)
    ∧ (match r with
        | (true, lo, shown) => (true, lo, shown)
        | (false, lo, shown) => (true, old_short_uri first_word second_field lo, shown)).2.1.run
        = r.2.1.run := by
  rcases r with ⟨_ | _, lo, shown⟩
  · refine ⟨rfl, fun h => ?_, ?_⟩
    · simp [old_short_uri, h]
    · simp only [old_short_uri]
      split <;> rfl
  · exact ⟨rfl, fun _ => rfl, rfl⟩

/-- From `frida://usb/<action>/...` the resolution succeeds with `spawn` and
`run` both false, whatever the action. -/
theorem resolve_target_usb_action (finder : Finder) (action : Action) (device program : CString)
    (lo : R2FridaLaunchOptions) (shown : List Shown) :
    (resolve_target finder (uri_usb_action action device program) lo shown).1 = true
    ∧ (resolve_target finder (uri_usb_action action device program) lo shown).2.1.spawn = false
    ∧ (resolve_target finder (uri_usb_action action device program) lo shown).2.1.run = false := by
  have hsplit := strchr_split_append '/' action.word (device ++ '/' :: program)
    (action_word_no_slash action)
  simp [resolve_target, uri_usb_action, frida_uri, starts_with, strchr_split,
    resolve_device_id_as_uriroot, resolve_device_root, hsplit, is_process_action_word]

/-- From `frida://<action>/usb/...` the resolution succeeds with `spawn` set for
`spawn` and `launch`, and `run` set for `launch`. -/
theorem resolve_target_action_usb (finder : Finder) (action : Action) (device program : CString)
    (lo : R2FridaLaunchOptions) (shown : List Shown) :
    (resolve_target finder (uri_action_usb action device program) lo shown).1 = true
    ∧ (resolve_target finder (uri_action_usb action device program) lo shown).2.1.spawn
        = (action != .attach)
    ∧ (resolve_target finder (uri_action_usb action device program) lo shown).2.1.run
        = (action == .launch) := by
  have hsplit : strchr_split '/' (action.word ++ ['/', 'u', 's', 'b', '/'] ++ device
      ++ '/' :: program)
      = some (action.word, ['u', 's', 'b', '/'] ++ device ++ '/' :: program) := by
    have h := strchr_split_append '/' action.word (['u', 's', 'b', '/'] ++ device ++ '/' :: program)
      (action_word_no_slash action)
    simpa using h
  have hrest : resolve_target finder (uri_action_usb action device program) lo shown = _ :=
    resolve_target_of_split finder _ action.word _ lo shown (by cases action <;> simp [Action.word])
      (by cases action <;> simp [Action.word])
      (by cases action <;> simp [Action.word, starts_with]) hsplit
  have hend := resolve_target_end
    (resolve_device_id_as_uriroot finder action.word
      (['u', 's', 'b', '/'] ++ device ++ '/' :: program)
      { lo with run := false, spawn := false } shown)
    action.word (['u', 's', 'b', '/'] ++ device ++ '/' :: program)
  rw [hrest]
  refine ⟨hend.1, ?_, ?_⟩
  · rw [hend.2.1 (by simp)]
    cases action <;>
      simp [resolve_device_id_as_uriroot, Action.word, strchr_split, is_device_root,
        resolve_device_root_spawn]
  · rw [hend.2.2]
    cases action <;>
      simp [resolve_device_id_as_uriroot, Action.word, strchr_split, is_device_root,
        resolve_device_root_run]

/-- What the `usb` branch does with `<device>/<program>` when the device is not
an action word and the program has a first segment. -/
theorem resolve_device_root_usb_device (finder : Finder) (device program : CString)
    (lo : R2FridaLaunchOptions) (shown : List Shown)
    (hslash : '/' ∉ device) (haction : is_process_action device = false)
    (hne : program ≠ []) (hhead : program.head? ≠ some '/') :
    resolve_device_root finder ['u', 's', 'b'] (device ++ '/' :: program) lo shown
      = (!device.isEmpty,
          { lo with
            device_id := some device,
            process_specifier := some (((strchr_split '/' program).map (·.1)).getD program),
            pid := to_guint (atopid (((strchr_split '/' program).map (·.1)).getD program)).1,
            pid_valid := (atopid (((strchr_split '/' program).map (·.1)).getD program)).2 },
          shown) := by
  have hseg := first_segment_ne_nil program hne hhead
  simp only [resolve_device_root, strchr_split_append '/' device program hslash, haction, if_true,
    Bool.false_eq_true, if_false, ne_eq, hseg, not_false_eq_true]

/-- C19. `frida://usb/<device>/<program>` and
`frida://attach/usb/<device>/<program>` resolve to the same result, the same
launch options and the same output for every device id that is not empty (and
has no slash and is not an action word) and every program with a first
segment; but for the empty device, which the usage text allows, they do not:
`frida://usb//<program>` yields device `usb`, `spawn = true` and the program as
process specifier, `frida://attach/usb//<program>` yields device `attach`,
`spawn = false` and `usb//<program>` as process specifier. -/
theorem usb_form_versus_attach_usb_form (finder : Finder) (device program : CString)
    (lo : R2FridaLaunchOptions) (shown : List Shown)
    (hslash : '/' ∉ device) (haction : is_process_action device = false)
    (hne : program ≠ []) (hhead : program.head? ≠ some '/') :
    (device ≠ [] →
      resolve_target finder (uri_usb device program) lo shown
        = resolve_target finder (uri_action_usb .attach device program) lo shown)
    ∧ (device = [] →
      (resolve_target finder (uri_usb device program) lo shown).1 = true
      ∧ (resolve_target finder (uri_action_usb .attach device program) lo shown).1 = true
      ∧ (resolve_target finder (uri_usb device program) lo shown).2.1.device_id
          = some ['u', 's', 'b']
      ∧ (resolve_target finder (uri_action_usb .attach device program) lo shown).2.1.device_id
          = some ['a', 't', 't', 'a', 'c', 'h']
      ∧ (resolve_target finder (uri_usb device program) lo shown).2.1.spawn = true
      ∧ (resolve_target finder (uri_action_usb .attach device program) lo shown).2.1.spawn = false
      ∧ (resolve_target finder (uri_usb device program) lo shown).2.1.process_specifier
          = some program
      ∧ (resolve_target finder (uri_action_usb .attach device program) lo shown).2.1.process_specifier
          = some (['u', 's', 'b', '/', '/'] ++ program)) := by
  have husb : resolve_target finder (uri_usb device program) lo shown = _ :=
    resolve_target_of_split finder (['u', 's', 'b', '/'] ++ device ++ '/' :: program)
      ['u', 's', 'b'] (device ++ '/' :: program) lo shown (by simp) (by simp)
      (by simp [starts_with]) (by simp [strchr_split])
  have hattach : resolve_target finder (uri_action_usb .attach device program) lo shown = _ :=
    resolve_target_of_split finder
      (Action.attach.word ++ ['/', 'u', 's', 'b', '/'] ++ device ++ '/' :: program)
      ['a', 't', 't', 'a', 'c', 'h'] (['u', 's', 'b', '/'] ++ device ++ '/' :: program) lo shown
      (by simp [Action.word]) (by simp [Action.word]) (by simp [Action.word, starts_with])
      (by simp [Action.word, strchr_split])
  have hroot1 := resolve_device_root_usb_device finder device program
    { lo with run := false, spawn := false } shown hslash haction hne hhead
  have hroot2 := resolve_device_root_usb_device finder device program
    { lo with run := false, spawn := false, device_id := none } shown hslash haction hne hhead
  have hu : resolve_device_id_as_uriroot finder ['u', 's', 'b'] (device ++ '/' :: program)
      { lo with run := false, spawn := false } shown
      = resolve_device_root finder ['u', 's', 'b'] (device ++ '/' :: program)
          { lo with run := false, spawn := false } shown := by
    simp [resolve_device_id_as_uriroot]
  have ha : resolve_device_id_as_uriroot finder ['a', 't', 't', 'a', 'c', 'h']
      (['u', 's', 'b', '/'] ++ device ++ '/' :: program)
      { lo with run := false, spawn := false } shown
      = resolve_device_root finder ['u', 's', 'b'] (device ++ '/' :: program)
          { lo with run := false, spawn := false, device_id := none } shown := by
    simp [resolve_device_id_as_uriroot, strchr_split, is_device_root]
  rw [husb, hattach, hu, ha, hroot1, hroot2]
  constructor
  · intro hd
    have : device.isEmpty = false := by cases device <;> simp_all
    simp [this]
  · intro hd
    subst hd
    simp [old_short_uri]

/-- C19 on both sides: with the device `dev1` the two forms agree, with the
empty device and the program `1234` they do not. -/
theorem usb_form_versus_attach_usb_form_witness :
    resolve_target bare_finder (uri_usb ['d', 'e', 'v', '1'] ['1', '2', '3', '4'])
        r2frida_launchopt_new []
      = resolve_target bare_finder (uri_action_usb .attach ['d', 'e', 'v', '1'] ['1', '2', '3', '4'])
        r2frida_launchopt_new []
    ∧ (resolve_target bare_finder (uri_usb [] ['1', '2', '3', '4']) r2frida_launchopt_new []).2.1.spawn
      = true
    ∧ (resolve_target bare_finder (uri_action_usb .attach [] ['1', '2', '3', '4'])
        r2frida_launchopt_new []).2.1.spawn
      = false :=
  ⟨(usb_form_versus_attach_usb_form bare_finder ['d', 'e', 'v', '1'] ['1', '2', '3', '4']
      r2frida_launchopt_new [] (by decide) (by decide) (by decide) (by decide)).1 (by decide),
    ((usb_form_versus_attach_usb_form bare_finder [] ['1', '2', '3', '4']
      r2frida_launchopt_new [] (by decide) (by decide) (by decide) (by decide)).2 rfl).2.2.2.2.1,
    ((usb_form_versus_attach_usb_form bare_finder [] ['1', '2', '3', '4']
      r2frida_launchopt_new [] (by decide) (by decide) (by decide) (by decide)).2 rfl).2.2.2.2.2.1⟩

/-- C20. `frida://usb/<action>/<device>/<program>` recognises the action word
but does not act on it: for every device and program it resolves with
`spawn = false` and `run = false`, while `frida://<action>/usb/<device>/<program>`
resolves with `spawn = true` for `spawn` and `launch` and `run = true` for
`launch`.  So the two forms give different launch options for `spawn` and
`launch`; for `attach` they give the same ones (for a device id that is not
empty, has no slash and is not an action word, and a program that is not empty
and has no slash). -/
theorem usb_action_form_versus_action_usb_form (finder : Finder) (device program : CString)
    (lo : R2FridaLaunchOptions) (shown : List Shown) :
    ((resolve_target finder (uri_usb_action .spawn device program) lo shown).2.1.spawn = false
      ∧ (resolve_target finder (uri_action_usb .spawn device program) lo shown).2.1.spawn = true)
    ∧ ((resolve_target finder (uri_usb_action .launch device program) lo shown).2.1.spawn = false
      ∧ (resolve_target finder (uri_action_usb .launch device program) lo shown).2.1.spawn = true
      ∧ (resolve_target finder (uri_usb_action .launch device program) lo shown).2.1.run = false
      ∧ (resolve_target finder (uri_action_usb .launch device program) lo shown).2.1.run = true)
    ∧ (device ≠ [] → '/' ∉ device → is_process_action device = false →
        program ≠ [] → '/' ∉ program →
        (resolve_target finder (uri_usb_action .attach device program) lo shown).2.1
          = (resolve_target finder (uri_action_usb .attach device program) lo shown).2.1) := by
  refine ⟨⟨(resolve_target_usb_action finder .spawn device program lo shown).2.1,
      (resolve_target_action_usb finder .spawn device program lo shown).2.1⟩,
    ⟨(resolve_target_usb_action finder .launch device program lo shown).2.1,
      (resolve_target_action_usb finder .launch device program lo shown).2.1,
      (resolve_target_usb_action finder .launch device program lo shown).2.2,
      (resolve_target_action_usb finder .launch device program lo shown).2.2⟩, ?_⟩
  intro hd hslash haction hne hpslash
  have hhead : program.head? ≠ some '/' := by
    cases program with
    | nil => simp
    | cons x xs =>
      have : x ≠ '/' := fun h => hpslash (by simp [h])
      simpa using this
  have hseg : strchr_split '/' program = none := by
    clear hne hhead
    induction program with
    | nil => rfl
    | cons x xs ih =>
      have hx : x ≠ '/' := fun h => hpslash (by simp [h])
      have hxs : '/' ∉ xs := fun h => hpslash (by simp [h])
      simp [strchr_split, hx, ih hxs]
  have hattach : resolve_target finder (uri_action_usb .attach device program) lo shown = _ :=
    resolve_target_of_split finder
      (Action.attach.word ++ ['/', 'u', 's', 'b', '/'] ++ device ++ '/' :: program)
      ['a', 't', 't', 'a', 'c', 'h'] (['u', 's', 'b', '/'] ++ device ++ '/' :: program) lo shown
      (by simp [Action.word]) (by simp [Action.word]) (by simp [Action.word, starts_with])
      (by simp [Action.word, strchr_split])
  have ha : resolve_device_id_as_uriroot finder ['a', 't', 't', 'a', 'c', 'h']
      (['u', 's', 'b', '/'] ++ device ++ '/' :: program)
      { lo with run := false, spawn := false } shown
      = resolve_device_root finder ['u', 's', 'b'] (device ++ '/' :: program)
          { lo with run := false, spawn := false, device_id := none } shown := by
    simp [resolve_device_id_as_uriroot, strchr_split, is_device_root]
  have hroot := resolve_device_root_usb_device finder device program
    { lo with run := false, spawn := false, device_id := none } shown hslash haction hne hhead
  have hdev : device.isEmpty = false := by cases device <;> simp_all
  have husb : resolve_target finder (uri_usb_action .attach device program) lo shown = _ :=
    resolve_target_of_split finder
      (['u', 's', 'b', '/'] ++ Action.attach.word ++ '/' :: device ++ '/' :: program)
      ['u', 's', 'b'] (Action.attach.word ++ '/' :: device ++ '/' :: program) lo shown
      (by simp) (by simp) (by simp [starts_with]) (by simp [strchr_split])
  have hsplit := strchr_split_append '/' Action.attach.word (device ++ '/' :: program)
    (action_word_no_slash .attach)
  rw [husb, hattach, ha, hroot]
  have hpath : resolve_device_id_as_uriroot finder ['u', 's', 'b']
      (Action.attach.word ++ '/' :: device ++ '/' :: program)
      { lo with run := false, spawn := false } shown
      = resolve_device_root finder ['u', 's', 'b']
          (Action.attach.word ++ '/' :: (device ++ '/' :: program))
          { lo with run := false, spawn := false } shown := by
    simp [resolve_device_id_as_uriroot]
  rw [hpath]
  simp [resolve_device_root, hsplit, is_process_action_word,
    strchr_split_append '/' device program hslash, hseg, hdev]

/-- C20 for the device `dev1` and the program `1234`: attaching resolves alike
in both forms, spawning does not (`frida://usb/spawn/dev1/1234` leaves
`spawn = false`, `frida://spawn/usb/dev1/1234` sets it). -/
theorem usb_action_form_versus_action_usb_form_witness :
    (resolve_target bare_finder (uri_usb_action .attach ['d', 'e', 'v', '1'] ['1', '2', '3', '4'])
        r2frida_launchopt_new []).2.1
      = (resolve_target bare_finder (uri_action_usb .attach ['d', 'e', 'v', '1'] ['1', '2', '3', '4'])
        r2frida_launchopt_new []).2.1
    ∧ (resolve_target bare_finder (uri_usb_action .spawn ['d', 'e', 'v', '1'] ['1', '2', '3', '4'])
        r2frida_launchopt_new []).2.1.spawn = false
    ∧ (resolve_target bare_finder (uri_action_usb .spawn ['d', 'e', 'v', '1'] ['1', '2', '3', '4'])
        r2frida_launchopt_new []).2.1.spawn = true :=
  ⟨(usb_action_form_versus_action_usb_form bare_finder ['d', 'e', 'v', '1'] ['1', '2', '3', '4']
      r2frida_launchopt_new []).2.2 (by decide) (by decide) (by decide) (by decide) (by decide),
    (usb_action_form_versus_action_usb_form bare_finder ['d', 'e', 'v', '1'] ['1', '2', '3', '4']
      r2frida_launchopt_new []).1.1,
    (usb_action_form_versus_action_usb_form bare_finder ['d', 'e', 'v', '1'] ['1', '2', '3', '4']
      r2frida_launchopt_new []).1.2⟩

/-! ## C11: a repeated detach notification -/

/-- C11. On a session already detached with reason `r` and crash text `t`, a
further `on_detached` with the same reason `r` and either a crash whose report
is `t` or no crash leaves `detached`, the detach reason and the crash text as
they were: a notification without a crash does not write the crash text (of
the crash only the handle `crash` is set to what was passed).  The reply slot
and the callback slot are not touched. -/
theorem on_detached_idempotent (rf : RIOFrida) (r : FridaSessionDetachReason) (t : String)
    (crash : Option FridaCrash)
    (hdetached : rf.detached = true) (hreason : rf.detach_reason = some r)
    (hreport : rf.crash_report = some t) (hcrash : crash = none ∨ crash = some ⟨t⟩) :
    (on_detached rf r crash).detached = rf.detached
    ∧ (on_detached rf r crash).detach_reason = rf.detach_reason
    ∧ (on_detached rf r crash).crash_report = rf.crash_report
    ∧ (on_detached rf r crash).crash_report = some t
    ∧ (on_detached rf r crash).crash = crash
    ∧ (on_detached rf r crash).received_reply = rf.received_reply
    ∧ (on_detached rf r crash).reply_stanza = rf.reply_stanza
    ∧ (on_detached rf r crash).reply_bytes = rf.reply_bytes
    ∧ (on_detached rf r crash).pending_cmd = rf.pending_cmd := by
  rcases hcrash with h | h <;> subst h <;>
    simp [on_detached, eprintf, hdetached, hreason, hreport]

/-- C11 after a crash: the session was detached by `PROCESS_TERMINATED` with the
report `crash log`; a second notification without a crash keeps the report. -/
theorem on_detached_idempotent_witness :
    (on_detached session_after_crash .PROCESS_TERMINATED none).detached = true
    ∧ (on_detached session_after_crash .PROCESS_TERMINATED none).detach_reason
        = some .PROCESS_TERMINATED
    ∧ (on_detached session_after_crash .PROCESS_TERMINATED none).crash_report
        = some "crash log" :=
  let h := on_detached_idempotent session_after_crash .PROCESS_TERMINATED "crash log" none
    rfl rfl rfl (Or.inl rfl)
  ⟨h.1, h.2.1, h.2.2.2.1⟩

/-! ## C12: a reply without a stanza object -/

/-- What `on_message` does with a `send` message named `reply` whose `stanza`
member is absent or is not an object: one diagnostic, nothing else. -/
theorem on_message_reply_without_stanza (host : Host) (rf : RIOFrida) (raw : String)
    (root payload : JsonObject) (data : Option GBytes)
    (htype : json_object_get_string_member (some root) "type" = some "send")
    (hpayload : json_object_get_member (some root) "payload" = some (.object payload))
    (hname : json_object_get_string_member (some payload) "name" = some "reply")
    (hstanza : json_object_get_object_member (some payload) "stanza" = none) :
    on_message host rf raw (some (.object root)) data
      = .ok (eprintf rf (if json_object_has_member (some payload) "stanza"
          then "Bug in the agent, expected an object: " ++ raw ++ "\n"
          else "Unexpected payload\n")) := by
  have hobj : json_object_get_object_member (some root) "payload" = some payload := by
    simp [json_object_get_object_member, hpayload]
  simp only [on_message, json_node_get_object, htype, hpayload, hobj, json_node_get_node_type,
    hname, hstanza, if_true, Option.isSome_some, Bool.true_and]
  cases json_object_has_member (some payload) "stanza" <;> simp

/-- C12. A `send` message named `reply` whose `stanza` member is absent or is
not an object only makes `on_message` print a diagnostic: `received_reply`,
the reply stanza and bytes, the callback slot, `detached` and the detach
fields are as before.  A `perform_request` that is waiting (session not
detached, no reply received, post accepted) and is delivered that message and
nothing else is still waiting afterwards, on the session it had posted and
drained, with only the diagnostic added. -/
theorem malformed_reply_satisfies_no_waiter (host : Host) (rf : RIOFrida) (raw : String)
    (root payload : JsonObject) (data : Option GBytes)
    (htype : json_object_get_string_member (some root) "type" = some "send")
    (hpayload : json_object_get_member (some root) "payload" = some (.object payload))
    (hname : json_object_get_string_member (some payload) "name" = some "reply")
    (hstanza : json_object_get_object_member (some payload) "stanza" = none) :
    (∃ rf' diagnostic, on_message host rf raw (some (.object root)) data = .ok rf'
      ∧ rf' = eprintf rf diagnostic
      ∧ rf'.received_reply = rf.received_reply ∧ rf'.reply_stanza = rf.reply_stanza
      ∧ rf'.reply_bytes = rf.reply_bytes ∧ rf'.pending_cmd = rf.pending_cmd
      ∧ rf'.detached = rf.detached ∧ rf'.detach_reason = rf.detach_reason
      ∧ rf'.crash_report = rf.crash_report ∧ rf'.script = rf.script)
    ∧ ∀ (builder : JsonBuilder) (request_data : Option GBytes) (bytes : Bool),
        rf.detached = false → rf.received_reply = false →
        host.frida_script_post_sync rf.script (request_post builder request_data) = none →
        ∃ diagnostic,
          perform_request host rf builder request_data bytes
              [[Event.message raw (some (.object root)) data]]
            = .waiting (eprintf (exec_pending_cmd_if_needed host
                { rf with script := rf.script ++ [request_post builder request_data] })
                diagnostic) := by
  refine ⟨⟨_, _, on_message_reply_without_stanza host rf raw root payload data htype hpayload
    hname hstanza, rfl, rfl, rfl, rfl, rfl, rfl, rfl, rfl, rfl⟩, ?_⟩
  intro builder request_data bytes hdetached hreceived hpost
  rw [perform_request_ok host rf builder request_data bytes _ hpost,
    await_reply_wake host _ bytes _ [] (by simpa using hdetached) (by simpa using hreceived)]
  simp only [deliver, handle]
  rw [on_message_reply_without_stanza host _ raw root payload data htype hpayload hname hstanza]
  simp only []
  rw [await_reply_blocked host _ bytes (by simpa [eprintf] using hdetached)
    (by simpa [eprintf] using hreceived), exec_pending_cmd_none host _ (by simp [eprintf])]
  exact ⟨_, rfl⟩

/-- C12 on a fresh session: a read is waiting and the agent sends a reply whose
stanza is `null`; the read is still waiting, and no reply is stored. -/
theorem malformed_reply_satisfies_no_waiter_witness :
    ∃ diagnostic,
      perform_request echo_host r_io_frida_new read_request none true
          [[Event.message "raw" (some (.object reply_with_null_stanza)) none]]
        = .waiting (eprintf (exec_pending_cmd_if_needed echo_host
            { r_io_frida_new with script := r_io_frida_new.script ++ [request_post read_request none] })
            diagnostic) :=
  (malformed_reply_satisfies_no_waiter echo_host r_io_frida_new "raw" reply_with_null_stanza
    [("name", .str "reply"), ("stanza", .null)] none rfl rfl rfl rfl).2
    read_request none true rfl rfl rfl

/-! ## C13: the message `cmd` -/

/-- What `on_message` does with a `send` message named `cmd`: it calls `on_cmd`
when the payload has a `stanza` member, and only prints a diagnostic when it
has none. -/
theorem on_message_cmd_payload (host : Host) (rf : RIOFrida) (raw : String)
    (root payload : JsonObject) (data : Option GBytes)
    (htype : json_object_get_string_member (some root) "type" = some "send")
    (hpayload : json_object_get_member (some root) "payload" = some (.object payload))
    (hname : json_object_get_string_member (some payload) "name" = some "cmd") :
    on_message host rf raw (some (.object root)) data
      = if json_object_has_member (some payload) "stanza"
        then on_cmd rf (json_object_get_object_member (some payload) "stanza")
        else .ok (eprintf rf "Unexpected payload\n") := by
  have hobj : json_object_get_object_member (some root) "payload" = some payload := by
    simp [json_object_get_object_member, hpayload]
  simp only [on_message, json_node_get_object, htype, hpayload, hobj, json_node_get_node_type,
    hname, if_true, Option.isSome_some, Bool.true_and]
  cases json_object_has_member (some payload) "stanza" <;> simp

theorem pending_cmd_create_holds (stanza : JsonObject) (c : String) (n : Int)
    (hcmd : json_object_get_member (some stanza) "cmd" = some (.str c))
    (hserial : json_object_get_member (some stanza) "serial" = some (.int n))
    (hlo : 0 ≤ n) (hhi : n < (2 ^ 64 : Int)) :
    (pending_cmd_create stanza).cmd_string = some c
    ∧ ((pending_cmd_create stanza).serial : Int) = n := by
  refine ⟨by simp [pending_cmd_create, json_object_get_string_member, hcmd, json_node_get_string],
    ?_⟩
  simp only [pending_cmd_create, json_object_get_int_member, hserial, to_ut64]
  rw [Int.emod_eq_of_lt hlo hhi]
  exact Int.toNat_of_nonneg hlo

/-- C13, the claim refuted: a `cmd` message whose payload has no `stanza`
member is answered by `Unexpected payload`; `on_cmd` is not called and no
callback is stored. -/
theorem cmd_without_stanza_stores_nothing :
    on_message echo_host r_io_frida_new "raw" (some (.object cmd_without_stanza)) none
      = .ok (eprintf r_io_frida_new "Unexpected payload\n")
    ∧ (eprintf r_io_frida_new "Unexpected payload\n").pending_cmd = none
    ∧ on_cmd r_io_frida_new none ≠ .ok (eprintf r_io_frida_new "Unexpected payload\n") := by
  refine ⟨rfl, rfl, ?_⟩
  intro h
  simp [on_cmd, r_io_frida_new, eprintf, RFPendingCmd.zero] at h

/-- C13, amended. For every `send` message named `cmd` received while the
callback slot is empty: when the payload has a `stanza` member that is an
object the callback made from it is stored (it holds `c` and `n` when the
stanza is `{cmd:c, serial:n}` with `n` a `ut64`); when the payload has a
`stanza` member that is not an object the zeroed callback is stored; in both
cases `on_message` does what `on_cmd` does and changes nothing but the callback
slot.  When the payload has no `stanza` member `on_cmd` is not called:
`Unexpected payload` is printed and the callback slot stays empty. -/
theorem cmd_message_creates_callback (host : Host) (rf : RIOFrida) (raw : String)
    (root payload : JsonObject) (data : Option GBytes)
    (htype : json_object_get_string_member (some root) "type" = some "send")
    (hpayload : json_object_get_member (some root) "payload" = some (.object payload))
    (hname : json_object_get_string_member (some payload) "name" = some "cmd")
    (hpending : rf.pending_cmd = none) :
    (∀ stanza, json_object_get_member (some payload) "stanza" = some (.object stanza) →
      on_message host rf raw (some (.object root)) data = on_cmd rf (some stanza)
      ∧ on_message host rf raw (some (.object root)) data
          = .ok { rf with pending_cmd := some (pending_cmd_create stanza) }
      ∧ ∀ (c : String) (n : Int),
          json_object_get_member (some stanza) "cmd" = some (.str c) →
          json_object_get_member (some stanza) "serial" = some (.int n) →
          0 ≤ n → n < (2 ^ 64 : Int) →
          (pending_cmd_create stanza).cmd_string = some c
          ∧ ((pending_cmd_create stanza).serial : Int) = n)
    ∧ (json_object_has_member (some payload) "stanza" = true →
        json_object_get_object_member (some payload) "stanza" = none →
        on_message host rf raw (some (.object root)) data = on_cmd rf none
        ∧ on_message host rf raw (some (.object root)) data
            = .ok { rf with pending_cmd := some RFPendingCmd.zero })
    ∧ (json_object_has_member (some payload) "stanza" = false →
        on_message host rf raw (some (.object root)) data
          = .ok (eprintf rf "Unexpected payload\n")
        ∧ (eprintf rf "Unexpected payload\n").pending_cmd = none) := by
  have h := on_message_cmd_payload host rf raw root payload data htype hpayload hname
  refine ⟨fun stanza hstanza => ?_, fun hhas hnone => ?_, fun hhas => ?_⟩
  · have hhas : json_object_has_member (some payload) "stanza" = true := by
      simp [json_object_has_member, hstanza]
    have hobj : json_object_get_object_member (some payload) "stanza" = some stanza := by
      simp [json_object_get_object_member, hstanza]
    rw [h, hhas, if_pos rfl, hobj]
    exact ⟨rfl, on_cmd_ok rf stanza hpending,
      fun c n hc hn hlo hhi => pending_cmd_create_holds stanza c n hc hn hlo hhi⟩
  · rw [h, hhas, if_pos rfl, hnone]
    exact ⟨rfl, by simp [on_cmd, hpending]⟩
  · rw [h, hhas]
    exact ⟨by simp, by simp [eprintf, hpending]⟩

/-- C13 (amended) on a fresh session: the agent asks for `pd 1` with serial 7,
and the callback stored holds both. -/
theorem cmd_message_creates_callback_witness :
    on_message echo_host r_io_frida_new "raw"
        (some (cmd_message [("cmd", .str "pd 1"), ("serial", .int 7)])) none
      = .ok session_with_callback
    ∧ (pending_cmd_create [("cmd", .str "pd 1"), ("serial", .int 7)]).cmd_string = some "pd 1"
    ∧ ((pending_cmd_create [("cmd", .str "pd 1"), ("serial", .int 7)]).serial : Int) = 7 :=
  let h := (cmd_message_creates_callback echo_host r_io_frida_new "raw"
    [("type", .str "send"),
      ("payload", .object [("name", .str "cmd"),
        ("stanza", .object [("cmd", .str "pd 1"), ("serial", .int 7)])])]
    [("name", .str "cmd"), ("stanza", .object [("cmd", .str "pd 1"), ("serial", .int 7)])]
    none rfl rfl rfl rfl).1 [("cmd", .str "pd 1"), ("serial", .int 7)] rfl
  ⟨h.2.1, h.2.2 "pd 1" 7 rfl rfl (by decide) (by decide)⟩

/-! ## C16: a wake with no command -/

/-- C16, the claim refuted: draining the zeroed callback hands `NULL` to the
executor, and with an executor that answers with a text the answer is posted
with serial 0. -/
theorem heartbeat_runs_executor_and_posts :
    on_cmd r_io_frida_new none = .ok session_with_heartbeat
    ∧ (exec_pending_cmd_if_needed echo_host session_with_heartbeat).pending_cmd = none
    ∧ (exec_pending_cmd_if_needed echo_host session_with_heartbeat).r2core = [none]
    ∧ (exec_pending_cmd_if_needed echo_host session_with_heartbeat).script
        = [cmd_result "r2> (null)" 0] :=
  ⟨rfl, rfl, rfl, rfl⟩

/-- C16, amended. Draining the zeroed callback clears the callback slot and
calls the executor once, with `NULL` for a command; it posts nothing exactly
when the executor returns `NULL`, and when the executor returns a text it
posts that text once, as `{type:"cmd", payload:{output, serial:0}}`. -/
theorem heartbeat_drain (host : Host) (rf : RIOFrida)
    (hpending : rf.pending_cmd = some RFPendingCmd.zero) :
    (exec_pending_cmd_if_needed host rf).pending_cmd = none
    ∧ (exec_pending_cmd_if_needed host rf).r2core = rf.r2core ++ [none]
    ∧ (host.cmdstr rf.r2core none = none →
        (exec_pending_cmd_if_needed host rf).script = rf.script)
    ∧ (∀ output, host.cmdstr rf.r2core none = some output →
        (exec_pending_cmd_if_needed host rf).script = rf.script ++ [cmd_result output 0]) := by
  refine ⟨exec_pending_cmd_pending host rf,
    exec_pending_cmd_r2core host rf RFPendingCmd.zero hpending,
    fun hout => exec_pending_cmd_script_none host rf RFPendingCmd.zero hpending hout,
    fun output hout => ?_⟩
  have h := exec_pending_cmd_script host rf RFPendingCmd.zero output hpending hout
  rw [h]
  rfl

/-- C16 (amended) with an executor that has no output: the drain of a wake with
no command calls the executor and posts nothing. -/
theorem heartbeat_drain_witness :
    (exec_pending_cmd_if_needed mute_host session_with_heartbeat).pending_cmd = none
    ∧ (exec_pending_cmd_if_needed mute_host session_with_heartbeat).r2core = [none]
    ∧ (exec_pending_cmd_if_needed mute_host session_with_heartbeat).script = [] :=
  let h := heartbeat_drain mute_host session_with_heartbeat rfl
  ⟨h.1, h.2.1, h.2.2.1 rfl⟩

/-! ## C14: the messages that are neither a reply nor a callback -/

theorem stanza_message_error (host : Host) (stanza : JsonObject) (crash : String)
    (h : stanza_message host stanza = .error crash) : crash = "strdup (NULL)" := by
  simp only [stanza_message] at h
  repeat' split at h
  all_goals first
    | (injection h with h; exact h.symm)
    | (injection h)

/-- A message that is not a `send` message named `reply` or `cmd` makes
`on_message` write to standard error or to a file and nothing else, unless it
stops in `strdup (NULL)`. -/
theorem on_message_other (host : Host) (rf : RIOFrida) (raw : String) (message : JsonNode)
    (data : Option GBytes)
    (hother : json_object_get_string_member (json_node_get_object message) "type" ≠ some "send"
      ∨ (json_object_get_string_member
            (json_object_get_object_member (json_node_get_object message) "payload") "name"
          ≠ some "reply"
        ∧ json_object_get_string_member
            (json_object_get_object_member (json_node_get_object message) "payload") "name"
          ≠ some "cmd")) :
    (∃ err dumps, on_message host rf raw (some message) data
        = .ok { rf with stderr := rf.stderr ++ err, dumped := rf.dumped ++ dumps })
      ∨ on_message host rf raw (some message) data = .error "strdup (NULL)" := by
  simp only [on_message]
  repeat' split
  all_goals first
    | exact Or.inl ⟨_, _, congrArg Except.ok (eprintf_frame _ _)⟩
    | exact Or.inl ⟨_, _, congrArg Except.ok (self_frame _)⟩
    | exact Or.inl ⟨_, _, congrArg Except.ok (dumped_frame _ _ _)⟩
    | (refine Or.inr (congrArg Except.error ?_)
       rename_i h
       exact stanza_message_error host _ _ h)
    | (exfalso
       simp_all)

/-- A `log` or `log-file` stanza whose `message` member is neither an object nor
a string stops `on_message` in `strdup (NULL)`. -/
theorem on_message_log_without_text (host : Host) (rf : RIOFrida) (raw : String)
    (root payload stanza : JsonObject) (data : Option GBytes)
    (htype : json_object_get_string_member (some root) "type" = some "send")
    (hpayload : json_object_get_member (some root) "payload" = some (.object payload))
    (hname : json_object_get_string_member (some payload) "name" = some "log"
      ∨ json_object_get_string_member (some payload) "name" = some "log-file")
    (hstanza : json_object_get_member (some payload) "stanza" = some (.object stanza))
    (hobject : ∀ members, json_object_get_member (some stanza) "message" ≠ some (.object members))
    (hstring : json_object_get_string_member (some stanza) "message" = none) :
    on_message host rf raw (some (.object root)) data = .error "strdup (NULL)" := by
  have hobj : json_object_get_object_member (some root) "payload" = some payload := by
    simp [json_object_get_object_member, hpayload]
  have hst : json_object_get_object_member (some payload) "stanza" = some stanza := by
    simp [json_object_get_object_member, hstanza]
  have hhas : json_object_has_member (some payload) "stanza" = true := by
    simp [json_object_has_member, hstanza]
  have hmsg : stanza_message host stanza = .error "strdup (NULL)" := by
    unfold stanza_message
    split
    · rename_i members h
      exact absurd h (hobject members)
    · simp [hstring]
  rcases hname with hname | hname <;>
    simp [on_message, json_node_get_object, htype, hpayload, hobj, json_node_get_node_type,
      hname, hst, hhas, hmsg]

/-- C14. For every message that is not a `send` message named `reply` or
`cmd` (a `send` message named `log`, `log-file` or anything else, a top-level
`log` message, a message of any other type), `on_message` either returns
having written only to standard error or to a file (the reply slot, the
callback slot and the detach fields are as before) or stops in
`strdup (NULL)`; and it does stop there for every `log` or `log-file` stanza
whose `message` member is missing or is neither an object nor a string. -/
theorem other_messages_keep_session (host : Host) (rf : RIOFrida) (raw : String)
    (root : JsonObject) (data : Option GBytes)
    (hother : json_object_get_string_member (some root) "type" ≠ some "send"
      ∨ (json_object_get_string_member (json_object_get_object_member (some root) "payload") "name"
          ≠ some "reply"
        ∧ json_object_get_string_member (json_object_get_object_member (some root) "payload") "name"
          ≠ some "cmd")) :
    ((∃ rf', on_message host rf raw (some (.object root)) data = .ok rf'
        ∧ rf'.received_reply = rf.received_reply ∧ rf'.reply_stanza = rf.reply_stanza
        ∧ rf'.reply_bytes = rf.reply_bytes ∧ rf'.pending_cmd = rf.pending_cmd
        ∧ rf'.detached = rf.detached ∧ rf'.detach_reason = rf.detach_reason
        ∧ rf'.crash = rf.crash ∧ rf'.crash_report = rf.crash_report
        ∧ rf'.script = rf.script ∧ rf'.r2core = rf.r2core)
      ∨ on_message host rf raw (some (.object root)) data = .error "strdup (NULL)")
    ∧ ∀ payload stanza : JsonObject,
        json_object_get_string_member (some root) "type" = some "send" →
        json_object_get_member (some root) "payload" = some (.object payload) →
        (json_object_get_string_member (some payload) "name" = some "log"
          ∨ json_object_get_string_member (some payload) "name" = some "log-file") →
        json_object_get_member (some payload) "stanza" = some (.object stanza) →
        (∀ members, json_object_get_member (some stanza) "message" ≠ some (.object members)) →
        json_object_get_string_member (some stanza) "message" = none →
        on_message host rf raw (some (.object root)) data = .error "strdup (NULL)" := by
  refine ⟨?_, fun payload stanza htype hpayload hname hstanza hobject hstring =>
    on_message_log_without_text host rf raw root payload stanza data htype hpayload hname hstanza
      hobject hstring⟩
  rcases on_message_other host rf raw (.object root) data hother with ⟨err, dumps, h⟩ | h
  · exact Or.inl ⟨_, h, rfl, rfl, rfl, rfl, rfl, rfl, rfl, rfl, rfl, rfl⟩
  · exact Or.inr h

/-- C14 at the failing input: on a fresh session the message
`{"type":"send","payload":{"name":"log","stanza":{"message":42}}}` stops
`on_message` in `strdup (NULL)`. -/
theorem other_messages_keep_session_witness :
    on_message echo_host r_io_frida_new "raw" (some log_without_text) none
      = .error "strdup (NULL)" :=
  (other_messages_keep_session echo_host r_io_frida_new "raw"
    [("type", .str "send"),
      ("payload", .object [("name", .str "log"), ("stanza", .object [("message", .int 42)])])]
    none
    (Or.inr ⟨by simp [json_object_get_string_member, json_object_get_object_member,
        json_object_get_member, json_node_get_string, List.lookup],
      by simp [json_object_get_string_member, json_object_get_object_member,
        json_object_get_member, json_node_get_string, List.lookup]⟩)).2
    [("name", .str "log"), ("stanza", .object [("message", .int 42)])] [("message", .int 42)]
    rfl rfl (Or.inl rfl) rfl
    (fun members h => by
      simp [json_object_get_member, List.lookup] at h)
    rfl

/-! ## Commands on a detached session -/

/-- On a detached session `perform_request` returns, and neither the detach
fields nor the crash report are touched; with an empty reply slot it returns
failure. -/
theorem perform_request_detached_frame (host : Host) (rf : RIOFrida) (builder : JsonBuilder)
    (data : Option GBytes) (bytes : Bool) (wakes : List (List Event))
    (hdetached : rf.detached = true) :
    ∃ rf' result out, perform_request host rf builder data bytes wakes = .returned rf' result out
      ∧ rf'.detached = true ∧ rf'.detach_reason = rf.detach_reason
      ∧ rf'.crash_report = rf.crash_report ∧ rf'.suspended = rf.suspended
      ∧ (rf.received_reply = false → result = none) := by
  obtain ⟨err, hframe⟩ := post_message_frame host rf builder data
  simp only [perform_request]
  rcases hpm : post_message host rf builder data with ⟨rf1, _ | e⟩
  · rw [hpm] at hframe
    simp only at hframe ⊢
    have hd1 : rf1.detached = true := by rw [hframe]; exact hdetached
    have hr1 : rf1.detach_reason = rf.detach_reason := by rw [hframe]
    have hc1 : rf1.crash_report = rf.crash_report := by rw [hframe]
    have hs1 : rf1.suspended = rf.suspended := by rw [hframe]
    have hrr1 : rf1.received_reply = rf.received_reply := by rw [hframe]
    rw [await_reply_done host rf1 bytes wakes (by simp [hd1])]
    obtain ⟨posts, cmds, err2, hexec⟩ := exec_pending_cmd_frame host rf1
    obtain ⟨base, hbase⟩ : ∃ x, x = exec_pending_cmd_if_needed host rf1 := ⟨_, rfl⟩
    rw [← hbase] at hexec ⊢
    have hd2 : base.detached = true := by rw [hexec]; exact hd1
    have hr2 : base.detach_reason = rf.detach_reason := by rw [hexec]; exact hr1
    have hc2 : base.crash_report = rf.crash_report := by rw [hexec]; exact hc1
    have hs2 : base.suspended = rf.suspended := by rw [hexec]; exact hs1
    have hrr2 : base.received_reply = rf.received_reply := by rw [hexec]; exact hrr1
    simp only [take_reply]
    split
    · rename_i hr
      obtain ⟨err3, result, out, h, -⟩ := finish_request_frame
        { base with reply_stanza := none, reply_bytes := none, received_reply := false }
        base.reply_stanza base.reply_bytes bytes
      refine ⟨_, result, out, h, hd2, hr2, hc2, hs2, ?_⟩
      intro hnot
      rw [hrr2, hnot] at hr
      cases hr
    · obtain ⟨err3, result, out, h, hnone⟩ := finish_request_frame base none none bytes
      exact ⟨_, result, out, h, hd2, hr2, hc2, hs2, fun _ => (hnone rfl).1⟩
  · rw [hpm] at hframe
    simp only at hframe ⊢
    refine ⟨rf1, none, none, rfl, ?_, ?_, ?_, ?_, fun _ => rfl⟩
    all_goals rw [hframe]
    exact hdetached

/-! ## C17: the crash report on demand -/

/-- C17. On a session detached with reason `r` and crash text `t`, whatever
becomes of the `state` request, `__system_continuation` on a command beginning
with `dkr` returns nothing after printing through `io->cb_printf` exactly two
texts: `DetachReason: ` with the name of `r` (the name of the enum value) and a
line end, then `t` and a line end; the seek and the calls made are as before
and so are the detach fields.  When the reply slot is empty (the `state`
request fails) every command that does not begin with `dkr` returns nothing:
having printed nothing when it is not `help`, `h` or `?`, and having printed
the help, before any request, when it is. -/
theorem dkr_prints_crash_report (host : Host) (shell : Shell) (io : RIO) (rf : RIOFrida)
    (rest command : CString) (wakes_state wakes : List (List Event))
    (r : FridaSessionDetachReason) (t : String)
    (hdetached : rf.detached = true) (hreason : rf.detach_reason = some r)
    (hreport : rf.crash_report = some t) :
    (∃ rf', __system_continuation host shell io rf ('d' :: 'k' :: 'r' :: rest) wakes_state wakes
        = .returned
            { io with
              printed := io.printed ++
                ["DetachReason: "
                    ++ (match r with
                      | .APPLICATION_REQUESTED =>
                        "FRIDA_SESSION_DETACH_REASON_APPLICATION_REQUESTED"
                      | .PROCESS_REPLACED => "FRIDA_SESSION_DETACH_REASON_PROCESS_REPLACED"
                      | .PROCESS_TERMINATED => "FRIDA_SESSION_DETACH_REASON_PROCESS_TERMINATED"
                      | .SERVER_TERMINATED => "FRIDA_SESSION_DETACH_REASON_SERVER_TERMINATED"
                      | .DEVICE_LOST => "FRIDA_SESSION_DETACH_REASON_DEVICE_LOST")
                    ++ "\n",
                  t ++ "\n"] }
            rf' none
      ∧ rf'.detached = true ∧ rf'.detach_reason = some r ∧ rf'.crash_report = some t)
    ∧ (rf.received_reply = false → starts_with command ['d', 'k', 'r'] = false →
        ((command = ['h', 'e', 'l', 'p'] || command = ['h'] || command = ['?']) = false →
          ∃ rf', __system_continuation host shell io rf command wakes_state wakes
              = .returned io rf' none
            ∧ rf'.detached = true ∧ rf'.detach_reason = some r ∧ rf'.crash_report = some t)
        ∧ ((command = ['h', 'e', 'l', 'p'] || command = ['h'] || command = ['?']) = true →
          __system_continuation host shell io rf command wakes_state wakes
            = .returned { io with printed := io.printed ++ [system_help] } rf none)) := by
  obtain ⟨rf1, result, out, hstate, hd1, hr1, hc1, -, hnone⟩ :=
    perform_request_detached_frame host rf (state_request io rf) none false wakes_state hdetached
  constructor
  · refine ⟨rf1, ?_, hd1, by rw [hr1, hreason], by rw [hc1, hreport]⟩
    have hname : rf1.detach_reason = some r := by rw [hr1, hreason]
    simp only [__system_continuation, hstate, starts_with, system_dispatch, hc1, hreport,
      cb_printf, detachReasonAsString, hname]
    cases r <;> simp
  · intro hreceived hother
    constructor
    · intro hhelp
      refine ⟨rf1, ?_, hd1, by rw [hr1, hreason], by rw [hc1, hreport]⟩
      simp only [__system_continuation, hhelp, hstate, hnone hreceived, hother]
      simp
    · intro hhelp
      simp only [__system_continuation, hhelp, if_true, cb_printf]

/-- C17 after a crash: the session was detached by `PROCESS_TERMINATED` with the
report `crash log`; `dkr` prints the name of the reason and the report. -/
theorem dkr_prints_crash_report_witness :
    ∃ rf', __system_continuation echo_host plain_shell io_at_0x1000 session_after_crash
        ['d', 'k', 'r'] [] []
      = .returned
          { io_at_0x1000 with
            printed := ["DetachReason: FRIDA_SESSION_DETACH_REASON_PROCESS_TERMINATED\n",
              "crash log\n"] }
          rf' none
      ∧ rf'.detached = true ∧ rf'.detach_reason = some .PROCESS_TERMINATED
      ∧ rf'.crash_report = some "crash log" :=
  let ⟨rf', h, hd, hr, hc⟩ := (dkr_prints_crash_report echo_host plain_shell io_at_0x1000
    session_after_crash [] [] [] [] .PROCESS_TERMINATED "crash log" rfl rfl rfl).1
  ⟨rf', h.trans rfl, hd, hr, hc⟩

/-! ## C15: the result of a command -/

/-- A command that is not a request for help, whose `state` request was
answered and which the dispatch forwards to the agent as `builder`, ends as
the request for `builder` ends, the reply going through `system_reply`. -/
theorem system_continuation_forward (host : Host) (shell : Shell) (io io2 : RIO)
    (rf rf1 rf2 : RIOFrida) (command : CString) (wakes_state wakes : List (List Event))
    (r1 : JsonObject) (out1 : Option (Option GBytes)) (builder : JsonBuilder)
    (hhelp : (command = ['h', 'e', 'l', 'p'] || command = ['h'] || command = ['?']) = false)
    (hstate : perform_request host rf (state_request io rf) none false wakes_state
      = .returned rf1 (some r1) out1)
    (hforward : system_dispatch shell io rf1 command = .forward io2 rf2 builder) :
    __system_continuation host shell io rf command wakes_state wakes
      = match perform_request host rf2 builder none false wakes with
        | .aborted assertion => .aborted assertion
        | .waiting rf => .waiting io2 rf
        | .returned rf result _ =>
          .returned (system_reply io2 command result).1 rf (system_reply io2 command result).2 := by
  simp only [__system_continuation, hhelp, hstate, hforward]
  simp

/-- C15, the claim refuted: the command `i` is forwarded to the agent and the
reply stanza is `{value:"undefined"}`, without an error member and with a
string value; nothing is printed and nothing is returned. -/
theorem undefined_value_is_not_shown :
    ∃ rf', __system_continuation echo_host plain_shell io_at_0x1000 r_io_frida_new ['i']
        [[Event.message "raw" (some (reply_message [])) none]]
        [[Event.message "raw" (some (reply_message [("value", .str "undefined")])) none]]
      = .returned io_at_0x1000 rf' none
      ∧ io_at_0x1000.printed = [] :=
  ⟨_, rfl, rfl⟩

/-- C15, amended. For every command that `__system_continuation` forwards to
the agent (it is not a request for help, the `state` request was answered, the
dispatch built a request, and the request is posted and waits), when the reply
stanza has no `error` member and has a string `value` member `v`: if `v` is
`undefined` nothing is printed and nothing is returned; otherwise, for a
command beginning with `m`, `v` is returned and not printed, and for any other
command `v` followed by a line end is printed and nothing is returned.  When
the reply stanza has an `error` member, nothing is printed through
`cb_printf` and nothing is returned, the last thing written to standard error
being `error: ` followed by the error member. -/
theorem system_continuation_shows_value (host : Host) (shell : Shell) (io io2 : RIO)
    (rf rf1 rf2 : RIOFrida) (command : CString) (wakes_state rest : List (List Event))
    (r1 : JsonObject) (out1 : Option (Option GBytes)) (builder : JsonBuilder)
    (raw : String) (s : JsonObject) (b : Option GBytes)
    (hhelp : (command = ['h', 'e', 'l', 'p'] || command = ['h'] || command = ['?']) = false)
    (hstate : perform_request host rf (state_request io rf) none false wakes_state
      = .returned rf1 (some r1) out1)
    (hforward : system_dispatch shell io rf1 command = .forward io2 rf2 builder)
    (hdetached : rf2.detached = false) (hreceived : rf2.received_reply = false)
    (hstanza : rf2.reply_stanza = none) (hbytes : rf2.reply_bytes = none)
    (hpost : host.frida_script_post_sync rf2.script (request_post builder none) = none) :
    ∃ rf3, rf3 = exec_pending_cmd_if_needed host
        { rf2 with script := rf2.script ++ [request_post builder none] }
      ∧ (json_object_has_member (some s) "error" = true →
          __system_continuation host shell io rf command wakes_state
              ([Event.message raw (some (reply_message s)) b] :: rest)
            = .returned io2
                (eprintf rf3
                  ("error: " ++ cstr (json_object_get_string_member (some s) "error") ++ "\n"))
                none)
      ∧ (json_object_has_member (some s) "error" = false →
          ∀ v, json_object_get_member (some s) "value" = some (.str v) →
            (v = "undefined" →
              __system_continuation host shell io rf command wakes_state
                  ([Event.message raw (some (reply_message s)) b] :: rest)
                = .returned io2 rf3 none)
            ∧ (v ≠ "undefined" → command.head? = some 'm' →
              __system_continuation host shell io rf command wakes_state
                  ([Event.message raw (some (reply_message s)) b] :: rest)
                = .returned io2 rf3 (some v))
            ∧ (v ≠ "undefined" → command.head? ≠ some 'm' →
              __system_continuation host shell io rf command wakes_state
                  ([Event.message raw (some (reply_message s)) b] :: rest)
                = .returned (cb_printf io2 (v ++ "\n")) rf3 none)) := by
  have hrun := system_continuation_forward host shell io io2 rf rf1 rf2 command wakes_state
    ([Event.message raw (some (reply_message s)) b] :: rest) r1 out1 builder hhelp hstate hforward
  rw [perform_request_ok host rf2 builder none false _ hpost,
    await_reply_on_reply host _ false raw s b rest (by simpa using hdetached)
      (by simpa using hreceived) (by simpa using hstanza) (by simpa using hbytes)] at hrun
  refine ⟨_, rfl, fun herror => ?_, fun herror v hv => ?_⟩
  · rw [hrun]
    simp [finish_request, herror, system_reply]
  · have hhas : json_object_has_member (some s) "value" = true := by
      simp [json_object_has_member, hv]
    have hval : json_object_get_string_member (some s) "value" = some v := by
      simp [json_object_get_string_member, hv, json_node_get_string]
    refine ⟨fun hu => ?_, fun hu hm => ?_, fun hu hm => ?_⟩
    · rw [hrun]
      simp [finish_request, herror, system_reply, hhas, hval, hu]
    · rw [hrun]
      simp [finish_request, herror, system_reply, hhas, hval, hu, hm]
    · rw [hrun]
      simp [finish_request, herror, system_reply, hhas, hval, hu, hm]

/-- C15 (amended) on a fresh session: the command `i` is answered by
`{value:"arm64"}`, and `arm64` followed by a line end is printed. -/
theorem system_continuation_shows_value_witness :
    ∃ rf3, __system_continuation echo_host plain_shell io_at_0x1000 r_io_frida_new ['i']
        [[Event.message "raw" (some (reply_message [])) none]]
        [[Event.message "raw" (some (reply_message [("value", .str "arm64")])) none]]
      = .returned (cb_printf io_at_0x1000 ("arm64" ++ "\n")) rf3 none :=
  let ⟨rf3, _, _, h⟩ := system_continuation_shows_value echo_host plain_shell io_at_0x1000
    io_at_0x1000 r_io_frida_new
    { r_io_frida_new with
      script := [request_post (state_request io_at_0x1000 r_io_frida_new) none] }
    { r_io_frida_new with
      script := [request_post (state_request io_at_0x1000 r_io_frida_new) none] }
    ['i'] [[Event.message "raw" (some (reply_message [])) none]] [] [] none
    (plain_request ['i']) "raw" [("value", .str "arm64")] none
    rfl rfl rfl rfl rfl rfl rfl rfl
  ⟨rf3, (h rfl "arm64" rfl).2.2 (by decide) (by decide)⟩

/-! ## Number parsing -/

theorem isdigit_not_isspace (c : Char) (h : isdigit c = true) : isspace c = false := by
  simp only [isdigit, isspace, Bool.and_eq_true, decide_eq_true_eq, Bool.or_eq_false_iff,
    decide_eq_false_iff_not, Bool.and_eq_false_imp] at h ⊢
  omega

theorem isdigit_not_sign (c : Char) (h : isdigit c = true) : c ≠ '-' ∧ c ≠ '+' := by
  constructor <;>
  · intro hc
    subst hc
    revert h
    decide

theorem takeWhile_isdigit_prefix (p rest : CString) (hall : ∀ c ∈ p, isdigit c = true)
    (hrest : ∀ c, rest.head? = some c → isdigit c = false) :
    (p ++ rest).takeWhile isdigit = p := by
  rw [List.takeWhile_append_of_pos hall]
  cases rest with
  | nil => simp
  | cons x xs => simp [List.takeWhile, hrest x rfl]

theorem digits_value_nonneg (p : CString) : (0 : Int) ≤ (digits_value p : Int) :=
  Int.ofNat_nonneg _

/-- What `strtol` reads from a string that begins with a run of digits `p`
followed by nothing or by a character that is not a digit: the number `p`
writes (at most `LONG_MAX`), having consumed `p` and nothing more. -/
theorem strtol_digits_prefix (p rest : CString) (hne : p ≠ [])
    (hall : ∀ c ∈ p, isdigit c = true)
    (hrest : ∀ c, rest.head? = some c → isdigit c = false) :
    strtol (p ++ rest) = (min (digits_value p : Int) ((2 ^ 63 : Int) - 1), p.length) := by
  cases p with
  | nil => exact absurd rfl hne
  | cons d ds =>
    have hd : isdigit d = true := hall d (by simp)
    have hsp : isspace d = false := isdigit_not_isspace d hd
    have hsign := isdigit_not_sign d hd
    have htake := takeWhile_isdigit_prefix (d :: ds) rest hall hrest
    have hblank : (d :: ds ++ rest).takeWhile isspace = [] := by
      simp [List.takeWhile, hsp]
    have hdrop : (d :: ds ++ rest).dropWhile isspace = d :: ds ++ rest := by
      simp [List.dropWhile, hsp]
    have hnonneg := digits_value_nonneg (d :: ds)
    simp only [strtol, hblank, hdrop]
    simp only [List.cons_append, List.head?_cons, Option.some.injEq, hsign.1, hsign.2,
      decide_False, Bool.or_self, Bool.false_eq_true, if_false]
    rw [← List.cons_append, htake]
    simp only [List.isEmpty_cons, Bool.false_eq_true, if_false, List.length_nil, zero_add,
      add_zero, Prod.mk.injEq, and_true]
    omega

/-- A string that `strtol` consumes whole, when not empty, is made of white
space, at most one sign, and at least one digit. -/
theorem strtol_consumed_all (t : CString) (hne : t ≠ []) (h : (strtol t).2 = t.length) :
    ∃ blanks sgn ds, t = blanks ++ sgn ++ ds ∧ (∀ c ∈ blanks, isspace c = true)
      ∧ (sgn = [] ∨ sgn = ['-'] ∨ sgn = ['+']) ∧ ds ≠ [] ∧ ∀ c ∈ ds, isdigit c = true := by
  have ht : t.takeWhile isspace ++ t.dropWhile isspace = t := List.takeWhile_append_dropWhile _ _
  obtain ⟨s1, hs1⟩ : ∃ x, x = t.dropWhile isspace := ⟨_, rfl⟩
  obtain ⟨blanks, hblanks⟩ : ∃ x, x = t.takeWhile isspace := ⟨_, rfl⟩
  have hb : ∀ c ∈ blanks, isspace c = true := by
    intro c hc
    rw [hblanks] at hc
    exact List.mem_takeWhile_imp hc
  simp only [strtol, ← hs1, ← hblanks] at h
  rw [← hs1, ← hblanks] at ht
  have hlen : t.length = blanks.length + s1.length := by rw [← ht]; simp
  have hpos : 0 < t.length := List.length_pos.mpr hne
  have hsplit : ∀ s2 : CString, s2.length
      = (s2.takeWhile isdigit).length + (s2.dropWhile isdigit).length := by
    intro s2
    rw [← List.length_append, List.takeWhile_append_dropWhile]
  have hall : ∀ s2 : CString, ∀ c ∈ s2.takeWhile isdigit, isdigit c = true :=
    fun s2 c hc => List.mem_takeWhile_imp hc
  have hwhole : ∀ s2 : CString, (s2.dropWhile isdigit).length = 0 →
      s2.takeWhile isdigit = s2 := by
    intro s2 h0
    have := List.takeWhile_append_dropWhile isdigit s2
    rw [List.length_eq_zero.mp h0, List.append_nil] at this
    exact this
  cases s1 with
  | nil =>
    have h0 : 0 = t.length := by simpa using h
    omega
  | cons x xs =>
    by_cases hminus : x = '-'
    · subst hminus
      simp only [List.head?_cons, decide_True, Bool.true_or, if_true, List.tail_cons] at h
      by_cases hds : (xs.takeWhile isdigit).isEmpty = true
      · rw [if_pos hds] at h
        have h0 : 0 = t.length := h
        omega
      · rw [if_neg hds] at h
        have h1 : blanks.length + 1 + (xs.takeWhile isdigit).length = t.length := h
        have h0 : (xs.dropWhile isdigit).length = 0 := by
          have := hsplit xs
          simp only [List.length_cons] at hlen
          omega
        refine ⟨blanks, ['-'], xs, by rw [← ht]; simp, hb, Or.inr (Or.inl rfl), ?_, ?_⟩
        · intro hxs
          subst hxs
          simp at hds
        · intro c hc
          rw [← hwhole xs h0] at hc
          exact hall xs c hc
    · by_cases hplus : x = '+'
      · subst hplus
        simp only [List.head?_cons, Option.some.injEq, decide_True, Bool.or_true, if_true,
          List.tail_cons] at h
        by_cases hds : (xs.takeWhile isdigit).isEmpty = true
        · rw [if_pos hds] at h
          have h0 : 0 = t.length := h
          omega
        · rw [if_neg hds] at h
          have h1 : blanks.length + 1 + (xs.takeWhile isdigit).length = t.length := h
          have h0 : (xs.dropWhile isdigit).length = 0 := by
            have := hsplit xs
            simp only [List.length_cons] at hlen
            omega
          refine ⟨blanks, ['+'], xs, by rw [← ht]; simp, hb, Or.inr (Or.inr rfl), ?_, ?_⟩
          · intro hxs
            subst hxs
            simp at hds
          · intro c hc
            rw [← hwhole xs h0] at hc
            exact hall xs c hc
      · simp only [List.head?_cons, Option.some.injEq, hminus, hplus, decide_False,
          Bool.or_self, Bool.false_eq_true, if_false] at h
        by_cases hds : ((x :: xs).takeWhile isdigit).isEmpty = true
        · rw [if_pos hds] at h
          have h0 : 0 = t.length := h
          omega
        · rw [if_neg hds] at h
          have h1 : blanks.length + 0 + ((x :: xs).takeWhile isdigit).length = t.length := h
          have h0 : ((x :: xs).dropWhile isdigit).length = 0 := by
            have := hsplit (x :: xs)
            omega
          refine ⟨blanks, [], x :: xs, by rw [← ht]; simp, hb, Or.inl rfl, by simp, ?_⟩
          intro c hc
          rw [← hwhole (x :: xs) h0] at hc
          exact hall (x :: xs) c hc

/-- A string that ends with a character that is not a digit is not consumed
whole by `strtol`. -/
theorem strtol_stops_before_trailing (s : CString) (c : Char) (hc : isdigit c = false) :
    (strtol (s ++ [c])).2 ≠ (s ++ [c]).length := by
  intro h
  obtain ⟨blanks, sgn, ds, ht, -, -, hds, hall⟩ := strtol_consumed_all (s ++ [c]) (by simp) h
  have hlast : (s ++ [c]).getLast? = some c := by simp
  rw [ht, List.getLast?_append_of_ne_nil _ hds] at hlast
  have hmem : c ∈ ds := List.mem_of_getLast?_eq_some hlast
  rw [hall c hmem] at hc
  cases hc

theorem takeWhile_isspace_blanks (blanks rest : CString) (hb : ∀ c ∈ blanks, isspace c = true)
    (hrest : ∀ c, rest.head? = some c → isspace c = false) :
    (blanks ++ rest).takeWhile isspace = blanks
    ∧ (blanks ++ rest).dropWhile isspace = rest := by
  have h1 : rest.takeWhile isspace = [] := by
    cases rest with
    | nil => rfl
    | cons x xs => simp [List.takeWhile, hrest x rfl]
  have h2 : rest.dropWhile isspace = rest := by
    cases rest with
    | nil => rfl
    | cons x xs => simp [List.dropWhile, hrest x rfl]
  constructor
  · rw [List.takeWhile_append_of_pos hb, h1, List.append_nil]
  · rw [List.dropWhile_append_of_pos hb, h2]

/-- White space, at most one sign and at least one digit are consumed whole by
`strtol`. -/
theorem strtol_consumes_number (blanks sgn ds : CString) (hb : ∀ c ∈ blanks, isspace c = true)
    (hs : sgn = [] ∨ sgn = ['-'] ∨ sgn = ['+']) (hne : ds ≠ [])
    (hall : ∀ c ∈ ds, isdigit c = true) :
    (strtol (blanks ++ sgn ++ ds)).2 = (blanks ++ sgn ++ ds).length := by
  cases ds with
  | nil => exact absurd rfl hne
  | cons d ds =>
    have hd : isdigit d = true := hall d (by simp)
    have hdsp : isspace d = false := isdigit_not_isspace d hd
    have hsign := isdigit_not_sign d hd
    have htake : (d :: ds).takeWhile isdigit = d :: ds := by
      have := takeWhile_isdigit_prefix (d :: ds) [] hall (fun c h => by cases h)
      simpa using this
    rcases hs with hs | hs | hs <;> subst hs
    · obtain ⟨h1, h2⟩ := takeWhile_isspace_blanks blanks (d :: ds) hb
        (fun c h => by simp at h; rw [← h]; exact hdsp)
      simp only [List.append_nil, strtol, h1, h2, List.head?_cons, Option.some.injEq, hsign.1,
        hsign.2, decide_False, Bool.or_self, Bool.false_eq_true, if_false, htake,
        List.isEmpty_cons, List.length_append, List.length_cons, add_zero]
    · obtain ⟨h1, h2⟩ := takeWhile_isspace_blanks blanks ('-' :: d :: ds) hb
        (fun c h => by simp at h; rw [← h]; decide)
      simp only [List.append_assoc, List.singleton_append, strtol, h1, h2, List.head?_cons,
        decide_True, Bool.true_or, if_true, List.tail_cons, htake, List.isEmpty_cons,
        Bool.false_eq_true, if_false, List.length_append, List.length_cons]
      omega
    · obtain ⟨h1, h2⟩ := takeWhile_isspace_blanks blanks ('+' :: d :: ds) hb
        (fun c h => by simp at h; rw [← h]; decide)
      simp only [List.append_assoc, List.singleton_append, strtol, h1, h2, List.head?_cons,
        Option.some.injEq, decide_True, Bool.or_true, if_true, List.tail_cons, htake,
        List.isEmpty_cons, Bool.false_eq_true, if_false, List.length_append, List.length_cons]
      omega

theorem to_int_small (n : Nat) (h : n < 2 ^ 31) : to_int (n : Int) = n := by
  simp only [to_int]
  norm_num at h ⊢
  omega

theorem to_guint_to_int_small (n : Nat) (h : n < 2 ^ 31) : to_guint (to_int (n : Int)) = n := by
  rw [to_int_small n h]
  simp only [to_guint]
  norm_num at h ⊢
  omega

theorem to_guint_to_int_eq_zero (x : Int) : to_guint (to_int x) = 0 ↔ to_int x = 0 := by
  simp only [to_int, to_guint]
  norm_num
  omega

/-- What `atopid` makes of a string that begins with a run of digits `p`: the
number `p` writes, and valid exactly when nothing follows. -/
theorem atopid_digits_prefix (p rest : CString) (hne : p ≠ [])
    (hall : ∀ c ∈ p, isdigit c = true)
    (hrest : ∀ c, rest.head? = some c → isdigit c = false) :
    atopid (p ++ rest)
      = (to_int (min (digits_value p : Int) ((2 ^ 63 : Int) - 1)), rest.isEmpty) := by
  simp only [atopid, strtol_digits_prefix p rest hne hall hrest, List.length_append,
    Prod.mk.injEq, true_and]
  cases rest <;> simp

/-! ## C26: `atopid` -/

/-- C26. `atopid` returns the number `strtol` reads, as an `int`, and reports
the string valid exactly when `strtol` consumed all of it, which is the case
exactly for the empty string and for the strings made of white space, at most
one sign and at least one digit.  So the empty string is valid with pid 0, a
string that ends with a character that is not a digit is invalid, and a run of
digits followed by such a character is invalid while the number the digits
write is returned. -/
theorem atopid_valid_iff_consumed (s : CString) :
    (atopid s).1 = to_int (strtol s).1
    ∧ ((atopid s).2 = true ↔ (strtol s).2 = s.length)
    ∧ ((atopid s).2 = true ↔
        s = [] ∨ ∃ blanks sgn ds, s = blanks ++ sgn ++ ds ∧ (∀ c ∈ blanks, isspace c = true)
          ∧ (sgn = [] ∨ sgn = ['-'] ∨ sgn = ['+']) ∧ ds ≠ [] ∧ ∀ c ∈ ds, isdigit c = true)
    ∧ atopid [] = (0, true)
    ∧ (∀ c, isdigit c = false → (atopid (s ++ [c])).2 = false)
    ∧ (∀ (p rest : CString) (c : Char), p ≠ [] → (∀ x ∈ p, isdigit x = true) →
        isdigit c = false →
        atopid (p ++ c :: rest)
          = (to_int (min (digits_value p : Int) ((2 ^ 63 : Int) - 1)), false)) := by
  have hvalid : (atopid s).2 = true ↔ (strtol s).2 = s.length := by
    simp [atopid]
  refine ⟨rfl, hvalid, ?_, by decide, fun c hc => ?_, fun p rest c hne hall hc => ?_⟩
  · rw [hvalid]
    constructor
    · intro h
      by_cases hs : s = []
      · exact Or.inl hs
      · exact Or.inr (strtol_consumed_all s hs h)
    · rintro (hs | ⟨blanks, sgn, ds, hs, hb, hsgn, hne, hall⟩)
      · subst hs
        decide
      · rw [hs]
        exact strtol_consumes_number blanks sgn ds hb hsgn hne hall
  · have h := strtol_stops_before_trailing s c hc
    simpa [atopid] using h
  · have h := atopid_digits_prefix p (c :: rest) hne hall
      (fun x hx => by simp at hx; rw [← hx]; exact hc)
    simpa using h

/-- C26 on the strings of the claim: the empty string is valid with pid 0, and
`12ab` is invalid with 12 returned. -/
theorem atopid_valid_iff_consumed_witness :
    atopid [] = (0, true) ∧ atopid ['1', '2', 'a', 'b'] = (12, false) :=
  ⟨(atopid_valid_iff_consumed []).2.2.2.1,
    ((atopid_valid_iff_consumed []).2.2.2.2.2 ['1', '2'] ['b'] 'a' (by decide) (by decide)
      (by decide)).trans (by decide)⟩

/-! ## C21: `frida://usb//<pid>` -/

theorem strchr_split_none (c : Char) (s : CString) (h : c ∉ s) : strchr_split c s = none := by
  induction s with
  | nil => rfl
  | cons x xs ih =>
    have hx : x ≠ c := fun e => h (by simp [e])
    have hxs : c ∉ xs := fun e => h (by simp [e])
    simp [strchr_split, hx, ih hxs]

theorem digits_no_slash (n : CString) (hall : ∀ c ∈ n, isdigit c = true) : '/' ∉ n := by
  intro h
  have := hall '/' h
  revert this
  decide

/-- The pathname `frida://usb//<n>`. -/
theorem resolve_target_usb_pid (finder : Finder) (n : CString) (lo : R2FridaLaunchOptions)
    (shown : List Shown) (hne : n ≠ []) (hall : ∀ c ∈ n, isdigit c = true) :
    resolve_target finder (frida_uri (['u', 's', 'b', '/', '/'] ++ n)) lo shown
      = (true,
          { device_id := some ['u', 's', 'b'], process_specifier := some n,
            pid := to_guint (atopid n).1, pid_valid := true, spawn := true, run := false },
          shown) := by
  have hslash := digits_no_slash n hall
  have hvalid : (atopid n).2 = true := by
    have h := atopid_digits_prefix n [] hne hall (fun c h => by cases h)
    rw [List.append_nil] at h
    rw [h]
    rfl
  rw [resolve_target_of_split finder (['u', 's', 'b', '/', '/'] ++ n) ['u', 's', 'b'] ('/' :: n)
    lo shown (by simp) (by simp) (by simp [starts_with]) (by simp [strchr_split])]
  simp [resolve_device_id_as_uriroot, resolve_device_root, strchr_split,
    strchr_split_none '/' n hslash, is_process_action, hne, hvalid, old_short_uri]

/-- C21. For every decimal pid string `n`, `frida://usb//n` resolves
successfully with `pid = n` (for `n` below `2^31`; in general the number
`atopid` returns), `pid_valid = true` and `run = false`, but with
`spawn = true`, device `usb` and `n` as process specifier: the `usb` branch
returns failure for the empty device and the end of `resolve_target` reads the
double slash as that of `frida://<device>//<program>`. -/
theorem usb_pid_resolves_as_spawn (finder : Finder) (n : CString) (lo : R2FridaLaunchOptions)
    (shown : List Shown) (hne : n ≠ []) (hall : ∀ c ∈ n, isdigit c = true) :
    (resolve_target finder (frida_uri (['u', 's', 'b', '/', '/'] ++ n)) lo shown).1 = true
    ∧ (resolve_target finder (frida_uri (['u', 's', 'b', '/', '/'] ++ n)) lo shown).2.1
      = { device_id := some ['u', 's', 'b'], process_specifier := some n,
          pid := to_guint (atopid n).1, pid_valid := true, spawn := true, run := false }
    ∧ (resolve_target finder (frida_uri (['u', 's', 'b', '/', '/'] ++ n)) lo shown).2.1.spawn
      = true
    ∧ (digits_value n < 2 ^ 31 → to_guint (atopid n).1 = digits_value n) := by
  rw [resolve_target_usb_pid finder n lo shown hne hall]
  refine ⟨rfl, rfl, rfl, fun hsmall => ?_⟩
  have h := atopid_digits_prefix n [] hne hall (fun c h => by cases h)
  rw [List.append_nil] at h
  have hmin : min (digits_value n : Int) ((2 ^ 63 : Int) - 1) = (digits_value n : Int) := by
    have : (digits_value n : Int) < 2 ^ 31 := by exact_mod_cast hsmall
    norm_num at this ⊢
    omega
  rw [h, hmin]
  exact to_guint_to_int_small _ hsmall

/-- C21 at the failing inputs, the two pathnames of the usage text:
`frida://usb//1234` and `frida://usb//0` resolve with `spawn = true`. -/
theorem usb_pid_resolves_as_spawn_witness :
    (resolve_target bare_finder (frida_uri ['u', 's', 'b', '/', '/', '1', '2', '3', '4'])
        r2frida_launchopt_new []).2.1
      = { device_id := some ['u', 's', 'b'], process_specifier := some ['1', '2', '3', '4'],
          pid := 1234, pid_valid := true, spawn := true, run := false }
    ∧ (resolve_target bare_finder (frida_uri ['u', 's', 'b', '/', '/', '0'])
        r2frida_launchopt_new []).2.1.spawn = true :=
  ⟨((usb_pid_resolves_as_spawn bare_finder ['1', '2', '3', '4'] r2frida_launchopt_new []
      (by decide) (by decide)).2.1).trans (by decide),
    (usb_pid_resolves_as_spawn bare_finder ['0'] r2frida_launchopt_new []
      (by decide) (by decide)).2.2.1⟩

/-! ## C22: the short syntax -/

theorem starts_with_dot_slash (f : CString) (hslash : '/' ∉ f) :
    starts_with f ['.', '/'] = false := by
  cases f with
  | nil => rfl
  | cons x xs =>
    cases xs with
    | nil => simp [starts_with]
    | cons y ys =>
      have hy : y ≠ '/' := fun e => hslash (by simp [e])
      simp [starts_with, hy]

theorem head_not_slash (f : CString) (hslash : '/' ∉ f) : f.head? ≠ some '/' := by
  cases f with
  | nil => simp
  | cons x xs =>
    have hx : x ≠ '/' := fun e => hslash (by simp [e])
    simpa using hx

/-- C22, the claim refuted: the first field `?` has no slash and does not begin
with `./`, and `resolve_target` fails on it after printing the usage. -/
theorem resolve_target_help_fails :
    '/' ∉ ['?'] ∧ starts_with ['?'] ['.', '/'] = false
    ∧ resolve_target bare_finder (frida_uri ['?']) r2frida_launchopt_new []
      = (false, r2frida_launchopt_new, resolve_target_help.map Shown.eprintf) :=
  ⟨by decide, rfl, rfl⟩

/-- C22, amended. For every first field `f` other than `?` that contains no
slash (so does not begin with `./` either), `resolve_target` succeeds with
`device_id` unset, `run = false`, `pid` the value of `atoi (f)` as a `guint`
(`atoi (f)` itself when it is not negative), `spawn = true` exactly when
`atoi (f) = 0` and `f` does not begin with the character `0`, and the process
specifier `f` or the path `r_file_path` finds for it; `pid_valid` is left as it
was. -/
theorem short_form_resolves (finder : Finder) (f : CString) (lo : R2FridaLaunchOptions)
    (shown : List Shown) (hhelp : f ≠ ['?']) (hslash : '/' ∉ f) :
    resolve_target finder (frida_uri f) lo shown
      = (true,
          { device_id := none,
            process_specifier := some ((finder.r_file_path f).getD f),
            pid := to_guint (atoi f), pid_valid := lo.pid_valid,
            spawn := decide (atoi f = 0) && f.head? != some '0', run := false },
          shown)
    ∧ (0 ≤ atoi f → (to_guint (atoi f) : Int) = atoi f)
    ∧ ((decide (atoi f = 0) && f.head? != some '0') = true
        ↔ atoi f = 0 ∧ f.head? ≠ some '0') := by
  have hdrop : List.drop 8 (frida_uri f) = f := by simp [frida_uri]
  have hhead := head_not_slash f hslash
  have hzero : (to_guint (atoi f) == 0) = decide (atoi f = 0) := by
    have h := to_guint_to_int_eq_zero (strtol f).1
    simp only [atoi]
    by_cases hz : to_int (strtol f).1 = 0
    · have hz1 := h.mpr hz
      rw [hz1]
      simp [hz]
    · have hz2 : to_guint (to_int (strtol f).1) ≠ 0 := fun e => hz (h.mp e)
      simp [hz, hz2]
  refine ⟨?_, fun hpos => ?_, by simp⟩
  · simp only [resolve_target, hdrop, hhelp, hhead, starts_with_dot_slash f hslash,
      strchr_split_none '/' f hslash, if_false, decide_False, Bool.or_self, Bool.false_eq_true,
      hzero]
  · simp only [to_guint]
    have hlt : atoi f < 2 ^ 31 := by
      simp only [atoi, to_int]
      norm_num
      omega
    norm_num at hlt ⊢
    omega

/-- C22 (amended) on the pathnames of the claim: `frida://123` and `frida://0`
attach, `frida://ls` spawns. -/
theorem short_form_resolves_witness :
    (resolve_target bare_finder (frida_uri ['1', '2', '3']) r2frida_launchopt_new []).2.1
      = { device_id := none, process_specifier := some ['1', '2', '3'], pid := 123,
          pid_valid := false, spawn := false, run := false }
    ∧ (resolve_target bare_finder (frida_uri ['0']) r2frida_launchopt_new []).2.1
      = { device_id := none, process_specifier := some ['0'], pid := 0,
          pid_valid := false, spawn := false, run := false }
    ∧ (resolve_target bare_finder (frida_uri ['l', 's']) r2frida_launchopt_new []).2.1
      = { device_id := none, process_specifier := some ['l', 's'], pid := 0,
          pid_valid := false, spawn := true, run := false } :=
  ⟨(congrArg (fun r => r.2.1) (short_form_resolves bare_finder ['1', '2', '3'] r2frida_launchopt_new []
      (by decide) (by decide)).1).trans (by decide),
    (congrArg (fun r => r.2.1) (short_form_resolves bare_finder ['0'] r2frida_launchopt_new []
      (by decide) (by decide)).1).trans (by decide),
    (congrArg (fun r => r.2.1) (short_form_resolves bare_finder ['l', 's'] r2frida_launchopt_new []
      (by decide) (by decide)).1).trans (by decide)⟩

/-! ## C23: the old short device URIs -/

/-- A first word that is none of `launch`, `spawn`, `attach`, `usb` and
`connect` is no root: `resolve_device_id_as_uriroot` fails and changes
nothing. -/
theorem resolve_device_id_as_uriroot_other (finder : Finder) (d arg : CString)
    (lo : R2FridaLaunchOptions) (shown : List Shown)
    (hlaunch : d ≠ ['l', 'a', 'u', 'n', 'c', 'h']) (hspawn : d ≠ ['s', 'p', 'a', 'w', 'n'])
    (hattach : d ≠ ['a', 't', 't', 'a', 'c', 'h']) (husb : d ≠ ['u', 's', 'b'])
    (hconnect : d ≠ ['c', 'o', 'n', 'n', 'e', 'c', 't']) :
    resolve_device_id_as_uriroot finder d arg lo shown = (false, lo, shown) := by
  simp only [resolve_device_id_as_uriroot, resolve_device_root, hlaunch, hspawn, hattach, husb,
    hconnect, if_false]

/-- C23. For every device word `d` that is not empty, contains no slash, does
not begin with a dot and is none of `launch`, `spawn`, `attach`, `usb` and
`connect`, and for every target `p` that does not begin with a slash:
`frida://d/p` resolves with device `d`, process specifier `p` and
`spawn = false`, and `frida://d//p` resolves with device `d`, process specifier
`p` and `spawn = true`; `run = false` in both, and `pid` and `pid_valid` are
left as they were. -/
theorem old_short_device_uri (finder : Finder) (d p : CString) (lo : R2FridaLaunchOptions)
    (shown : List Shown) (hne : d ≠ []) (hslash : '/' ∉ d) (hdot : d.head? ≠ some '.')
    (hlaunch : d ≠ ['l', 'a', 'u', 'n', 'c', 'h']) (hspawn : d ≠ ['s', 'p', 'a', 'w', 'n'])
    (hattach : d ≠ ['a', 't', 't', 'a', 'c', 'h']) (husb : d ≠ ['u', 's', 'b'])
    (hconnect : d ≠ ['c', 'o', 'n', 'n', 'e', 'c', 't'])
    (hp : p.head? ≠ some '/') :
    resolve_target finder (frida_uri (d ++ '/' :: p)) lo shown
      = (true,
          { device_id := some d, process_specifier := some p, pid := lo.pid,
            pid_valid := lo.pid_valid, spawn := false, run := false },
          shown)
    ∧ resolve_target finder (frida_uri (d ++ '/' :: '/' :: p)) lo shown
      = (true,
          { device_id := some d, process_specifier := some p, pid := lo.pid,
            pid_valid := lo.pid_valid, spawn := true, run := false },
          shown) := by
  obtain ⟨x, xs, hd⟩ : ∃ x xs, d = x :: xs := by
    cases d with
    | nil => exact absurd rfl hne
    | cons x xs => exact ⟨x, xs, rfl⟩
  have hx : x ≠ '/' := fun e => hslash (by simp [hd, e])
  have hxdot : x ≠ '.' := fun e => hdot (by simp [hd, e])
  have hhelp : ∀ q : CString, d ++ '/' :: q ≠ ['?'] := by
    intro q h
    rw [hd] at h
    cases xs <;> simp at h
  have hhead : ∀ q : CString, (d ++ '/' :: q).head? ≠ some '/' := by
    intro q
    simp [hd, hx]
  have hstart : ∀ q : CString, starts_with (d ++ '/' :: q) ['.', '/'] = false := by
    intro q
    rw [hd]
    simp [starts_with, hxdot]
  constructor
  · rw [resolve_target_of_split finder (d ++ '/' :: p) d p lo shown (hhelp p) (hhead p)
        (hstart p) (strchr_split_append '/' d p hslash),
      resolve_device_id_as_uriroot_other finder d p _ shown hlaunch hspawn hattach husb hconnect]
    simp [old_short_uri, hp]
  · rw [resolve_target_of_split finder (d ++ '/' :: '/' :: p) d ('/' :: p) lo shown
        (hhelp _) (hhead _) (hstart _) (strchr_split_append '/' d ('/' :: p) hslash),
      resolve_device_id_as_uriroot_other finder d ('/' :: p) _ shown hlaunch hspawn hattach husb
        hconnect]
    simp [old_short_uri]

/-- C23 for the device `dev1`: `frida://dev1/Safari` attaches and
`frida://dev1//com.app` spawns. -/
theorem old_short_device_uri_witness :
    resolve_target bare_finder (frida_uri (['d', 'e', 'v', '1'] ++ '/' :: ['S', 'a', 'f']))
        r2frida_launchopt_new []
      = (true,
          { device_id := some ['d', 'e', 'v', '1'], process_specifier := some ['S', 'a', 'f'],
            pid := 0, pid_valid := false, spawn := false, run := false },
          [])
    ∧ resolve_target bare_finder
        (frida_uri (['d', 'e', 'v', '1'] ++ '/' :: '/' :: ['S', 'a', 'f']))
        r2frida_launchopt_new []
      = (true,
          { device_id := some ['d', 'e', 'v', '1'], process_specifier := some ['S', 'a', 'f'],
            pid := 0, pid_valid := false, spawn := true, run := false },
          []) :=
  old_short_device_uri bare_finder ['d', 'e', 'v', '1'] ['S', 'a', 'f'] r2frida_launchopt_new []
    (by decide) (by decide) (by decide) (by decide) (by decide) (by decide) (by decide)
    (by decide) (by decide)

/-! ## C24: the flag and the slot -/

/-- C24. In every session reachable from a fresh one (through `on_stanza`,
`on_cmd`, `on_detached`, `on_message`, whole calls of `perform_request`, and
the post and drain steps inside them), `received_reply` is true exactly when
`reply_stanza` is not `NULL`.  So the assertion of `on_stanza`, which tests
`reply_stanza` and `reply_bytes`, holds exactly when `received_reply` is false:
`on_stanza` succeeds exactly in the states in which the wait loop of
`perform_request` sees no reply. -/
theorem received_reply_iff_stanza (host : Host) (rf : RIOFrida)
    (hreach : Reachable host r_io_frida_new rf) :
    (rf.received_reply = true ↔ rf.reply_stanza ≠ none)
    ∧ (rf.reply_stanza.isNone && rf.reply_bytes.isNone) = !rf.received_reply
    ∧ ∀ (s : JsonObject) (b : Option GBytes),
        (∃ rf', on_stanza rf s b = .ok rf') ↔ rf.received_reply = false := by
  obtain ⟨hflag, hbytes⟩ := reachable_reply_slot_consistent host rf hreach
  have hcond : (rf.reply_stanza.isNone && rf.reply_bytes.isNone) = !rf.received_reply := by
    rw [hflag]
    cases hs : rf.reply_stanza with
    | some st => simp
    | none =>
      cases hb : rf.reply_bytes with
      | none => simp
      | some bytes =>
        rw [hs, hb] at hbytes
        exact absurd (hbytes rfl) (by simp)
  refine ⟨?_, hcond, fun s b => ?_⟩
  · rw [hflag]
    cases rf.reply_stanza <;> simp
  · simp only [on_stanza, hcond]
    cases rf.received_reply <;> simp

/-- C24 on the session in which `on_stanza` has stored a reply with bytes: the
flag is set and the stanza is there. -/
theorem received_reply_iff_stanza_witness :
    ({ r_io_frida_new with
        received_reply := true, reply_stanza := some [("value", .str "ok")],
        reply_bytes := some [1, 2] } : RIOFrida).received_reply = true
      ↔ ({ r_io_frida_new with
        received_reply := true, reply_stanza := some [("value", .str "ok")],
        reply_bytes := some [1, 2] } : RIOFrida).reply_stanza ≠ none :=
  (received_reply_iff_stanza echo_host
    { r_io_frida_new with
      received_reply := true, reply_stanza := some [("value", .str "ok")],
      reply_bytes := some [1, 2] }
    (Relation.ReflTransGen.single
      (@Step.on_stanza echo_host r_io_frida_new
        { r_io_frida_new with
          received_reply := true, reply_stanza := some [("value", .str "ok")],
          reply_bytes := some [1, 2] }
        [("value", .str "ok")] (some [1, 2]) rfl))).1

/-! ## C25: `__read` -/

/-- C25. For every count above 0: when the `read` request succeeds with a reply
that carries `n` bytes, `__read` replaces the first `min (n, count)` bytes of
the buffer by the first `min (n, count)` bytes of the reply and leaves the rest
of the buffer alone, and returns `n` as an `int` (`n` itself below `2^31`), so
more than `count` whenever the reply carries more bytes than were asked for;
when the request fails it returns -1 with the buffer unchanged.  A count of 0
or less returns -1 without a request. -/
theorem read_copies_min (host : Host) (io : RIO) (rf : RIOFrida) (buf : List Nat) (count : Int)
    (wakes : List (List Event)) (hcount : 0 < count) :
    (∀ (rf' : RIOFrida) (stanza : JsonObject) (data : GBytes),
      perform_request host rf (read_builder io.off count) none true wakes
        = .returned rf' (some stanza) (some (some data)) →
      __read host io rf buf count wakes
          = .returned rf'
              (data.take (min data.length count.toNat) ++ buf.drop (min data.length count.toNat))
              (to_int data.length)
        ∧ (data.take (min data.length count.toNat)).length = min data.length count.toNat
        ∧ (data.length < 2 ^ 31 → to_int data.length = data.length)
        ∧ (data.length < 2 ^ 31 → count < data.length → count < to_int data.length))
    ∧ (∀ (rf' : RIOFrida) (out : Option (Option GBytes)),
      perform_request host rf (read_builder io.off count) none true wakes
        = .returned rf' none out →
      __read host io rf buf count wakes = .returned rf' buf (-1))
    ∧ (∀ nonpositive : Int, nonpositive ≤ 0 →
      __read host io rf buf nonpositive wakes = .returned rf buf (-1)) := by
  refine ⟨fun rf' stanza data hreq => ⟨?_, ?_, fun hsmall => to_int_small _ hsmall,
    fun hsmall hmore => ?_⟩, fun rf' out hreq => ?_, fun nonpositive hle => ?_⟩
  · simp only [__read, hcount, gt_iff_lt, if_true, hreq, memcpy]
  · simp
  · rw [to_int_small _ hsmall]
    exact hmore
  · simp only [__read, hcount, gt_iff_lt, if_true, hreq]
  · have hnot : ¬ nonpositive > 0 := by omega
    simp only [__read, hnot, if_false]

/-- C25 at scenario A with a reply that is too long: 4 bytes are asked for at
`0x1000`, the reply carries 6; the 4 bytes of the buffer are replaced by the
first 4 of the reply and 6 is returned. -/
theorem read_copies_min_witness :
    ∃ rf', __read echo_host io_at_0x1000 r_io_frida_new [0, 0, 0, 0] 4
        [[Event.message "raw" (some (reply_message [])) (some [1, 2, 3, 4, 5, 6])]]
      = .returned rf' [1, 2, 3, 4] 6 :=
  ⟨_, ((read_copies_min echo_host io_at_0x1000 r_io_frida_new [0, 0, 0, 0] 4
      [[Event.message "raw" (some (reply_message [])) (some [1, 2, 3, 4, 5, 6])]]
      (by decide)).1
      { r_io_frida_new with script := [request_post (read_builder 4096 4) none] }
      [] [1, 2, 3, 4, 5, 6] rfl).1.trans rfl⟩

/-! ## C18: the session mutex -/

theorem read_guarded (t : Thread) (field : Field) (h : t.guarded) : (t.read field).guarded := by
  obtain ⟨hl, ha⟩ := h
  refine ⟨hl, fun a hmem => ?_⟩
  simp only [Thread.read, List.mem_append, List.mem_singleton] at hmem
  rcases hmem with hmem | hmem
  · exact ha a hmem
  · rw [hmem]
    exact hl

theorem write_guarded (t : Thread) (field : Field) (h : t.guarded) : (t.write field).guarded := by
  obtain ⟨hl, ha⟩ := h
  refine ⟨hl, fun a hmem => ?_⟩
  simp only [Thread.write, List.mem_append, List.mem_singleton] at hmem
  rcases hmem with hmem | hmem
  · exact ha a hmem
  · rw [hmem]
    exact hl

theorem lock_enter_guarded : (g_mutex_lock Thread.enter).guarded :=
  ⟨rfl, fun a h => by cases h⟩

theorem cond_wait_guarded (t : Thread) (h : t.guarded) : (g_cond_wait t).guarded :=
  ⟨rfl, h.2⟩

theorem exec_pending_cmd_accesses_guarded (rf : RIOFrida) (t : Thread) (h : t.guarded) :
    (exec_pending_cmd_accesses rf t).guarded := by
  simp only [exec_pending_cmd_accesses]
  cases rf.pending_cmd with
  | none => exact read_guarded _ _ h
  | some pc =>
    exact write_guarded _ _ (read_guarded _ _ (read_guarded _ _ (read_guarded _ _
      (read_guarded _ _ h))))

theorem loop_test_accesses_guarded (rf : RIOFrida) (t : Thread) (h : t.guarded) :
    (loop_test_accesses rf t).guarded := by
  simp only [loop_test_accesses]
  split
  · exact read_guarded _ _ (read_guarded _ _ h)
  · exact read_guarded _ _ h

theorem wait_loop_accesses_guarded (host : Host) (wakes : List (List Event)) :
    ∀ (rf : RIOFrida) (t : Thread), t.guarded → (wait_loop_accesses host rf wakes t).guarded := by
  induction wakes with
  | nil =>
    intro rf t h
    exact loop_test_accesses_guarded rf t h
  | cons batch wakes ih =>
    intro rf t h
    have htest := loop_test_accesses_guarded rf t h
    simp only [wait_loop_accesses]
    split
    · cases deliver host rf batch with
      | error e => exact cond_wait_guarded _ htest
      | ok rf' =>
        exact ih _ _ (exec_pending_cmd_accesses_guarded rf' _ (cond_wait_guarded _ htest))
    · exact htest

theorem take_reply_accesses_guarded (rf : RIOFrida) (t : Thread) (h : t.guarded) :
    (take_reply_accesses rf t).guarded := by
  simp only [take_reply_accesses]
  split
  · exact write_guarded _ _ (write_guarded _ _ (write_guarded _ _ (read_guarded _ _
      (read_guarded _ _ (read_guarded _ _ h)))))
  · exact read_guarded _ _ h

/-- Whatever becomes of the call, the accesses `perform_request` makes without
the mutex are reads of `rf->detach_reason`. -/
theorem perform_request_accesses_unlocked (host : Host) (rf : RIOFrida) (builder : JsonBuilder)
    (data : Option GBytes) (wakes : List (List Event)) :
    ∀ a ∈ (perform_request_accesses host rf builder data wakes Thread.enter).accesses,
      a.locked = false → a = ⟨.detach_reason, false, false⟩ := by
  intro a hmem hunlocked
  simp only [perform_request_accesses] at hmem
  rcases hpm : post_message host rf builder data with ⟨rf1, _ | e⟩
  · rw [hpm] at hmem
    simp only at hmem
    have hloop := wait_loop_accesses_guarded host wakes (exec_pending_cmd_if_needed host rf1) _
      (exec_pending_cmd_accesses_guarded rf1 _ lock_enter_guarded)
    cases hw : wait_loop host (exec_pending_cmd_if_needed host rf1) wakes with
    | aborted e =>
      rw [hw] at hmem
      rw [hloop.2 a hmem] at hunlocked
      cases hunlocked
    | waiting rf2 =>
      rw [hw] at hmem
      rw [hloop.2 a hmem] at hunlocked
      cases hunlocked
    | woke rf2 =>
      rw [hw] at hmem
      simp only at hmem
      have htake := take_reply_accesses_guarded rf2 _ hloop
      split at hmem
      · rw [htake.2 a hmem] at hunlocked
        cases hunlocked
      · simp only [Thread.read, g_mutex_unlock, List.mem_append, List.mem_singleton] at hmem
        rcases hmem with hmem | hmem
        · rw [htake.2 a hmem] at hunlocked
          cases hunlocked
        · exact hmem
  · rw [hpm] at hmem
    cases hmem

/-- When `perform_request` leaves the loop without a reply stanza, the last
thing it does to the session is to read `rf->detach_reason` without the
mutex. -/
theorem perform_request_reads_reason_unlocked (host : Host) (rf rf1 rf2 : RIOFrida)
    (builder : JsonBuilder) (data : Option GBytes) (wakes : List (List Event))
    (hpost : post_message host rf builder data = (rf1, none))
    (hwoke : wait_loop host (exec_pending_cmd_if_needed host rf1) wakes = .woke rf2)
    (hnone : (rf2.received_reply && rf2.reply_stanza.isSome) = false) :
    (perform_request_accesses host rf builder data wakes Thread.enter).accesses.getLast?
      = some ⟨.detach_reason, false, false⟩ := by
  simp only [perform_request_accesses, hpost, hwoke, hnone, Bool.false_eq_true, if_false,
    Thread.read, g_mutex_unlock, List.getLast?_append, List.getLast?_singleton]
  rfl

theorem handler_accesses_locked (rf : RIOFrida) :
    (∀ a ∈ (on_stanza_accesses rf Thread.enter).accesses, a.locked = true)
    ∧ ∀ a ∈ (on_cmd_accesses rf Thread.enter).accesses, a.locked = true := by
  constructor
  · cases hs : rf.reply_stanza <;> cases hb : rf.reply_bytes <;>
      simp [on_stanza_accesses, hs, hb, g_mutex_lock, g_mutex_unlock, Thread.enter, Thread.read,
        Thread.write]
  · cases hp : rf.pending_cmd <;>
      simp [on_cmd_accesses, hp, g_mutex_lock, g_mutex_unlock, Thread.enter, Thread.read,
        Thread.write]

/-- C18, the claim refuted: `on_detached` writes `detached` and
`detach_reason`, and reads `detach_reason` back for the message, before it
takes the mutex; only the write of `crash` is made with the mutex held.
`__close` writes `detached` and frees the crash data without ever taking the
mutex. -/
theorem on_detached_writes_before_lock :
    (on_detached_accesses r_io_frida_new .PROCESS_TERMINATED none Thread.enter).accesses
      = [⟨.detached, true, false⟩, ⟨.detach_reason, true, false⟩, ⟨.detach_reason, false, false⟩,
          ⟨.detach_reason, false, false⟩, ⟨.crash, true, true⟩]
    ∧ (__close_accesses false Thread.enter).accesses
      = [⟨.detached, true, false⟩, ⟨.crash_report, false, false⟩, ⟨.crash, false, false⟩,
          ⟨.crash, true, false⟩] := by
  decide

/-- C18, amended. `on_stanza` and `on_cmd` make every access to the reply slot
and to the callback slot with the mutex held.  `perform_request` makes every
access to the reply slot, the callback slot and `detached` with the mutex held,
whatever the events; the only accesses it makes without the mutex are reads of
`detach_reason`, and it makes one last whenever it leaves the loop without a
reply stanza.  `on_detached` writes `detached` and `detach_reason`, reads
`detach_reason` back, and with a crash frees and writes `crash_report`, all
before it takes the mutex; it writes `crash` with the mutex held.  `__close`
writes `detached`, and `r_io_frida_free` called from it reads `crash_report`,
clears `crash` and may test `detached`, without the mutex. -/
theorem lock_discipline (host : Host) (rf : RIOFrida) (builder : JsonBuilder)
    (data : Option GBytes) (wakes : List (List Event)) (reason : FridaSessionDetachReason)
    (crash : Option FridaCrash) (last_user : Bool) :
    (∀ a ∈ (on_stanza_accesses rf Thread.enter).accesses, a.locked = true)
    ∧ (∀ a ∈ (on_cmd_accesses rf Thread.enter).accesses, a.locked = true)
    ∧ (∀ a ∈ (perform_request_accesses host rf builder data wakes Thread.enter).accesses,
        a.locked = false → a = ⟨.detach_reason, false, false⟩)
    ∧ (∀ rf1 rf2 : RIOFrida, post_message host rf builder data = (rf1, none) →
        wait_loop host (exec_pending_cmd_if_needed host rf1) wakes = .woke rf2 →
        (rf2.received_reply && rf2.reply_stanza.isSome) = false →
        (perform_request_accesses host rf builder data wakes Thread.enter).accesses.getLast?
          = some ⟨.detach_reason, false, false⟩)
    ∧ (on_detached_accesses rf reason crash Thread.enter).accesses
      = [⟨.detached, true, false⟩, ⟨.detach_reason, true, false⟩, ⟨.detach_reason, false, false⟩,
          ⟨.detach_reason, false, false⟩]
        ++ (if crash.isSome then [⟨.crash_report, false, false⟩, ⟨.crash_report, true, false⟩]
            else [])
        ++ [⟨.crash, true, true⟩]
    ∧ (__close_accesses last_user Thread.enter).accesses
      = [⟨.detached, true, false⟩, ⟨.crash_report, false, false⟩, ⟨.crash, false, false⟩,
          ⟨.crash, true, false⟩]
        ++ (if last_user then [⟨.detached, false, false⟩] else []) := by
  refine ⟨(handler_accesses_locked rf).1, (handler_accesses_locked rf).2,
    perform_request_accesses_unlocked host rf builder data wakes,
    fun rf1 rf2 hpost hwoke hnone =>
      perform_request_reads_reason_unlocked host rf rf1 rf2 builder data wakes hpost hwoke hnone,
    ?_, ?_⟩
  · cases crash <;> rfl
  · cases last_user <;> rfl

/-- C18 (amended) on the session detached by `PROCESS_TERMINATED`: a read finds
it detached, leaves the loop at once without a reply, and after releasing the
mutex reads `detach_reason` for the warning. -/
theorem lock_discipline_witness :
    (perform_request_accesses echo_host session_after_detach read_request none []
        Thread.enter).accesses
      = [⟨.pending_cmd, false, true⟩, ⟨.detached, false, true⟩, ⟨.received_reply, false, true⟩,
          ⟨.detach_reason, false, false⟩]
    ∧ (perform_request_accesses echo_host session_after_detach read_request none []
        Thread.enter).accesses.getLast?
      = some ⟨.detach_reason, false, false⟩ :=
  ⟨rfl, (lock_discipline echo_host session_after_detach read_request none []
      .PROCESS_TERMINATED none false).2.2.2.1
    { session_after_detach with script := [request_post read_request none] }
    { session_after_detach with script := [request_post read_request none] } rfl rfl rfl⟩

end R2Frida
